import Mathlib

/-!
# MirroLink: device monitor and mirroring protocol client

A shallow embedding of `src/core/device_manager.cpp` and
`src/core/screen_mirror.cpp`.

Conventions of the embedding:

* The state of a C++ `Impl` object is a structure; a member function is a Lean
  function from the old state (and the values the outside world supplies) to
  the result, the new state and the list of externally visible effects it
  performed, in program order.
* A `std::function` member is represented by a `Bool` telling whether a
  callback is registered; each invocation is recorded as an effect.
* Logger calls are not recorded; mutexes are not modelled (each member
  function runs under its locks as one atomic step).
* `int` is the 32-bit two's complement type: values are kept as mathematical
  integers and wrapped explicitly.
-/

set_option autoImplicit false

namespace mirrolink

/-! ## Device manager (`device_manager.hpp`, `device_manager.cpp`) -/

/-- Record `DeviceInfo` of `device_manager.hpp`. -/
structure DeviceInfo where
  serial : String
  model : String
  manufacturer : String
  api_level : Int
  authorized : Bool
deriving DecidableEq, Repr

/-- One invocation of a registered device callback. -/
inductive DeviceEvent where
  | disconnected (device : DeviceInfo)
  | connected (device : DeviceInfo)
deriving DecidableEq, Repr

/-- Fields `idVendor`, `iSerialNumber`, `iManufacturer`, `iProduct` of
`libusb_device_descriptor`, the only ones the program reads. -/
structure libusb_device_descriptor where
  idVendor : Nat
  iSerialNumber : Nat
  iManufacturer : Nat
  iProduct : Nat
deriving DecidableEq, Repr

/-- What the libusb calls made by `processDevice` and `getDeviceInfo` answer for
one enumerated `libusb_device`.

* `descriptor`: `none` when `libusb_get_device_descriptor` returns non-zero.
* `openOk`: whether `libusb_open` returns 0.
* `asciiString index`: the text produced by
  `libusb_get_string_descriptor_ascii` for that descriptor index, `none` when
  the call returns an error; the return value of the call is the length of
  the text.
* `uninit_api_level`, `uninit_authorized`: the indeterminate contents that the
  members `api_level` and `authorized` of the local `DeviceInfo info;` have,
  since `getDeviceInfo` never assigns them. -/
structure UsbDevice where
  descriptor : Option libusb_device_descriptor
  openOk : Bool
  asciiString : Nat → Option String
  uninit_api_level : Int
  uninit_authorized : Bool

namespace DeviceManager

/-- State of `DeviceManager::Impl` (thread handle and mutexes apart). -/
structure Impl where
  initialized : Bool
  monitoring : Bool
  connectedDevices : List DeviceInfo
  currentDevice : Option DeviceInfo
  connectedCallback : Bool
  disconnectedCallback : Bool
deriving DecidableEq, Repr

/-- Constructor `Impl() : initialized(false), monitoring(false) {}`; the vector
is empty, the optional is disengaged and both callbacks are empty. -/
def Impl.new : Impl :=
  { initialized := false, monitoring := false, connectedDevices := [],
    currentDevice := none, connectedCallback := false, disconnectedCallback := false }

/-- `onDeviceConnected`: registers a callback. -/
def Impl.onDeviceConnected (st : Impl) : Impl :=
  { st with connectedCallback := true }

/-- `onDeviceDisconnected`: registers a callback. -/
def Impl.onDeviceDisconnected (st : Impl) : Impl :=
  { st with disconnectedCallback := true }

/-- `getConnectedDevices`. -/
def Impl.getConnectedDevices (st : Impl) : List DeviceInfo :=
  st.connectedDevices

/-- The loop of `connectDevice`: the first device whose serial equals the
argument, if any. -/
def findDevice (serial : String) : List DeviceInfo → Option DeviceInfo
  | [] => none
  | device :: rest => if device.serial = serial then some device else findDevice serial rest

/-- `connectDevice(serial)`: on the first match `currentDevice = device` and
`true`; `false` with the state untouched when the loop finds none. -/
def Impl.connectDevice (st : Impl) (serial : String) : Bool × Impl :=
  match findDevice serial st.connectedDevices with
  | some device => (true, { st with currentDevice := some device })
  | none => (false, st)

/-- `disconnectDevice`. -/
def Impl.disconnectDevice (st : Impl) : Impl :=
  { st with currentDevice := none }

/-- `isDeviceConnected`. -/
def Impl.isDeviceConnected (st : Impl) : Bool :=
  st.currentDevice.isSome

/-- `isAndroidDevice`: membership of `idVendor` in the vendor table. -/
def androidVendors : List Nat := [0x18d1, 0x04e8, 0x22b8, 0x2717]

/-- `isAndroidDevice(desc)`. -/
def isAndroidDevice (desc : libusb_device_descriptor) : Bool :=
  androidVendors.contains desc.idVendor

/-- One `if (libusb_get_string_descriptor_ascii(...) > 0) field = text;` of
`getDeviceInfo`, started from the empty string of a default-constructed
`std::string`. -/
def readStringField (device : UsbDevice) (index : Nat) : String :=
  match device.asciiString index with
  | some text => if 0 < text.length then text else ""
  | none => ""

/-- `getDeviceInfo(device, desc, info)`: `none` when `libusb_open` fails,
otherwise the filled record (the function then returns `true`). -/
def getDeviceInfo (device : UsbDevice) (desc : libusb_device_descriptor) : Option DeviceInfo :=
  if device.openOk then
    some { serial := readStringField device desc.iSerialNumber
           manufacturer := readStringField device desc.iManufacturer
           model := readStringField device desc.iProduct
           api_level := device.uninit_api_level
           authorized := device.uninit_authorized }
  else none

/-- `processDevice(device, currentDevices)`: appends the record of an Android
device that could be opened. -/
def processDevice (device : UsbDevice) (currentDevices : List DeviceInfo) : List DeviceInfo :=
  match device.descriptor with
  | none => currentDevices
  | some desc =>
    if isAndroidDevice desc then
      match getDeviceInfo device desc with
      | some info => currentDevices ++ [info]
      | none => currentDevices
    else currentDevices

/-- The inner loop of the first half of `updateConnectedDevices`. -/
def stillConnected (existing : DeviceInfo) (currentDevices : List DeviceInfo) : Bool :=
  currentDevices.any (fun current => existing.serial = current.serial)

/-- The inner loop of the second half of `updateConnectedDevices`. -/
def isNew (current : DeviceInfo) (connectedDevices : List DeviceInfo) : Bool :=
  !(connectedDevices.any (fun existing => current.serial = existing.serial))

/-- First loop of `updateConnectedDevices` ("Check for disconnected devices"),
over the remaining elements of `connectedDevices`; carries `currentDevice`
and returns the callback invocations made. -/
def disconnectLoop (disconnectedCallback : Bool) (currentDevices : List DeviceInfo) :
    List DeviceInfo → Option DeviceInfo → Option DeviceInfo × List DeviceEvent
  | [], currentDevice => (currentDevice, [])
  | existing :: rest, currentDevice =>
    if stillConnected existing currentDevices then
      disconnectLoop disconnectedCallback currentDevices rest currentDevice
    else
      let fired := if disconnectedCallback then [DeviceEvent.disconnected existing] else []
      let cleared :=
        match currentDevice with
        | some cur => if cur.serial = existing.serial then none else some cur
        | none => none
      let out := disconnectLoop disconnectedCallback currentDevices rest cleared
      (out.1, fired ++ out.2)

/-- Second loop of `updateConnectedDevices` ("Check for new devices"), over the
remaining elements of `currentDevices`. -/
def connectLoop (connectedCallback : Bool) (connectedDevices : List DeviceInfo) :
    List DeviceInfo → List DeviceEvent
  | [] => []
  | current :: rest =>
    if isNew current connectedDevices then
      (if connectedCallback then [DeviceEvent.connected current] else [])
        ++ connectLoop connectedCallback connectedDevices rest
    else connectLoop connectedCallback connectedDevices rest

/-- `updateConnectedDevices(currentDevices)`. -/
def Impl.updateConnectedDevices (st : Impl) (currentDevices : List DeviceInfo) :
    Impl × List DeviceEvent :=
  let gone := disconnectLoop st.disconnectedCallback currentDevices st.connectedDevices
    st.currentDevice
  let fresh := connectLoop st.connectedCallback st.connectedDevices currentDevices
  ({ st with currentDevice := gone.1, connectedDevices := currentDevices }, gone.2 ++ fresh)

/-- The `for` loop of `checkDevices` over the enumerated devices. -/
def collectDevices (devices : List UsbDevice) : List DeviceInfo :=
  devices.foldl (fun currentDevices device => processDevice device currentDevices) []

/-- `checkDevices()`: `enumeration` is the answer of `libusb_get_device_list`,
`none` when the count is negative (the function then returns at once). -/
def Impl.checkDevices (st : Impl) (enumeration : Option (List UsbDevice)) :
    Impl × List DeviceEvent :=
  match enumeration with
  | none => (st, [])
  | some devices => st.updateConnectedDevices (collectDevices devices)

/-- Number of disconnect-callback invocations in a trace whose record has the
given serial. -/
def disconnectCount (serial : String) (events : List DeviceEvent) : Nat :=
  events.countP (fun e =>
    match e with
    | .disconnected d => d.serial = serial
    | .connected _ => false)

/-- Number of connect-callback invocations in a trace whose record has the
given serial. -/
def connectCount (serial : String) (events : List DeviceEvent) : Nat :=
  events.countP (fun e =>
    match e with
    | .connected d => d.serial = serial
    | .disconnected _ => false)

/-- Number of records of a device list with the given serial. -/
def serialCount (serial : String) (devices : List DeviceInfo) : Nat :=
  devices.countP (fun d => d.serial = serial)

end DeviceManager

/-! ## Machine integers -/

/-- A `uint8_t`. -/
abbrev Byte := Fin 256

/-- Value of the `int` (32-bit two's complement) whose bit pattern is `p`. -/
def intOfPattern (p : Nat) : Int :=
  if p % 4294967296 < 2147483648 then (p % 4294967296 : Nat) else ((p % 4294967296 : Nat) : Int) - 4294967296

/-- Reduction of a mathematical integer to the `int` with the same low 32 bits. -/
def wrapInt32 (x : Int) : Int :=
  (x + 2147483648) % 4294967296 - 2147483648

/-- What the decoder answers for one packet: `avcodec_send_packet` fails,
`avcodec_receive_frame` fails (no frame yet), or a frame with the given `pts`
is received. -/
inductive DecodeOutcome where
  | sendFailed
  | noFrame
  | frame (pts : Int)
deriving DecidableEq, Repr

/-- Answers that the C++ source leaves to the implementation and to the
libraries it calls.

* `wideShift b k`: the value (reduced to 32 bits by the model) of `b << k`
  evaluated in `int` when `k ≥ 32`, which the language does not define.
* `overflowMul a b`: the value (wrapped to `int` by the model) of `a * b`
  evaluated in `int` when the product is not representable.
* `av_new_packet size`: whether FFmpeg's `av_new_packet(packet, size)` returns
  a non-negative value for the `int` argument `size`.
* `resize n`: whether `std::vector::resize(n)` succeeds without
  `std::bad_alloc` for a size within `max_size`.
* `decode i`: what the decoder answers for the `i`-th packet handed to it. -/
structure Env where
  wideShift : Nat → Nat → Nat
  overflowMul : Int → Int → Int
  av_new_packet : Int → Bool
  resize : Nat → Bool
  decode : Nat → DecodeOutcome

/-- An `Env` of the usual kind: shift counts are taken modulo 32 (x86 `shl`),
overflowing products wrap, FFmpeg refuses a negative or oversized packet and
allocates otherwise, and every packet decodes to a frame with `pts` 0. -/
def Env.typical : Env :=
  { wideShift := fun b k => b * 2 ^ (k % 32)
    overflowMul := fun a b => a * b
    av_new_packet := fun size => decide (0 ≤ size ∧ size < 2147483647 - 64)
    resize := fun _ => true
    decode := fun _ => DecodeOutcome.frame 0 }

/-- Bit pattern of `b << k` evaluated in `int`, for a promoted `uint8_t` `b`: for
`k < 32` the low 32 bits of `b * 2^k` (a set bit 31 makes the `int` negative). -/
def shl (env : Env) (b : Nat) (k : Nat) : Nat :=
  if k < 32 then (b * 2 ^ k) % 4294967296 else env.wideShift b k % 4294967296

/-- `a * b` evaluated in `int`. -/
def mulInt (env : Env) (a b : Int) : Int :=
  if -2147483648 ≤ a * b ∧ a * b ≤ 2147483647 then a * b else wrapInt32 (env.overflowMul a b)

/-! ## Packet reader (`screen_mirror.cpp`, `readVideoPacket`) -/

/-- What the peer makes available to one `read` call: an error (`read` returns
-1) or a run of bytes that arrive together. -/
inductive Arrival where
  | error
  | bytes (bs : List Byte)
deriving DecidableEq, Repr

/-- A connected socket: the arrivals still to come, in order. The empty list is
a socket whose peer has closed: every `read` returns 0. -/
abbrev Socket := List Arrival

/-- POSIX `read(sockfd, buf, count)`: return value, bytes stored, socket
afterwards. At most `count` bytes of the first arrival are taken; what is left
of it stays readable. -/
def read (sock : Socket) (count : Nat) : Int × List Byte × Socket :=
  match sock with
  | [] => (0, [], [])
  | Arrival.error :: rest => (-1, [], rest)
  | Arrival.bytes bs :: rest =>
    if bs.length ≤ count then ((bs.length : Int), bs, rest)
    else ((count : Int), bs.take count, Arrival.bytes (bs.drop count) :: rest)

/-- An `AVPacket` as far as the program touches it: payload bytes written so
far, `size` and `pts`. -/
structure AVPacket where
  data : List Byte
  size : Int
  pts : Int
deriving DecidableEq, Repr

/-- `AV_NOPTS_VALUE`. -/
def AV_NOPTS_VALUE : Int := -9223372036854775808

/-- A packet as left by `av_packet_alloc` and by `av_packet_unref`. -/
def AVPacket.blank : AVPacket :=
  { data := [], size := 0, pts := AV_NOPTS_VALUE }

/-- Library and system calls made by `readVideoPacket`, in order. -/
inductive PacketEvent where
  | read (count : Nat) (returned : Int)
  | av_new_packet (size : Int) (ok : Bool)
  | av_packet_unref
deriving DecidableEq, Repr

/-- Result of `readVideoPacket`: return value, packet, socket and calls made. -/
structure PacketResult where
  ok : Bool
  packet : AVPacket
  sock : Socket
  trace : List PacketEvent
deriving DecidableEq, Repr

/-- Element `header[i]` of the 12-byte header array, promoted to `int`; the array
holds the 12 bytes of a full header read whenever it is parsed. -/
def headerByte (header : List Byte) (i : Nat) : Nat :=
  (header.getD i 0).val

/-- `(header[0] << 24) | (header[1] << 16) | (header[2] << 8) | header[3]`
evaluated in `int` and converted to `uint32_t`. -/
def parsePacketSize (env : Env) (header : List Byte) : Nat :=
  shl env (headerByte header 0) 24 ||| shl env (headerByte header 1) 16 |||
    shl env (headerByte header 2) 8 ||| headerByte header 3

/-- `(header[4] << 56) | (header[5] << 48) | (header[6] << 40) | (header[7] << 32) |
(header[8] << 24) | (header[9] << 16) | (header[10] << 8) | header[11]`: every
operand is an `int`, so the expression is evaluated in `int`, and its value is
then converted to the `int64_t` member `pts`. -/
def parsePts (env : Env) (header : List Byte) : Int :=
  intOfPattern
    (shl env (headerByte header 4) 56 ||| shl env (headerByte header 5) 48 |||
      shl env (headerByte header 6) 40 ||| shl env (headerByte header 7) 32 |||
      shl env (headerByte header 8) 24 ||| shl env (headerByte header 9) 16 |||
      shl env (headerByte header 10) 8 ||| headerByte header 11)

/-- The payload loop `while (totalRead < packetSize) { n = read(...); ... }`:
returns whether it completed, the payload bytes stored, the socket and the
reads made. -/
def payloadLoop (packetSize : Nat) (sock : Socket) (totalRead : Nat) (data : List Byte) :
    Bool × List Byte × Socket × List PacketEvent :=
  if _hlt : totalRead < packetSize then
    if _hn : (read sock (packetSize - totalRead)).1 ≤ 0 then
      (false, data, (read sock (packetSize - totalRead)).2.2,
        [PacketEvent.read (packetSize - totalRead) (read sock (packetSize - totalRead)).1])
    else
      let out := payloadLoop packetSize (read sock (packetSize - totalRead)).2.2
        (totalRead + (read sock (packetSize - totalRead)).1.toNat)
        (data ++ (read sock (packetSize - totalRead)).2.1)
      (out.1, out.2.1, out.2.2.1,
        PacketEvent.read (packetSize - totalRead) (read sock (packetSize - totalRead)).1 ::
          out.2.2.2)
  else (true, data, sock, [])
termination_by packetSize - totalRead
decreasing_by omega

/-- `readVideoPacket(sockfd, packet)`. -/
def readVideoPacket (env : Env) (sock : Socket) (packet : AVPacket) : PacketResult :=
  let hdr := read sock 12
  if hdr.1 ≠ 12 then
    { ok := false, packet := packet, sock := hdr.2.2, trace := [PacketEvent.read 12 hdr.1] }
  else
    let header := hdr.2.1
    let packetSize := parsePacketSize env header
    let size := intOfPattern packetSize
    if env.av_new_packet size then
      let body := payloadLoop packetSize hdr.2.2 0 []
      if body.1 then
        { ok := true
          packet := { data := body.2.1, size := size, pts := parsePts env header }
          sock := body.2.2.1
          trace := PacketEvent.read 12 hdr.1 :: PacketEvent.av_new_packet size true :: body.2.2.2 }
      else
        { ok := false
          packet := AVPacket.blank
          sock := body.2.2.1
          trace := PacketEvent.read 12 hdr.1 :: PacketEvent.av_new_packet size true ::
            (body.2.2.2 ++ [PacketEvent.av_packet_unref]) }
    else
      { ok := false, packet := packet, sock := hdr.2.2
        trace := [PacketEvent.read 12 hdr.1, PacketEvent.av_new_packet size false] }

/-- The unsigned integer that a list of bytes encodes in big-endian order (most
significant byte first). -/
def beNat (bs : List Byte) : Nat :=
  bs.foldl (fun acc b => acc * 256 + b.val) 0

/-- The payload length field of a header: bytes 0 to 3, big-endian unsigned. -/
def be32 (header : List Byte) : Nat :=
  beNat (header.take 4)

/-- The signed (two's complement) 64-bit integer that eight bytes encode in
big-endian order. -/
def be64Signed (bs : List Byte) : Int :=
  if beNat bs < 9223372036854775808 then (beNat bs : Int)
  else (beNat bs : Int) - 18446744073709551616

/-! ## Screen mirror (`screen_mirror.hpp`, `screen_mirror.cpp`) -/

/-- Record `ScreenConfig` of `screen_mirror.hpp`. -/
structure ScreenConfig where
  width : Int
  height : Int
  maxFps : Int
  recordAudio : Bool := false
  videoCodec : String := "h264"
  videoBitrate : Int := 8000000
deriving DecidableEq, Repr

/-- Record `FrameData` of `screen_mirror.hpp`; `dataSize` is `data.size()` (the
bytes themselves are written by `sws_scale`). -/
structure FrameData where
  dataSize : Nat
  width : Int
  height : Int
  timestamp : Int
  format : Int
deriving DecidableEq, Repr

/-- FFmpeg's `AV_PIX_FMT_RGBA`. -/
def AV_PIX_FMT_RGBA : Int := 26

/-- Fields that `initializeEncoder` sets on the `AVCodecContext`. -/
structure AVCodecContext where
  width : Int
  height : Int
  time_base : Int × Int
  framerate : Int × Int
deriving DecidableEq, Repr

/-- Arguments with which `sws_getContext` created the scaler. -/
structure SwsContext where
  srcW : Int
  srcH : Int
  dstW : Int
  dstH : Int
deriving DecidableEq, Repr

/-- The external tool commands the Transport Bridge issues. -/
inductive BridgeCommand where
  | push
  | launch (width maxFps videoBitrate : Int)
  | forward
  | forwardRemove
deriving DecidableEq, Repr

/-- Effects of `start`, `stop` and their helpers outside the object: a
`popen` of a bridge command (`started` is false when `popen` returns null), a
`system` call of a bridge command, the join of the capture thread and the
spawn of a capture thread. -/
inductive Effect where
  | popen (cmd : BridgeCommand) (started : Bool)
  | system (cmd : BridgeCommand)
  | join
  | spawn
deriving DecidableEq, Repr

/-- What the outside world answers during one `start` call.

* `push`, `launch`, `forward`: for each `popen`, `none` when it returns null,
  otherwise the exit status that `pclose` reports for the command.
* `codecFound`, `contextAllocated`, `codecOpened`, `scalerCreated`: whether
  `avcodec_find_decoder`, `avcodec_alloc_context3`, `avcodec_open2` and
  `sws_getContext` succeed.
* `threadStarts`: false when the `std::thread` constructor throws. -/
structure SetupEnv where
  push : Option Int
  launch : Option Int
  forward : Option Int
  codecFound : Bool
  contextAllocated : Bool
  codecOpened : Bool
  scalerCreated : Bool
  threadStarts : Bool
deriving DecidableEq, Repr

/-- Calls made by `captureLoop`, in order. -/
inductive CaptureEvent where
  | readVideoPacket (ok : Bool) (trace : List PacketEvent)
  | avcodec_send_packet (ok : Bool)
  | avcodec_receive_frame (ok : Bool)
  | sws_scale (srcSliceH : Int) (destStride : Int)
  | frameCallback (frame : FrameData)
  | caught
  | close
deriving DecidableEq, Repr

/-- Where a run of `captureLoop` stands: it has returned (the thread is over),
or it is still inside its `while` loop. -/
inductive LoopStatus where
  | returned
  | running
deriving DecidableEq, Repr

/-- Outcome of a run of `captureLoop`. -/
structure CaptureResult where
  status : LoopStatus
  events : List CaptureEvent
deriving DecidableEq, Repr

/-- Conversion of an `int` to `size_t` (64 bits). -/
def toSizeT (x : Int) : Nat :=
  (x % 18446744073709551616).toNat

/-- `std::vector<uint8_t>::max_size()`. -/
def vectorMaxSize : Nat := 9223372036854775807

namespace ScreenMirror

/-- State of `ScreenMirror::Impl`. `captureThread` is `joinable()`;
`frameCallback` tells whether a callback is set; `codec`, `stream` tell whether
the pointer is non-null; `formatContext` is `none` for a null pointer and
otherwise tells whether its `pb` is open. -/
structure Impl where
  active : Bool
  recording : Bool
  captureThread : Bool
  frameCallback : Bool
  currentConfig : ScreenConfig
  codec : Bool
  codecContext : Option AVCodecContext
  swsContext : Option SwsContext
  formatContext : Option Bool
  stream : Bool
deriving DecidableEq, Repr

/-- Constructor `Impl() : active(false), recording(false)`; `width`, `height`
and `maxFps` of `currentConfig` have no initializer and start with whatever
values are given here. -/
def Impl.new (width height maxFps : Int) : Impl :=
  { active := false, recording := false, captureThread := false, frameCallback := false
    currentConfig := { width := width, height := height, maxFps := maxFps }
    codec := false, codecContext := none, swsContext := none
    formatContext := none, stream := false }

/-- `setupAdbForward()`: push, launch, forward; a `popen` that returns null makes
the function return `false` at once. The exit status of a started command is
not looked at. -/
def Impl.setupAdbForward (st : Impl) (env : SetupEnv) : Bool × List Effect :=
  match env.push with
  | none => (false, [Effect.popen BridgeCommand.push false])
  | some _ =>
    let launch := BridgeCommand.launch st.currentConfig.width st.currentConfig.maxFps
      st.currentConfig.videoBitrate
    match env.launch with
    | none => (false, [Effect.popen BridgeCommand.push true, Effect.popen launch false])
    | some _ =>
      match env.forward with
      | none =>
        (false, [Effect.popen BridgeCommand.push true, Effect.popen launch true,
          Effect.popen BridgeCommand.forward false])
      | some _ =>
        (true, [Effect.popen BridgeCommand.push true, Effect.popen launch true,
          Effect.popen BridgeCommand.forward true])

/-- `cleanupAdbForward()`. -/
def cleanupAdbForward : List Effect :=
  [Effect.system BridgeCommand.forwardRemove]

/-- `cleanupEncoder()`. -/
def Impl.cleanupEncoder (st : Impl) : Impl :=
  { st with swsContext := none, codecContext := none }

/-- `initializeEncoder()`. -/
def Impl.initializeEncoder (st : Impl) (env : SetupEnv) : Bool × Impl :=
  if !env.codecFound then (false, { st with codec := false })
  else
    let st1 := { st with codec := true }
    if !env.contextAllocated then (false, { st1 with codecContext := none })
    else
      let ctx : AVCodecContext :=
        { width := st.currentConfig.width, height := st.currentConfig.height
          time_base := (1, st.currentConfig.maxFps), framerate := (st.currentConfig.maxFps, 1) }
      let st2 := { st1 with codecContext := some ctx }
      if !env.codecOpened then (false, st2.cleanupEncoder)
      else
        if !env.scalerCreated then (false, Impl.cleanupEncoder { st2 with swsContext := none })
        else
          let sws : SwsContext :=
            { srcW := st.currentConfig.width, srcH := st.currentConfig.height
              dstW := st.currentConfig.width, dstH := st.currentConfig.height }
          (true, { st2 with swsContext := some sws })

/-- `cleanup()`. -/
def Impl.cleanup (st : Impl) : Impl × List Effect :=
  ({ st.cleanupEncoder with active := false }, cleanupAdbForward)

/-- `stop()`. -/
def Impl.stop (st : Impl) : Impl × List Effect :=
  if !st.active then (st, [])
  else
    let st1 := { st with active := false }
    let joined : Impl × List Effect :=
      if st1.captureThread then ({ st1 with captureThread := false }, [Effect.join])
      else (st1, [])
    let cleaned := joined.1.cleanup
    (cleaned.1, joined.2 ++ cleaned.2)

/-- `start(config)`. The result is `none` when the call does not return: the
move assignment to a `captureThread` that is still joinable calls
`std::terminate`. An exception of the `std::thread` constructor is caught by
the handler of `start`. -/
def Impl.start (env : SetupEnv) (st : Impl) (config : ScreenConfig) :
    Option (Bool × Impl × List Effect) :=
  let stopped : Impl × List Effect := if st.active then st.stop else (st, [])
  let st1 := { stopped.1 with currentConfig := config }
  if config.width ≤ 0 ∨ config.height ≤ 0 then some (false, st1, stopped.2)
  else if config.maxFps ≤ 0 ∨ config.maxFps > 120 then some (false, st1, stopped.2)
  else
    let bridge := st1.setupAdbForward env
    if !bridge.1 then some (false, st1, stopped.2 ++ bridge.2)
    else
      let encoder := st1.initializeEncoder env
      if !encoder.1 then some (false, encoder.2, stopped.2 ++ bridge.2 ++ cleanupAdbForward)
      else
        let st2 := { encoder.2 with active := true }
        if !env.threadStarts then
          let cleaned := st2.cleanup
          some (false, cleaned.1, stopped.2 ++ bridge.2 ++ cleaned.2)
        else if st2.captureThread then none
        else some (true, { st2 with captureThread := true }, stopped.2 ++ bridge.2 ++ [Effect.spawn])

/-- `ScreenMirror::getConfig()`. -/
def getConfig (st : Impl) : ScreenConfig :=
  st.currentConfig

/-- `ScreenMirror::isActive()`. -/
def isActive (st : Impl) : Bool :=
  st.active

/-- `ScreenMirror::updateConfig(config)`: `stop(); return start(config);`. -/
def updateConfig (env : SetupEnv) (st : Impl) (config : ScreenConfig) :
    Option (Bool × Impl × List Effect) :=
  let stopped := st.stop
  match stopped.1.start env config with
  | some (ok, st1, effects) => some (ok, st1, stopped.2 ++ effects)
  | none => none

/-- State carried from one iteration of the `while` loop of `captureLoop` to the
next: the socket, the packet and the number of packets handed to the decoder. -/
structure LoopState where
  sock : Socket
  packet : AVPacket
  submitted : Nat
deriving DecidableEq, Repr

/-- One iteration of the body of `while (active)` in `captureLoop`: the state
for the next iteration and the calls made. An exception thrown by
`frameData.data.resize` (a size above `max_size`, or a failed allocation) is
caught by the handler of the loop body. -/
def Impl.captureIteration (st : Impl) (env : Env) (ls : LoopState) :
    LoopState × List CaptureEvent :=
  let r := readVideoPacket env ls.sock ls.packet
  if !r.ok then
    ({ ls with sock := r.sock, packet := r.packet }, [CaptureEvent.readVideoPacket false r.trace])
  else
    let next : LoopState := { sock := r.sock, packet := r.packet, submitted := ls.submitted + 1 }
    match env.decode ls.submitted with
    | DecodeOutcome.sendFailed =>
      (next, [CaptureEvent.readVideoPacket true r.trace, CaptureEvent.avcodec_send_packet false])
    | DecodeOutcome.noFrame =>
      (next, [CaptureEvent.readVideoPacket true r.trace, CaptureEvent.avcodec_send_packet true,
        CaptureEvent.avcodec_receive_frame false])
    | DecodeOutcome.frame pts =>
      let decoded := [CaptureEvent.readVideoPacket true r.trace,
        CaptureEvent.avcodec_send_packet true, CaptureEvent.avcodec_receive_frame true]
      let bytes := toSizeT (mulInt env (mulInt env st.currentConfig.width st.currentConfig.height) 4)
      if bytes ≤ vectorMaxSize ∧ env.resize bytes = true then
        let frameData : FrameData :=
          { dataSize := bytes, width := st.currentConfig.width, height := st.currentConfig.height
            timestamp := pts, format := AV_PIX_FMT_RGBA }
        let scaled := CaptureEvent.sws_scale st.currentConfig.height
          (mulInt env st.currentConfig.width 4)
        (next, decoded ++ [scaled] ++
          (if st.frameCallback then [CaptureEvent.frameCallback frameData] else []))
      else (next, decoded ++ [CaptureEvent.caught])

/-- The `while (active)` loop of `captureLoop`. `activeObs` lists the values
that the loop condition reads from the atomic flag `active`, one for each
evaluation, as the other threads have set it by then; when the list is used
up the run is still inside the loop. -/
def Impl.captureIterations (st : Impl) (env : Env) : List Bool → LoopState → CaptureResult
  | [], _ => { status := LoopStatus.running, events := [] }
  | false :: _, _ => { status := LoopStatus.returned, events := [CaptureEvent.close] }
  | true :: obs, ls =>
    let it := st.captureIteration env ls
    let rest := Impl.captureIterations st env obs it.1
    { status := rest.status, events := it.2 ++ rest.events }

/-- `captureLoop()`: `connection` is the socket that `connectToServer` returns,
`none` when it returns a negative descriptor. -/
def Impl.captureLoop (st : Impl) (env : Env) (connection : Option Socket)
    (activeObs : List Bool) : CaptureResult :=
  match connection with
  | none => { status := LoopStatus.returned, events := [] }
  | some sock =>
    st.captureIterations env activeObs { sock := sock, packet := AVPacket.blank, submitted := 0 }

/-- Number of `readVideoPacket` calls in a run of `captureLoop`. -/
def packetReads (events : List CaptureEvent) : Nat :=
  events.countP (fun e =>
    match e with
    | CaptureEvent.readVideoPacket _ _ => true
    | _ => false)

/-- Whether an effect is a Transport Bridge invocation. -/
def isBridgeInvocation : Effect → Bool
  | Effect.popen _ _ => true
  | Effect.system _ => true
  | Effect.join => false
  | Effect.spawn => false

/-- Condition under which `start` rejects a configuration. -/
def invalidConfig (config : ScreenConfig) : Prop :=
  config.width ≤ 0 ∨ config.height ≤ 0 ∨ config.maxFps ≤ 0 ∨ config.maxFps > 120

instance (config : ScreenConfig) : Decidable (invalidConfig config) := by
  unfold invalidConfig; infer_instance

end ScreenMirror

end mirrolink

/-! ## Specification-side predicates and concrete inputs -/

namespace mirrolink

namespace DeviceManager

/-- Whether `processDevice` appends a record for the device: its descriptor can
be read, its vendor is in the table and it can be opened. -/
def accepted (device : UsbDevice) : Bool :=
  match device.descriptor with
  | some desc => isAndroidDevice desc && device.openOk
  | none => false

/-- Serial that `getDeviceInfo` stores for the device: the text of its serial
descriptor, or the empty string when that descriptor cannot be read. -/
def reportedSerial (device : UsbDevice) : String :=
  match device.descriptor with
  | some desc => readStringField device desc.iSerialNumber
  | none => ""

/-- A Google device (vendor 0x18d1) that can be opened and whose manufacturer
and product strings read "Google" and "Pixel 7", with the given answer for the
serial descriptor (index 3). -/
def usbPixel (serial : Option String) : UsbDevice :=
  { descriptor := some { idVendor := 0x18d1, iSerialNumber := 3, iManufacturer := 1, iProduct := 2 }
    openOk := true
    asciiString := fun index =>
      if index = 1 then some "Google" else if index = 2 then some "Pixel 7"
      else if index = 3 then serial else none
    uninit_api_level := 0
    uninit_authorized := false }

/-- A Samsung device (vendor 0x04e8) that can be opened, with the given answer
for the serial descriptor (index 3). -/
def usbGalaxy (serial : Option String) : UsbDevice :=
  { descriptor := some { idVendor := 0x04e8, iSerialNumber := 3, iManufacturer := 1, iProduct := 2 }
    openOk := true
    asciiString := fun index =>
      if index = 1 then some "Samsung" else if index = 2 then some "Galaxy S23"
      else if index = 3 then serial else none
    uninit_api_level := 0
    uninit_authorized := false }

/-- A fresh manager with both callbacks registered. -/
def listening : Impl :=
  Impl.new.onDeviceConnected.onDeviceDisconnected

/-- The manager `listening` after one poll that enumerated two devices whose
serial descriptors cannot be read. -/
def afterUnreadablePoll : Impl :=
  (listening.checkDevices (some [usbPixel none, usbGalaxy none])).1

/-- The manager `listening` after one poll that enumerated one device with
serial "8A2X" and one with serial "R58M". -/
def afterTwoDevicePoll : Impl :=
  (listening.checkDevices (some [usbPixel (some "8A2X"), usbGalaxy (some "R58M")])).1

end DeviceManager

/-- Whether a payload of `n` bytes is fully available on the socket: the next
arrivals are non-empty runs of bytes, with no error before `n` bytes have
arrived, that together hold at least `n` bytes. -/
def payloadAvailable : Nat → Socket → Bool
  | 0, _ => true
  | _ + 1, [] => false
  | _ + 1, Arrival.error :: _ => false
  | n + 1, Arrival.bytes bs :: rest =>
    !bs.isEmpty && (decide (n + 1 ≤ bs.length) || payloadAvailable (n + 1 - bs.length) rest)

/-- Header announcing a payload of 5 bytes with presentation timestamp 1. -/
def header5 : List Byte := [0, 0, 0, 5, 0, 0, 0, 0, 0, 0, 0, 1]

/-- Five payload bytes. -/
def payload5 : List Byte := [0x65, 0x88, 0x84, 0x00, 0x21]

/-- Header announcing an empty payload with presentation timestamp
`0x0000000100000000` (2^32). -/
def headerTs32 : List Byte := [0, 0, 0, 0, 0, 0, 0, 1, 0, 0, 0, 0]

/-- Header announcing an empty payload with presentation timestamp
`0x0000000080000000` (2^31). -/
def headerTs31 : List Byte := [0, 0, 0, 0, 0, 0, 0, 0, 0x80, 0, 0, 0]

end mirrolink

namespace mirrolink

namespace ScreenMirror

/-- The configuration 1280x720 at 60 frames per second. -/
def config720p : ScreenConfig :=
  { width := 1280, height := 720, maxFps := 60 }

/-- A `start` call during which every external step succeeds. -/
def setupOk : SetupEnv :=
  { push := some 0, launch := some 0, forward := some 0, codecFound := true
    contextAllocated := true, codecOpened := true, scalerCreated := true, threadStarts := true }

/-- A `start` call during which the bridge and the decoder and scaler are set
up, but the `std::thread` constructor throws (`std::system_error`). -/
def setupThreadFails : SetupEnv :=
  { push := some 0, launch := some 0, forward := some 0, codecFound := true
    contextAllocated := true, codecOpened := true, scalerCreated := true, threadStarts := false }

/-- The configuration 1920x1080 at 30 frames per second. -/
def config1080p : ScreenConfig :=
  { width := 1920, height := 1080, maxFps := 30 }

/-- The state of a session that is mirroring with `config720p`: what
`start(config720p)` leaves on a fresh object when every step succeeds. -/
def mirroring720p : Impl :=
  { active := true, recording := false, captureThread := true, frameCallback := false
    currentConfig := config720p, codec := true
    codecContext := some { width := 1280, height := 720, time_base := (1, 60), framerate := (60, 1) }
    swsContext := some { srcW := 1280, srcH := 720, dstW := 1280, dstH := 720 }
    formatContext := none, stream := false }

end ScreenMirror

end mirrolink

namespace mirrolink

namespace ScreenMirror

/-- `setFrameCallback(cb)`: registers a callback. -/
def Impl.setFrameCallback (st : Impl) : Impl :=
  { st with frameCallback := true }

/-- Condition under which `start` accepts a configuration. -/
def acceptedConfig (config : ScreenConfig) : Prop :=
  0 < config.width ∧ 0 < config.height ∧ 0 < config.maxFps ∧ config.maxFps ≤ 120

instance (config : ScreenConfig) : Decidable (acceptedConfig config) := by
  unfold acceptedConfig; infer_instance

/-- The three `popen` calls of `setupAdbForward` return a pipe: the bridge is
established. -/
def bridgeUp (env : SetupEnv) : Prop :=
  env.push.isSome = true ∧ env.launch.isSome = true ∧ env.forward.isSome = true

instance (env : SetupEnv) : Decidable (bridgeUp env) := by
  unfold bridgeUp; infer_instance

/-- The four steps of `initializeEncoder` succeed. -/
def encoderUp (env : SetupEnv) : Prop :=
  env.codecFound = true ∧ env.contextAllocated = true ∧ env.codecOpened = true ∧
    env.scalerCreated = true

instance (env : SetupEnv) : Decidable (encoderUp env) := by
  unfold encoderUp; infer_instance

/-- Every external step of a `start` call succeeds: the bridge is established,
the decoder and the scaler are set up, and the capture thread can be created. -/
def setupSucceeds (env : SetupEnv) : Prop :=
  bridgeUp env ∧ encoderUp env ∧ env.threadStarts = true

instance (env : SetupEnv) : Decidable (setupSucceeds env) := by
  unfold setupSucceeds; infer_instance

/-- What FFmpeg answers during one `initializeRecording` call: whether
`avformat_alloc_output_context2` leaves a non-null context, whether
`avformat_new_stream` returns a stream, whether `avio_open` and
`avformat_write_header` return a non-negative value. -/
structure RecordingEnv where
  contextAllocated : Bool
  streamCreated : Bool
  fileOpened : Bool
  headerWritten : Bool
deriving DecidableEq, Repr

/-- `cleanupRecording()`: an allocated context is freed (after the trailer is
written and the file closed when its `pb` is open) and both pointers are null
afterwards. -/
def Impl.cleanupRecording (st : Impl) : Impl :=
  { st with formatContext := none, stream := false }

/-- `initializeRecording(path)`. -/
def Impl.initializeRecording (st : Impl) (env : RecordingEnv) : Bool × Impl :=
  if st.recording then (false, st)
  else if !env.contextAllocated then (false, { st with formatContext := none })
  else
    let st1 := { st with formatContext := some false }
    if !env.streamCreated then (false, Impl.cleanupRecording { st1 with stream := false })
    else
      let st2 := { st1 with stream := true }
      if !env.fileOpened then (false, st2.cleanupRecording)
      else
        let st3 := { st2 with formatContext := some true }
        if !env.headerWritten then (false, st3.cleanupRecording)
        else (true, st3)

/-- `startRecording(path)`. -/
def Impl.startRecording (st : Impl) (env : RecordingEnv) : Bool × Impl :=
  if st.recording || !st.active then (false, st)
  else
    let made := st.initializeRecording env
    if !made.1 then (false, made.2)
    else (true, { made.2 with recording := true })

/-- `stopRecording()`. -/
def Impl.stopRecording (st : Impl) : Impl :=
  if !st.recording then st
  else Impl.cleanupRecording { st with recording := false }

/-- A call of the public interface of `ScreenMirror` that changes the session
state, with what the outside world answers during the call. -/
inductive Op where
  | setFrameCallback
  | start (env : SetupEnv) (config : ScreenConfig)
  | stop
  | updateConfig (env : SetupEnv) (config : ScreenConfig)
  | startRecording (env : RecordingEnv)
  | stopRecording
deriving DecidableEq, Repr

/-- The state after one call; `none` when the call does not return. -/
def Impl.apply (st : Impl) : Op → Option Impl
  | Op.setFrameCallback => some st.setFrameCallback
  | Op.start env config => (st.start env config).map (fun r => r.2.1)
  | Op.stop => some st.stop.1
  | Op.updateConfig env config => (updateConfig env st config).map (fun r => r.2.1)
  | Op.startRecording env => some (st.startRecording env).2
  | Op.stopRecording => some st.stopRecording

/-- The state after a sequence of calls. -/
def Impl.run (st : Impl) : List Op → Option Impl
  | [] => some st
  | op :: rest =>
    match st.apply op with
    | some next => Impl.run next rest
    | none => none

/-- A state that a freshly constructed object reaches by a sequence of calls. -/
def Reachable (st : Impl) : Prop :=
  ∃ (width height maxFps : Int) (ops : List Op), (Impl.new width height maxFps).run ops = some st

/-- What holds in every reachable state: the thread handle is joinable exactly
when the session is active, an active session has a configuration that passed
validation, and an inactive session holds no decoder or scaler context. -/
def Impl.wellFormed (st : Impl) : Prop :=
  st.captureThread = st.active ∧ (st.active = true → acceptedConfig st.currentConfig) ∧
    (st.active = false → st.codecContext = none ∧ st.swsContext = none)

instance (st : Impl) : Decidable st.wellFormed := by
  unfold Impl.wellFormed; infer_instance

/-- Capture threads created minus capture threads joined by a list of effects. -/
def threadBalance : List Effect → Int
  | [] => 0
  | Effect.spawn :: rest => threadBalance rest + 1
  | Effect.join :: rest => threadBalance rest - 1
  | _ :: rest => threadBalance rest

/-- The frames handed to the frame callback in a run of `captureLoop`. -/
def deliveredFrames : List CaptureEvent → List FrameData
  | [] => []
  | CaptureEvent.frameCallback frame :: rest => frame :: deliveredFrames rest
  | _ :: rest => deliveredFrames rest

/-- Number of packets that `readVideoPacket` read successfully in a run of
`captureLoop`. -/
def packetsRead (events : List CaptureEvent) : Nat :=
  events.countP (fun e =>
    match e with
    | CaptureEvent.readVideoPacket true _ => true
    | _ => false)

/-- The destination strides passed to `sws_scale` in a run of `captureLoop`. -/
def scaleStrides : List CaptureEvent → List Int
  | [] => []
  | CaptureEvent.sws_scale _ destStride :: rest => destStride :: scaleStrides rest
  | _ :: rest => scaleStrides rest

/-- The configuration 32768x32768 at 60 frames per second. -/
def config32k : ScreenConfig :=
  { width := 32768, height := 32768, maxFps := 60 }

/-- The state of a session that is mirroring with `config32k` and has a frame
callback: what `setFrameCallback` and `start(config32k)` leave on a fresh
object when every step succeeds. -/
def mirroring32k : Impl :=
  { active := true, recording := false, captureThread := true, frameCallback := true
    currentConfig := config32k, codec := true
    codecContext := some
      { width := 32768, height := 32768, time_base := (1, 60), framerate := (60, 1) }
    swsContext := some { srcW := 32768, srcH := 32768, dstW := 32768, dstH := 32768 }
    formatContext := none, stream := false }

/-- A `start` call during which `adb push` runs and exits with status 1 (it
reports failure), the other steps succeeding. -/
def setupPushReportsFailure : SetupEnv :=
  { setupOk with push := some 1 }

/-- A socket on which `count` packets arrive, each in one piece: the header
`header5` followed by the 5 bytes `payload5`. -/
def packets5 (count : Nat) : Socket :=
  List.replicate count (Arrival.bytes (header5 ++ payload5))

end ScreenMirror

end mirrolink

namespace mirrolink

namespace gui

namespace MainWindow

/-! ## Main window error policy (`main_window.cpp`, `recoverFromError`) -/

/-- The function-local statics of `recoverFromError`: `errorCount` (an `int`,
kept as a mathematical integer: it grows by one a call) and `lastErrorTime`
(a `Uint32` tick count in milliseconds). -/
structure ErrorStatics where
  errorCount : Int
  lastErrorTime : Nat
deriving DecidableEq, Repr

/-- The initial values `errorCount = 0`, `lastErrorTime = 0`. -/
def ErrorStatics.initial : ErrorStatics :=
  { errorCount := 0, lastErrorTime := 0 }

/-- `a - b` on `Uint32` values. -/
def subUint32 (a b : Nat) : Nat :=
  (a % 4294967296 + 4294967296 - b % 4294967296) % 4294967296

/-- The bookkeeping of `recoverFromError` up to `lastErrorTime = currentTime`:
the count is reset when more than 5000 ms passed since the previous error, and
then incremented. -/
def countError (statics : ErrorStatics) (currentTime : Nat) : ErrorStatics :=
  { errorCount :=
      (if subUint32 currentTime statics.lastErrorTime > 5000 then 0 else statics.errorCount) + 1
    lastErrorTime := currentTime }

/-- `recoverFromError()`, with `currentTime` the value of `SDL_GetTicks()`: the
return value, the statics, the screen mirror and the effects of the recovery
attempt. `none` stands for a `start` that does not return. The functions
called in the recovery attempt raise no exception in this embedding, so its
handler is not entered. -/
def recoverFromError (env : SetupEnv) (statics : ErrorStatics) (currentTime : Nat)
    (screenMirror : ScreenMirror.Impl) :
    Option (Bool × ErrorStatics × ScreenMirror.Impl × List Effect) :=
  let counted := countError statics currentTime
  if counted.errorCount > 5 then some (false, counted, screenMirror, [])
  else if ScreenMirror.isActive screenMirror then
    let stopped := screenMirror.stop
    match stopped.1.start env (ScreenMirror.getConfig stopped.1) with
    | some (_, restarted, effects) => some (true, counted, restarted, stopped.2 ++ effects)
    | none => none
  else some (true, counted, screenMirror, [])

/-- The statics after errors at the given tick values, in chronological order,
starting from the initial statics. -/
def staticsAfter (times : List Nat) : ErrorStatics :=
  times.foldl countError ErrorStatics.initial

/-- Number of the given errors that fall in the 5-second window starting at
`start`. -/
def errorsInWindow (times : List Nat) (start : Nat) : Nat :=
  times.countP (fun t => start ≤ t ∧ t ≤ start + 5000)

/-- Length of the chain that ends with the newest error, for errors listed
newest first: the newest error and the errors before it as long as each error
came at most 5000 ms before its successor. -/
def chainFrom : List Nat → Nat
  | [] => 0
  | [_] => 1
  | t :: previous :: rest =>
    if subUint32 t previous > 5000 then 1 else chainFrom (previous :: rest) + 1

/-- Length of the chain that ends with the last error of a chronological list. -/
def errorChain (times : List Nat) : Nat :=
  chainFrom times.reverse

/-- Errors 4 seconds apart: at 1000, 5000, 9000, 13000 and 17000 ms. -/
def spacedErrors : List Nat := [1000, 5000, 9000, 13000, 17000]

end MainWindow

end gui

end mirrolink

namespace mirrolink

/-! ## Bridge tool command (`input_handler.cpp`, `AdbCommand`) -/

/-- `std::string::find(needle) != npos` on the characters of the two strings. -/
def containsSubstring (needle hay : List Char) : Bool :=
  hay.tails.any (fun rest => needle.isPrefixOf rest)

/-- `AdbCommand::execute(command, checkResult)`: `pipe` is what `popen` gives,
`none` for a null pipe and otherwise the output read from the command. The
result is the captured output, or the message of the `utils::Error` thrown. -/
def AdbCommand.execute (command : String) (pipe : Option String) (checkResult : Bool) :
    Except String String :=
  match pipe with
  | none => Except.error ("Failed to execute ADB command: " ++ command)
  | some result =>
    if checkResult && containsSubstring "error".toList result.toList then
      Except.error ("ADB command failed: " ++ result)
    else Except.ok result

namespace DeviceManager

/-! ## Device manager start-up (`device_manager.cpp`) -/

/-- What the outside world answers during one call of the start-up function of
the device manager: the return value of `libusb_init`, what `popen` gives for
`adb devices` (`none` for a null pipe, otherwise the captured output), and
whether the `std::thread` of the monitor can be created. -/
structure InitEnv where
  libusb_init : Int
  adbDevices : Option String
  threadStarts : Bool
deriving DecidableEq, Repr

/-- Effects of the start-up function outside the object. -/
inductive InitEffect where
  | libusb_init
  | adb (command : String)
  | spawnMonitor
deriving DecidableEq, Repr

/-- `startMonitoring()`: nothing when `monitoring` is set; otherwise the flag is
set and the monitor thread is created. `none` when the `std::thread`
constructor throws, the flag being set already. -/
def Impl.startMonitoring (st : Impl) (threadStarts : Bool) :
    Option Unit × Impl × List InitEffect :=
  if st.monitoring then (some (), st, [])
  else if threadStarts then (some (), { st with monitoring := true }, [InitEffect.spawnMonitor])
  else (none, { st with monitoring := true }, [])

/-- The member function that sets the manager up (`libusb_init`, the
`adb devices` check with `checkResult` false, `startMonitoring`). An
`utils::Error` of the check and any other exception end it with `false`. -/
def Impl.initialize (st : Impl) (env : InitEnv) : Bool × Impl × List InitEffect :=
  if env.libusb_init ≠ 0 then (false, st, [InitEffect.libusb_init])
  else
    let st1 := { st with initialized := true }
    match AdbCommand.execute "devices" env.adbDevices false with
    | Except.error _ => (false, st1, [InitEffect.libusb_init, InitEffect.adb "devices"])
    | Except.ok _ =>
      let started := st1.startMonitoring env.threadStarts
      match started.1 with
      | some _ =>
        (true, started.2.1, [InitEffect.libusb_init, InitEffect.adb "devices"] ++ started.2.2)
      | none =>
        (false, started.2.1, [InitEffect.libusb_init, InitEffect.adb "devices"] ++ started.2.2)

/-- A call that changes the state of the device manager: the public
`connectDevice` and `disconnectDevice`, the registration of a callback, and a
poll of the monitor thread with the snapshot it built. -/
inductive Op where
  | connectDevice (serial : String)
  | disconnectDevice
  | onDeviceConnected
  | onDeviceDisconnected
  | poll (snapshot : List DeviceInfo)
deriving DecidableEq, Repr

/-- The state after one call. -/
def Impl.apply (st : Impl) : Op → Impl
  | Op.connectDevice serial => (st.connectDevice serial).2
  | Op.disconnectDevice => st.disconnectDevice
  | Op.onDeviceConnected => st.onDeviceConnected
  | Op.onDeviceDisconnected => st.onDeviceDisconnected
  | Op.poll snapshot => (st.updateConnectedDevices snapshot).1

/-- The state after a sequence of calls. -/
def Impl.run (st : Impl) (ops : List Op) : Impl :=
  ops.foldl Impl.apply st

/-- ActiveSession, when set, has a serial that occurs in the DeviceSet. -/
def Impl.sessionInSet (st : Impl) : Prop :=
  ∀ cur, st.currentDevice = some cur → ∃ d ∈ st.connectedDevices, d.serial = cur.serial

/-- The callbacks that a poll is to fire: a disconnect callback for each old
record whose serial is absent from the snapshot, in the order of the old
DeviceSet, then a connect callback for each snapshot record whose serial is
absent from the old DeviceSet, in snapshot order. -/
def expectedCallbacks (old snapshot : List DeviceInfo) : List DeviceEvent :=
  (old.filter (fun e => !(snapshot.any (fun c => e.serial = c.serial)))).map
      DeviceEvent.disconnected ++
    (snapshot.filter (fun c => !(old.any (fun e => c.serial = e.serial)))).map
      DeviceEvent.connected

/-- A manager that is set up: what the start-up function leaves on a fresh
manager when every step succeeds. -/
def setUp : Impl :=
  { Impl.new with initialized := true, monitoring := true }

/-- A start-up call during which `libusb_init` succeeds, `adb devices` prints a
device list and the monitor thread can be created. -/
def initOk : InitEnv :=
  { libusb_init := 0, adbDevices := some "List of devices attached\n", threadStarts := true }

end DeviceManager

/-- Header announcing an empty payload with presentation timestamp 1. -/
def header0 : List Byte := [0, 0, 0, 0, 0, 0, 0, 0, 0, 0, 0, 1]

namespace utils

/-! ## Configuration manager (`config_manager.hpp`, `config_manager.cpp`) -/

/-- `ConfigValue = std::variant<bool, int, double, std::string>`; a `double` is
kept as the number it stands for. -/
inductive ConfigValue where
  | bool (b : Bool)
  | int (i : Int)
  | double (x : Rat)
  | string (s : String)
deriving DecidableEq, Repr

/-- The alternative `T` of a `get<T>` or `set<T>`. -/
inductive ConfigType where
  | bool
  | int
  | double
  | string
deriving DecidableEq, Repr

/-- The alternative that a variant holds. -/
def ConfigValue.type : ConfigValue → ConfigType
  | ConfigValue.bool _ => ConfigType.bool
  | ConfigValue.int _ => ConfigType.int
  | ConfigValue.double _ => ConfigType.double
  | ConfigValue.string _ => ConfigType.string

/-- A `std::unordered_map<std::string, ConfigValue>`. -/
abbrev Settings := String → Option ConfigValue

/-- The two maps of a `ConfigManager` object: the member `settings` of
`ConfigManager` itself, which the member templates of the header use, and the
member `settings` of `ConfigManager::Impl`, which the functions forwarded to
`pimpl` use. -/
structure ConfigManager where
  settings : Settings
  pimplSettings : Settings

/-- A newly constructed manager: both maps are empty. -/
def ConfigManager.new : ConfigManager :=
  { settings := fun _ => none, pimplSettings := fun _ => none }

/-- `get<T>(key, defaultValue)`, `T` being the alternative of `defaultValue`:
`std::get<T>` throws for a value of another alternative and the handler
returns the default. -/
def ConfigManager.get (cm : ConfigManager) (key : String) (defaultValue : ConfigValue) :
    ConfigValue :=
  match cm.settings key with
  | some value => if value.type = defaultValue.type then value else defaultValue
  | none => defaultValue

/-- `get<T>(key)` returning `std::optional<T>`. -/
def ConfigManager.getOptional (cm : ConfigManager) (T : ConfigType) (key : String) :
    Option ConfigValue :=
  match cm.settings key with
  | some value => if value.type = T then some value else none
  | none => none

/-- `set<T>(key, value)`: `settings[key] = value`. -/
def ConfigManager.set (cm : ConfigManager) (key : String) (value : ConfigValue) :
    ConfigManager :=
  { cm with settings := fun k => if k = key then some value else cm.settings k }

/-- `ConfigManager::remove(key)`: `pimpl->remove(key)`. -/
def ConfigManager.remove (cm : ConfigManager) (key : String) : ConfigManager :=
  { cm with pimplSettings := fun k => if k = key then none else cm.pimplSettings k }

/-- `ConfigManager::clear()`: `pimpl->clear()`. -/
def ConfigManager.clear (cm : ConfigManager) : ConfigManager :=
  { cm with pimplSettings := fun _ => none }

/-- `ConfigManager::hasKey(key)`: `pimpl->hasKey(key)`. -/
def ConfigManager.hasKey (cm : ConfigManager) (key : String) : Bool :=
  (cm.pimplSettings key).isSome

/-- A sequence of `set(key, value)` calls. -/
def ConfigManager.setAll (cm : ConfigManager) (entries : List (String × ConfigValue)) :
    ConfigManager :=
  entries.foldl (fun acc entry => acc.set entry.1 entry.2) cm

end utils

namespace InputHandler

/-! ## Gamepad input (`input_handler.hpp`, `input_handler.cpp`) -/

/-- Record `GamepadEvent` of `input_handler.hpp`; the `float` member `value` is
kept as the number it stands for. -/
structure GamepadEvent where
  button : Nat
  value : Rat
  pressed : Bool
deriving DecidableEq, Repr

/-- The results of the `float` computations of `sendGamepadEvent`, which the
embedding does not evaluate itself.

* `stickX value`: `static_cast<int>((value + 1.0f) * screenWidth / 2)`.
* `stickY value`: `static_cast<int>((value + 1.0f) * screenHeight / 2)`.
* `roll value`: `static_cast<int>(value * 100)`.
* `beyondDeadZone value`: `std::abs(value) > 0.2f`.
* `triggerPulled value`: `value > 0.8f`.
* `currentX`, `currentY`: `static_cast<int>` of the members of these names. -/
structure AnalogMath where
  stickX : Rat → Int
  stickY : Rat → Int
  roll : Rat → Int
  beyondDeadZone : Rat → Bool
  triggerPulled : Rat → Bool
  currentX : Int
  currentY : Int

/-- Conversion of a number to `int` by `static_cast<int>`: the fraction is
discarded (rounding toward zero). -/
def truncate (x : Rat) : Int :=
  if 0 ≤ x then x.floor else -((-x).floor)

/-- An `AnalogMath` computed on the numbers themselves, for the default screen
size 1920x1080 and the initial position (0, 0). -/
def AnalogMath.exact : AnalogMath :=
  { stickX := fun value => truncate ((value + 1) * 1920 / 2)
    stickY := fun value => truncate ((value + 1) * 1080 / 2)
    roll := fun value => truncate (value * 100)
    beyondDeadZone := fun value => decide (|value| > 1 / 5)
    triggerPulled := fun value => decide (value > 4 / 5)
    currentX := 0
    currentY := 0 }

/-- The first `switch` of `sendGamepadEvent`: the key code of a digital button,
`none` for the `default:` label. -/
def buttonKeycode : Nat → Option String
  | 0 => some "KEYCODE_BUTTON_A"
  | 1 => some "KEYCODE_BUTTON_B"
  | 2 => some "KEYCODE_BUTTON_X"
  | 3 => some "KEYCODE_BUTTON_Y"
  | 4 => some "KEYCODE_BUTTON_L1"
  | 5 => some "KEYCODE_BUTTON_R1"
  | 6 => some "KEYCODE_BUTTON_SELECT"
  | 7 => some "KEYCODE_BUTTON_START"
  | 8 => some "KEYCODE_BUTTON_THUMBL"
  | 9 => some "KEYCODE_BUTTON_THUMBR"
  | 10 => some "KEYCODE_DPAD_UP"
  | 11 => some "KEYCODE_DPAD_DOWN"
  | 12 => some "KEYCODE_DPAD_LEFT"
  | 13 => some "KEYCODE_DPAD_RIGHT"
  | _ => none

/-- The second `switch` of `sendGamepadEvent` ("Handle analog inputs (sticks and
triggers)"): `some commands` when a `case` label matches, with the `adb`
commands it executes before its `return`, and `none` when no label matches. -/
def analogCommands (math : AnalogMath) (event : GamepadEvent) : Option (List String) :=
  match event.button with
  | 14 =>
    some ["shell \"input mouse moveto " ++ toString (math.stickX event.value) ++ " " ++
      toString math.currentY ++ "\""]
  | 15 =>
    some ["shell \"input mouse moveto " ++ toString math.currentX ++ " " ++
      toString (math.stickY event.value) ++ "\""]
  | 16 =>
    some (if math.beyondDeadZone event.value then
      ["shell input roll " ++ toString (math.roll event.value)] else [])
  | 17 =>
    some (if math.beyondDeadZone event.value then
      ["shell input roll " ++ toString (math.roll event.value)] else [])
  | 18 =>
    some (if math.triggerPulled event.value then
      ["shell input keyevent " ++ "KEYCODE_VOLUME_DOWN"] else [])
  | 19 =>
    some (if math.triggerPulled event.value then
      ["shell input keyevent " ++ "KEYCODE_VOLUME_UP"] else [])
  | _ => none

/-- `sendGamepadEvent(event)`: the `adb` commands that it executes. The first
`switch` returns from the function at its `default:` label. -/
def sendGamepadEvent (math : AnalogMath) (event : GamepadEvent) : List String :=
  match buttonKeycode event.button with
  | none => []
  | some keycode =>
    let digital := if event.pressed then ["shell input keyevent " ++ keycode] else []
    if event.button ≥ 14 then
      match analogCommands math event with
      | some commands => commands
      | none => digital
    else digital

end InputHandler

end mirrolink

namespace mirrolink

namespace DeviceManager

/-- The record that `getDeviceInfo` fills for `usbPixel none`: the serial is
left empty. -/
def pixelNoSerial : DeviceInfo :=
  { serial := "", model := "Pixel 7", manufacturer := "Google", api_level := 0,
    authorized := false }

/-- Whether the callback that an invocation needs is registered. -/
def registered (st : Impl) : DeviceEvent → Bool
  | DeviceEvent.disconnected _ => st.disconnectedCallback
  | DeviceEvent.connected _ => st.connectedCallback

/-- The record with serial "8A2X" that `usbPixel (some "8A2X")` gives. -/
def pixel8A2X : DeviceInfo :=
  { serial := "8A2X", model := "Pixel 7", manufacturer := "Google", api_level := 0,
    authorized := false }

/-- The record with serial "R58M" that `usbGalaxy (some "R58M")` gives. -/
def galaxyR58M : DeviceInfo :=
  { serial := "R58M", model := "Galaxy S23", manufacturer := "Samsung", api_level := 0,
    authorized := false }

end DeviceManager

end mirrolink

namespace mirrolink

namespace ScreenMirror

/-- A `startRecording` call during which every container step succeeds. -/
def recordingOk : RecordingEnv :=
  { contextAllocated := true, streamCreated := true, fileOpened := true, headerWritten := true }

/-- A `startRecording` call during which `avformat_write_header` fails. -/
def recordingHeaderFails : RecordingEnv :=
  { contextAllocated := true, streamCreated := true, fileOpened := true, headerWritten := false }

/-- The loop state of `captureLoop` on a socket whose peer has closed. -/
def closedLoopState : LoopState :=
  { sock := [], packet := AVPacket.blank, submitted := 0 }

end ScreenMirror

namespace InputHandler

/-- The left trigger (button 18) pulled to 0.9. -/
def leftTriggerPulled : GamepadEvent :=
  { button := 18, value := 9 / 10, pressed := true }

/-- The left stick (button 14) moved to the centre of its X axis. -/
def leftStickCentred : GamepadEvent :=
  { button := 14, value := 0, pressed := false }

end InputHandler

end mirrolink

/-! # Theorems -/

namespace mirrolink

namespace DeviceManager

/-! ## Device manager: helper lemmas -/

theorem stillConnected_iff (existing : DeviceInfo) (currentDevices : List DeviceInfo) :
    stillConnected existing currentDevices = true ↔
      ∃ d ∈ currentDevices, existing.serial = d.serial := by
  simp [stillConnected]

theorem isNew_iff (current : DeviceInfo) (connectedDevices : List DeviceInfo) :
    isNew current connectedDevices = true ↔
      ∀ d ∈ connectedDevices, current.serial ≠ d.serial := by
  simp [isNew]

theorem disconnectLoop_none (cb : Bool) (cur : List DeviceInfo) (prev : List DeviceInfo) :
    (disconnectLoop cb cur prev none).1 = none := by
  induction prev with
  | nil => rfl
  | cons e rest ih =>
    unfold disconnectLoop
    split
    · exact ih
    · simpa using ih

theorem disconnectCount_append (s : String) (a b : List DeviceEvent) :
    disconnectCount s (a ++ b) = disconnectCount s a + disconnectCount s b := by
  simp [disconnectCount, List.countP_append]

theorem connectCount_append (s : String) (a b : List DeviceEvent) :
    connectCount s (a ++ b) = connectCount s a + connectCount s b := by
  simp [connectCount, List.countP_append]

theorem disconnectCount_disconnectLoop (cb : Bool) (cur : List DeviceInfo) (s : String)
    (habsent : ∀ d ∈ cur, d.serial ≠ s) (prev : List DeviceInfo) (active : Option DeviceInfo) :
    disconnectCount s (disconnectLoop cb cur prev active).2 =
      if cb = true then serialCount s prev else 0 := by
  induction prev generalizing active with
  | nil => simp [disconnectLoop, disconnectCount, serialCount]
  | cons e rest ih =>
    unfold disconnectLoop
    by_cases hs : stillConnected e cur = true
    · obtain ⟨d, hd, hed⟩ := (stillConnected_iff e cur).1 hs
      have hne : e.serial ≠ s := fun h => habsent d hd (hed ▸ h)
      rw [if_pos hs, ih]
      simp [serialCount, List.countP_cons, hne]
    · rw [if_neg hs]
      simp only [disconnectCount_append, ih]
      cases cb <;> by_cases hes : e.serial = s <;>
        simp [disconnectCount, serialCount, List.countP_cons, hes, Nat.add_comm]

theorem disconnectCount_connectLoop (cb : Bool) (prev cur : List DeviceInfo) (s : String) :
    disconnectCount s (connectLoop cb prev cur) = 0 := by
  induction cur with
  | nil => simp [connectLoop, disconnectCount]
  | cons c rest ih =>
    unfold connectLoop
    split
    · rw [disconnectCount_append, ih]
      cases cb <;> simp [disconnectCount]
    · exact ih

theorem connectCount_disconnectLoop (cb : Bool) (cur prev : List DeviceInfo)
    (active : Option DeviceInfo) (s : String) :
    connectCount s (disconnectLoop cb cur prev active).2 = 0 := by
  induction prev generalizing active with
  | nil => simp [disconnectLoop, connectCount]
  | cons e rest ih =>
    unfold disconnectLoop
    split
    · exact ih active
    · simp only [connectCount_append, ih]
      cases cb <;> simp [connectCount]

theorem connectCount_connectLoop (cb : Bool) (prev cur : List DeviceInfo) (s : String) :
    connectCount s (connectLoop cb prev cur) =
      if cb = true ∧ (∀ d ∈ prev, d.serial ≠ s) then serialCount s cur else 0 := by
  induction cur with
  | nil => simp [connectLoop, connectCount, serialCount]
  | cons c rest ih =>
    unfold connectLoop
    by_cases hn : isNew c prev = true
    · rw [if_pos hn, connectCount_append, ih]
      have hall := (isNew_iff c prev).1 hn
      by_cases hcs : c.serial = s
      · have hfresh : ∀ d ∈ prev, d.serial ≠ s := fun d hd h => hall d hd (hcs.trans h.symm)
        have hfresh2 : ∀ d ∈ prev, ¬ d.serial = s := hfresh
        cases cb <;>
          simp [connectCount, serialCount, List.countP_cons, hcs, if_pos hfresh2, Nat.add_comm]
      · cases cb <;> simp [connectCount, serialCount, List.countP_cons, hcs]
    · rw [if_neg hn, ih]
      have hex : ∃ d ∈ prev, c.serial = d.serial := by
        by_contra hcon
        push_neg at hcon
        exact hn ((isNew_iff c prev).2 hcon)
      obtain ⟨d, hd, hcd⟩ := hex
      by_cases hcs : c.serial = s
      · have hnot : ¬ (∀ d ∈ prev, d.serial ≠ s) := fun h => h d hd (hcd ▸ hcs)
        simp [hnot]
      · simp [serialCount, List.countP_cons, hcs]

theorem disconnectLoop_clears (cb : Bool) (cur : List DeviceInfo) (s : String)
    (habsent : ∀ d ∈ cur, d.serial ≠ s) (prev : List DeviceInfo) (active : Option DeviceInfo)
    (hprev : ∃ d ∈ prev, d.serial = s) (hact : ∀ c, active = some c → c.serial = s) :
    (disconnectLoop cb cur prev active).1 = none := by
  induction prev generalizing active with
  | nil => simp at hprev
  | cons e rest ih =>
    unfold disconnectLoop
    by_cases hs : stillConnected e cur = true
    · obtain ⟨d, hd, hed⟩ := (stillConnected_iff e cur).1 hs
      have hne : e.serial ≠ s := fun h => habsent d hd (hed ▸ h)
      rw [if_pos hs]
      apply ih active _ hact
      obtain ⟨d, hd, hds⟩ := hprev
      rcases List.mem_cons.1 hd with rfl | hmem
      · exact absurd hds hne
      · exact ⟨d, hmem, hds⟩
    · rw [if_neg hs]
      cases active with
      | none => simpa using disconnectLoop_none cb cur rest
      | some c =>
        have hc := hact c rfl
        by_cases hce : c.serial = e.serial
        · simpa [hce] using disconnectLoop_none cb cur rest
        · simp only [hce, if_false]
          apply ih (some c) _ hact
          obtain ⟨d, hd, hds⟩ := hprev
          rcases List.mem_cons.1 hd with rfl | hmem
          · exact absurd (hc.trans hds.symm) hce
          · exact ⟨d, hmem, hds⟩

theorem serialCount_eq_one_of_nodup (s : String) (devices : List DeviceInfo)
    (hnodup : (devices.map (fun d => d.serial)).Nodup) (hmem : ∃ d ∈ devices, d.serial = s) :
    serialCount s devices = 1 := by
  have h1 : serialCount s devices = (devices.map (fun d => d.serial)).count s := by
    simp only [serialCount, List.count, List.countP_map, Function.comp_def]
    congr 1
  rw [h1]
  apply List.count_eq_one_of_mem hnodup
  obtain ⟨d, hd, hds⟩ := hmem
  exact List.mem_map.2 ⟨d, hd, hds⟩

end DeviceManager

end mirrolink

namespace mirrolink

namespace DeviceManager

theorem findDevice_eq_none (serial : String) (devices : List DeviceInfo) :
    findDevice serial devices = none ↔ ∀ d ∈ devices, d.serial ≠ serial := by
  induction devices with
  | nil => simp [findDevice]
  | cons d rest ih =>
    unfold findDevice
    by_cases h : d.serial = serial
    · simp [h]
    · simp [h, ih]

theorem findDevice_eq_some (serial : String) (devices : List DeviceInfo) (found : DeviceInfo)
    (h : findDevice serial devices = some found) : found ∈ devices ∧ found.serial = serial := by
  induction devices with
  | nil => simp [findDevice] at h
  | cons d rest ih =>
    unfold findDevice at h
    by_cases hd : d.serial = serial
    · rw [if_pos hd] at h
      cases h
      exact ⟨List.mem_cons_self _ _, hd⟩
    · rw [if_neg hd] at h
      exact ⟨List.mem_cons_of_mem _ (ih h).1, (ih h).2⟩

theorem foldl_processDevice (devices : List UsbDevice) (acc : List DeviceInfo) :
    (devices.foldl (fun currentDevices device => processDevice device currentDevices) acc).map
        (fun d => d.serial) =
      acc.map (fun d => d.serial) ++ (devices.filter accepted).map reportedSerial := by
  induction devices generalizing acc with
  | nil => simp
  | cons dev rest ih =>
    rw [List.foldl_cons, ih]
    cases hdesc : dev.descriptor with
    | none => simp [processDevice, accepted, hdesc]
    | some desc =>
      by_cases handroid : isAndroidDevice desc = true
      · by_cases hopen : dev.openOk = true
        · simp [processDevice, accepted, reportedSerial, getDeviceInfo, hdesc, handroid, hopen]
        · simp [processDevice, accepted, getDeviceInfo, hdesc, handroid, hopen]
      · simp [processDevice, accepted, hdesc, handroid]

theorem connectLoop_self (cb : Bool) (devices : List DeviceInfo) (part : List DeviceInfo)
    (hsub : ∀ d ∈ part, d ∈ devices) : connectLoop cb devices part = [] := by
  induction part with
  | nil => rfl
  | cons c rest ih =>
    unfold connectLoop
    have hnot : ¬ isNew c devices = true := by
      rw [isNew_iff]
      push_neg
      exact ⟨c, hsub c (List.mem_cons_self _ _), rfl⟩
    rw [if_neg hnot]
    exact ih (fun d hd => hsub d (List.mem_cons_of_mem _ hd))

theorem disconnectLoop_self (cb : Bool) (devices : List DeviceInfo) (part : List DeviceInfo)
    (active : Option DeviceInfo) (hsub : ∀ d ∈ part, d ∈ devices) :
    disconnectLoop cb devices part active = (active, []) := by
  induction part with
  | nil => rfl
  | cons e rest ih =>
    unfold disconnectLoop
    have hstill : stillConnected e devices = true :=
      (stillConnected_iff e devices).2 ⟨e, hsub e (List.mem_cons_self _ _), rfl⟩
    rw [if_pos hstill]
    exact ih (fun d hd => hsub d (List.mem_cons_of_mem _ hd))

/-! ## Device manager: the claims -/

/-- C1, as stated, fails: after a poll that enumerated two devices whose serial
descriptor cannot be read, the DeviceSet holds two records with the empty
serial; when the next poll finds no device, that serial occurs in the previous
DeviceSet and not in the new snapshot, and the disconnect callback is invoked
twice with a record of that serial. -/
theorem C1_counterexample :
    (∃ d ∈ afterUnreadablePoll.connectedDevices, d.serial = "") ∧
      (∀ d ∈ ([] : List DeviceInfo), d.serial ≠ "") ∧
      disconnectCount "" (afterUnreadablePoll.updateConnectedDevices []).2 = 2 := by
  decide

/-- C1 (amended): for every manager state, every new snapshot and every serial
`s` that does not occur in the snapshot, the disconnect callback, when one is
registered, is invoked once for each record of the previous DeviceSet whose
serial is `s`, and not at all when none is registered; hence exactly once when
one is registered, `s` occurs in the previous DeviceSet and the serials of that
DeviceSet are pairwise distinct. If `s` occurs in the previous DeviceSet and
ActiveSession referenced `s`, ActiveSession is empty after the poll. -/
theorem C1_disconnect_callbacks (st : Impl) (snapshot : List DeviceInfo) (s : String)
    (habsent : ∀ d ∈ snapshot, d.serial ≠ s) :
    disconnectCount s (st.updateConnectedDevices snapshot).2 =
        (if st.disconnectedCallback = true then serialCount s st.connectedDevices else 0) ∧
      (st.disconnectedCallback = true →
        (st.connectedDevices.map (fun d => d.serial)).Nodup →
        (∃ d ∈ st.connectedDevices, d.serial = s) →
        disconnectCount s (st.updateConnectedDevices snapshot).2 = 1) ∧
      ((∃ d ∈ st.connectedDevices, d.serial = s) →
        (∃ c, st.currentDevice = some c ∧ c.serial = s) →
        (st.updateConnectedDevices snapshot).1.currentDevice = none) := by
  have hcount : disconnectCount s (st.updateConnectedDevices snapshot).2 =
      (if st.disconnectedCallback = true then serialCount s st.connectedDevices else 0) := by
    simp only [Impl.updateConnectedDevices, disconnectCount_append,
      disconnectCount_disconnectLoop _ _ _ habsent, disconnectCount_connectLoop, Nat.add_zero]
  refine ⟨hcount, ?_, ?_⟩
  · intro hcb hnodup hmem
    rw [hcount, if_pos hcb]
    exact serialCount_eq_one_of_nodup s _ hnodup hmem
  · rintro hmem ⟨c, hc, hcs⟩
    simp only [Impl.updateConnectedDevices]
    apply disconnectLoop_clears _ _ s habsent _ _ hmem
    intro c2 hc2
    rw [hc] at hc2
    cases hc2
    exact hcs

/-- Witness of `C1_disconnect_callbacks`: devices "8A2X" and "R58M" were
present and "R58M" was the active session; the next poll sees only "8A2X". -/
theorem C1_disconnect_callbacks_witness :
    disconnectCount "R58M"
        ((afterTwoDevicePoll.connectDevice "R58M").2.updateConnectedDevices
          (collectDevices [usbPixel (some "8A2X")])).2 = 1 ∧
      ((afterTwoDevicePoll.connectDevice "R58M").2.updateConnectedDevices
          (collectDevices [usbPixel (some "8A2X")])).1.currentDevice = none := by
  have h := C1_disconnect_callbacks (afterTwoDevicePoll.connectDevice "R58M").2
    (collectDevices [usbPixel (some "8A2X")]) "R58M" (by decide)
  exact ⟨h.2.1 (by decide) (by decide) (by decide), h.2.2 (by decide) (by decide)⟩

/-- C2, as stated, fails: on a fresh manager with a connect callback, a poll
that enumerates two devices whose serial descriptor cannot be read gives a
snapshot in which the empty serial, absent from the previous DeviceSet, is
present, and the connect callback is invoked twice for it. -/
theorem C2_counterexample :
    (∀ d ∈ listening.connectedDevices, d.serial ≠ "") ∧
      (∃ d ∈ collectDevices [usbPixel none, usbGalaxy none], d.serial = "") ∧
      connectCount ""
        (listening.updateConnectedDevices (collectDevices [usbPixel none, usbGalaxy none])).2 = 2 := by
  decide

/-- C2 (amended): for every manager state, every new snapshot and every serial
`s`, the connect callback is invoked once for each record of the snapshot whose
serial is `s` when a callback is registered and `s` is absent from the previous
DeviceSet (hence exactly once when the snapshot holds one such record), and is
not invoked for `s` otherwise, in particular when `s` is present in both;
polling the same snapshot again fires no callback at all. -/
theorem C2_connect_callbacks (st : Impl) (snapshot : List DeviceInfo) (s : String) :
    connectCount s (st.updateConnectedDevices snapshot).2 =
        (if st.connectedCallback = true ∧ (∀ d ∈ st.connectedDevices, d.serial ≠ s)
          then serialCount s snapshot else 0) ∧
      ((st.updateConnectedDevices snapshot).1.updateConnectedDevices snapshot).2 = [] := by
  constructor
  · simp only [Impl.updateConnectedDevices, connectCount_append, connectCount_disconnectLoop,
      connectCount_connectLoop, Nat.zero_add]
  · simp only [Impl.updateConnectedDevices]
    rw [connectLoop_self _ _ _ (fun d hd => hd), disconnectLoop_self _ _ _ _ (fun d hd => hd)]
    rfl

/-- C3: for every manager state and every serial that does not occur in the
current DeviceSet, `connectDevice(serial)` returns false and leaves the whole
state, ActiveSession and DeviceSet included, as it was; on a fresh manager
`isDeviceConnected()` is false after the call. -/
theorem C3_connect_unknown_serial (st : Impl) (serial : String)
    (habsent : ∀ d ∈ st.connectedDevices, d.serial ≠ serial) :
    st.connectDevice serial = (false, st) ∧
      (Impl.new.connectDevice serial).1 = false ∧
      (Impl.new.connectDevice serial).2.isDeviceConnected = false := by
  refine ⟨?_, ?_, ?_⟩
  · unfold Impl.connectDevice
    rw [(findDevice_eq_none serial st.connectedDevices).2 habsent]
  · rfl
  · rfl

/-- Witness of `C3_connect_unknown_serial`: with "8A2X" and "R58M" attached and
"8A2X" the active session, connecting to "nonexistent_serial" fails and changes
nothing. -/
theorem C3_connect_unknown_serial_witness :
    (afterTwoDevicePoll.connectDevice "8A2X").2.connectDevice "nonexistent_serial" =
      (false, (afterTwoDevicePoll.connectDevice "8A2X").2) :=
  (C3_connect_unknown_serial (afterTwoDevicePoll.connectDevice "8A2X").2 "nonexistent_serial"
    (by decide)).1

/-- C4: for every manager state and every serial, `connectDevice(serial)`
returns true exactly when some record of the current DeviceSet has that serial,
and then ActiveSession holds a record of the DeviceSet whose serial is the
argument, the DeviceSet being unchanged. -/
theorem C4_connect_iff_present (st : Impl) (serial : String) :
    ((st.connectDevice serial).1 = true ↔ ∃ d ∈ st.connectedDevices, d.serial = serial) ∧
      ((st.connectDevice serial).1 = true →
        ∃ d ∈ st.connectedDevices, d.serial = serial ∧
          (st.connectDevice serial).2.currentDevice = some d ∧
          (st.connectDevice serial).2.connectedDevices = st.connectedDevices) := by
  unfold Impl.connectDevice
  cases hfind : findDevice serial st.connectedDevices with
  | none =>
    have hall := (findDevice_eq_none serial st.connectedDevices).1 hfind
    simp only [Bool.false_eq_true, false_iff, false_implies, and_true]
    rintro ⟨d, hd, hds⟩
    exact hall d hd hds
  | some found =>
    have hfound := findDevice_eq_some serial st.connectedDevices found hfind
    exact ⟨⟨fun _ => ⟨found, hfound.1, hfound.2⟩, fun _ => rfl⟩,
      fun _ => ⟨found, hfound.1, hfound.2, rfl, rfl⟩⟩

/-- C5, as stated, fails: one poll of a fresh manager that enumerates two
devices whose serial descriptor cannot be read stores two records with the
empty serial, and one that enumerates two devices reporting the same serial
"R58M" stores two records with that serial. -/
theorem C5_counterexample :
    (Impl.new.checkDevices (some [usbPixel none, usbGalaxy none])).1.connectedDevices.map
        (fun d => d.serial) = ["", ""] ∧
      (Impl.new.checkDevices
        (some [usbPixel (some "R58M"), usbGalaxy (some "R58M")])).1.connectedDevices.map
        (fun d => d.serial) = ["R58M", "R58M"] := by
  decide

/-- C5 (amended): the DeviceSet stored by a poll holds one record for each
enumerated device whose descriptor can be read, whose vendor is allow-listed
and which can be opened, in enumeration order, with the serial the device
reports (empty when its serial descriptor cannot be read); its serials are
pairwise distinct exactly when those of the enumerated devices are. A poll
whose enumeration fails leaves the DeviceSet as it was. -/
theorem C5_stored_serials (st : Impl) (devices : List UsbDevice) :
    (st.checkDevices (some devices)).1.connectedDevices.map (fun d => d.serial) =
        (devices.filter accepted).map reportedSerial ∧
      (((st.checkDevices (some devices)).1.connectedDevices.map (fun d => d.serial)).Nodup ↔
        ((devices.filter accepted).map reportedSerial).Nodup) ∧
      (st.checkDevices none).1 = st := by
  have h : (st.checkDevices (some devices)).1.connectedDevices.map (fun d => d.serial) =
      (devices.filter accepted).map reportedSerial := by
    simp only [Impl.checkDevices, Impl.updateConnectedDevices, collectDevices]
    rw [foldl_processDevice]
    simp
  exact ⟨h, by rw [h], rfl⟩

end DeviceManager

end mirrolink

namespace mirrolink

/-! ## Packet reader: helper lemmas -/

theorem payloadLoop_done (packetSize : Nat) (sock : Socket) (totalRead : Nat) (data : List Byte)
    (h : packetSize ≤ totalRead) :
    payloadLoop packetSize sock totalRead data = (true, data, sock, []) := by
  rw [payloadLoop, dif_neg (by omega)]

theorem payloadLoop_fail (packetSize : Nat) (sock : Socket) (totalRead : Nat) (data : List Byte)
    (h : totalRead < packetSize) (hn : (read sock (packetSize - totalRead)).1 ≤ 0) :
    payloadLoop packetSize sock totalRead data =
      (false, data, (read sock (packetSize - totalRead)).2.2,
        [PacketEvent.read (packetSize - totalRead) (read sock (packetSize - totalRead)).1]) := by
  rw [payloadLoop, dif_pos h, dif_pos hn]

theorem payloadLoop_step (packetSize : Nat) (sock : Socket) (totalRead : Nat) (data : List Byte)
    (h : totalRead < packetSize) (hn : 0 < (read sock (packetSize - totalRead)).1) :
    payloadLoop packetSize sock totalRead data =
      ((payloadLoop packetSize (read sock (packetSize - totalRead)).2.2
          (totalRead + (read sock (packetSize - totalRead)).1.toNat)
          (data ++ (read sock (packetSize - totalRead)).2.1)).1,
        (payloadLoop packetSize (read sock (packetSize - totalRead)).2.2
          (totalRead + (read sock (packetSize - totalRead)).1.toNat)
          (data ++ (read sock (packetSize - totalRead)).2.1)).2.1,
        (payloadLoop packetSize (read sock (packetSize - totalRead)).2.2
          (totalRead + (read sock (packetSize - totalRead)).1.toNat)
          (data ++ (read sock (packetSize - totalRead)).2.1)).2.2.1,
        PacketEvent.read (packetSize - totalRead) (read sock (packetSize - totalRead)).1 ::
          (payloadLoop packetSize (read sock (packetSize - totalRead)).2.2
            (totalRead + (read sock (packetSize - totalRead)).1.toNat)
            (data ++ (read sock (packetSize - totalRead)).2.1)).2.2.2) := by
  rw [payloadLoop, dif_pos h, dif_neg (by omega)]

theorem read_pos (sock : Socket) (count : Nat) (h : 0 < (read sock count).1) :
    (read sock count).2.1.length = (read sock count).1.toNat ∧
      (read sock count).1.toNat ≤ count := by
  unfold read at h ⊢
  split
  · simp at h
  · simp at h
  · split
    · simp; assumption
    · simp; omega

theorem payloadLoop_length (packetSize : Nat) (sock : Socket) (totalRead : Nat)
    (data : List Byte) (hle : totalRead ≤ packetSize)
    (hok : (payloadLoop packetSize sock totalRead data).1 = true) :
    (payloadLoop packetSize sock totalRead data).2.1.length =
      data.length + (packetSize - totalRead) := by
  induction sock, totalRead, data using payloadLoop.induct packetSize with
  | case1 sock tr data hlt hn =>
    rw [payloadLoop_fail _ _ _ _ hlt hn] at hok
    simp at hok
  | case2 sock tr data hlt hn ih =>
    have hpos : 0 < (read sock (packetSize - tr)).1 := by omega
    obtain ⟨hlen, hcount⟩ := read_pos _ _ hpos
    rw [payloadLoop_step _ _ _ _ hlt hpos] at hok ⊢
    simp only at hok ⊢
    rw [ih (by omega) hok, List.length_append, hlen]
    omega
  | case3 sock tr data hge =>
    rw [payloadLoop_done _ _ _ _ (by omega)]
    simp only
    omega

theorem intOfPattern_range (p : Nat) :
    -2147483648 ≤ intOfPattern p ∧ intOfPattern p < 2147483648 := by
  unfold intOfPattern
  split <;> omega

theorem intOfPattern_nonneg (p : Nat) (hp : p < 4294967296) (h : 0 ≤ intOfPattern p) :
    intOfPattern p = (p : Int) := by
  unfold intOfPattern at h ⊢
  rw [Nat.mod_eq_of_lt hp] at h ⊢
  split
  · rfl
  · rename_i hbig
    rw [if_neg hbig] at h
    omega

theorem or_bytes_eq (b0 b1 b2 b3 : Nat) (h0 : b0 < 256) (h1 : b1 < 256) (h2 : b2 < 256)
    (h3 : b3 < 256) :
    (b0 * 2 ^ 24) % 4294967296 ||| (b1 * 2 ^ 16) % 4294967296 |||
        (b2 * 2 ^ 8) % 4294967296 ||| b3 =
      b0 * 16777216 + b1 * 65536 + b2 * 256 + b3 := by
  have e0 : (b0 * 2 ^ 24) % 4294967296 = 2 ^ 24 * b0 := by omega
  have e1 : (b1 * 2 ^ 16) % 4294967296 = 2 ^ 16 * b1 := by omega
  have e2 : (b2 * 2 ^ 8) % 4294967296 = 2 ^ 8 * b2 := by omega
  rw [e0, e1, e2, Nat.lor_assoc, Nat.lor_assoc]
  rw [← Nat.mul_add_lt_is_or (by omega : b3 < 2 ^ 8) b2]
  rw [← Nat.mul_add_lt_is_or (by omega : 2 ^ 8 * b2 + b3 < 2 ^ 16) b1]
  rw [← Nat.mul_add_lt_is_or (by omega : 2 ^ 16 * b1 + (2 ^ 8 * b2 + b3) < 2 ^ 24) b0]
  omega

theorem parsePacketSize_eq_be32 (env : Env) (header : List Byte) (hlen : 4 ≤ header.length) :
    parsePacketSize env header = be32 header ∧ be32 header < 4294967296 := by
  match header, hlen with
  | b0 :: b1 :: b2 :: b3 :: rest, _ =>
    have h0 := b0.isLt
    have h1 := b1.isLt
    have h2 := b2.isLt
    have h3 := b3.isLt
    have hbe : be32 (b0 :: b1 :: b2 :: b3 :: rest) =
        b0.val * 16777216 + b1.val * 65536 + b2.val * 256 + b3.val := by
      simp only [be32, beNat, List.take, List.foldl]
      omega
    constructor
    · rw [hbe]
      simp only [parsePacketSize, shl, headerByte, List.getD_cons_zero, List.getD_cons_succ,
        show (24 : Nat) < 32 by decide, show (16 : Nat) < 32 by decide,
        show (8 : Nat) < 32 by decide, if_true]
      exact or_bytes_eq _ _ _ _ h0 h1 h2 h3
    · rw [hbe]
      omega

end mirrolink

namespace mirrolink

/-! ## Packet reader: the claims -/

/-- C6, evaluation at the failing input: the header bytes 4 to 11
`00 00 00 01 00 00 00 00` encode the timestamp 2^32, but the expression that
`readVideoPacket` assigns to `pts` is evaluated in `int`, so whatever the
over-wide shifts yield its value is below 2^31; with shift counts taken modulo
32 the packet is produced with `pts` 1. Likewise `00 00 00 00 80 00 00 00`
encodes 2^31 and is read as -2^31. -/
theorem C6_timestamp_evaluated_in_int :
    be64Signed (headerTs32.drop 4) = 4294967296 ∧
      (∀ env : Env, parsePts env headerTs32 < 2147483648) ∧
      readVideoPacket Env.typical [Arrival.bytes headerTs32] AVPacket.blank =
        { ok := true, packet := { data := [], size := 0, pts := 1 }, sock := []
          trace := [PacketEvent.read 12 12, PacketEvent.av_new_packet 0 true] } ∧
      be64Signed (headerTs31.drop 4) = 2147483648 ∧
      parsePts Env.typical headerTs31 = -2147483648 := by
  refine ⟨by decide, fun env => (intOfPattern_range _).2, ?_, by decide, by decide⟩
  have hsize : parsePacketSize Env.typical headerTs32 = 0 := by decide
  have hpts : parsePts Env.typical headerTs32 = 1 := by decide
  have hread : read [Arrival.bytes headerTs32] 12 = (12, headerTs32, []) := by decide
  have halloc : Env.typical.av_new_packet 0 = true := by decide
  have hint : intOfPattern 0 = 0 := by decide
  simp only [readVideoPacket, hread, hsize, hpts, hint, halloc,
    payloadLoop_done 0 [] 0 [] (Nat.le_refl 0), ne_eq, not_true_eq_false, if_false, if_true]

theorem payloadAvailable_zero (sock : Socket) : payloadAvailable 0 sock = true := by
  unfold payloadAvailable
  rfl

theorem payloadLoop_ok_of_available (packetSize : Nat) (sock : Socket) (totalRead : Nat)
    (data : List Byte) (hle : totalRead ≤ packetSize)
    (havail : payloadAvailable (packetSize - totalRead) sock = true) :
    (payloadLoop packetSize sock totalRead data).1 = true := by
  induction sock, totalRead, data using payloadLoop.induct packetSize with
  | case1 sock tr data hlt hn =>
    exfalso
    obtain ⟨n, hn1⟩ : ∃ n, packetSize - tr = n + 1 := ⟨packetSize - tr - 1, by omega⟩
    rw [hn1] at havail hn
    match sock with
    | [] => simp [payloadAvailable] at havail
    | Arrival.error :: rest => simp [payloadAvailable] at havail
    | Arrival.bytes bs :: rest =>
      simp only [payloadAvailable, Bool.and_eq_true, Bool.not_eq_true', List.isEmpty_eq_false] at havail
      have hbs : 0 < bs.length := List.length_pos.2 (by simpa using havail.1)
      by_cases hfit : bs.length ≤ n + 1
      · simp only [read, hfit, if_true] at hn
        omega
      · simp only [read, hfit, if_false] at hn
        omega
  | case2 sock tr data hlt hn ih =>
    have hpos : 0 < (read sock (packetSize - tr)).1 := by omega
    rw [payloadLoop_step _ _ _ _ hlt hpos]
    simp only
    obtain ⟨hlen, hcount⟩ := read_pos _ _ hpos
    apply ih (by omega)
    obtain ⟨n, hn1⟩ : ∃ n, packetSize - tr = n + 1 := ⟨packetSize - tr - 1, by omega⟩
    rw [hn1] at havail hpos hcount ⊢
    match sock with
    | [] => simp [payloadAvailable] at havail
    | Arrival.error :: rest => simp [payloadAvailable] at havail
    | Arrival.bytes bs :: rest =>
      simp only [payloadAvailable, Bool.and_eq_true, Bool.or_eq_true, decide_eq_true_eq] at havail
      by_cases hfit : bs.length ≤ n + 1
      · have hr : read (Arrival.bytes bs :: rest) (n + 1) = ((bs.length : Int), bs, rest) := by
          simp [read, hfit]
        rw [hr]
        simp only [Int.toNat_ofNat]
        rcases havail.2 with hall | hrest
        · have hzero : packetSize - (tr + bs.length) = 0 := by omega
          rw [hzero]
          exact payloadAvailable_zero _
        · have heq : packetSize - (tr + bs.length) = n + 1 - bs.length := by omega
          rw [heq]
          exact hrest
      · have hr : read (Arrival.bytes bs :: rest) (n + 1) =
            (((n + 1 : Nat) : Int), bs.take (n + 1), Arrival.bytes (bs.drop (n + 1)) :: rest) := by
          simp [read, hfit]
        rw [hr]
        simp only [Int.toNat_ofNat]
        have hzero : packetSize - (tr + (n + 1)) = 0 := by omega
        rw [hzero]
        exact payloadAvailable_zero _
  | case3 sock tr data hge =>
    rw [payloadLoop_done _ _ _ _ (by omega)]

theorem readVideoPacket_length_of_ok (env : Env) (sock : Socket) (packet : AVPacket)
    (hheader : (read sock 12).1 = 12)
    (hok : (readVideoPacket env sock packet).ok = true) :
    (readVideoPacket env sock packet).packet.data.length = be32 (read sock 12).2.1 ∧
      (readVideoPacket env sock packet).packet.size = intOfPattern (be32 (read sock 12).2.1) := by
  have hlen : (read sock 12).2.1.length = 12 := by
    have h := (read_pos sock 12 (by omega)).1
    rw [h, hheader]
    rfl
  obtain ⟨hsize, hbound⟩ := parsePacketSize_eq_be32 env (read sock 12).2.1 (by omega)
  unfold readVideoPacket at hok ⊢
  simp only [hheader, ne_eq, not_true_eq_false, if_false] at hok ⊢
  by_cases halloc : env.av_new_packet (intOfPattern (parsePacketSize env (read sock 12).2.1)) = true
  · simp only [halloc, if_true] at hok ⊢
    by_cases hbody : (payloadLoop (parsePacketSize env (read sock 12).2.1) (read sock 12).2.2 0 []).1
        = true
    · simp only [hbody, if_true] at hok ⊢
      refine ⟨?_, ?_⟩
      · rw [payloadLoop_length _ _ _ _ (Nat.zero_le _) hbody, hsize]
        simp
      · rw [hsize]
    · simp [hbody] at hok
  · simp [halloc] at hok

/-- C7: for every header of 12 bytes read in full whose payload is then fully
available and for which the packet allocation succeeds, `readVideoPacket`
returns true and the payload of the produced packet has exactly as many bytes
as the big-endian unsigned 32-bit integer in header bytes 0 to 3 (the packet's
`size` is that integer too when it is below 2^31); the parsed `packetSize`
equals that integer for all byte values, a first byte of 0x80 or above
included. -/
theorem C7_payload_length (env : Env) (sock : Socket) (packet : AVPacket)
    (hheader : (read sock 12).1 = 12)
    (halloc : env.av_new_packet (intOfPattern (be32 (read sock 12).2.1)) = true)
    (havail : payloadAvailable (be32 (read sock 12).2.1) (read sock 12).2.2 = true) :
    (readVideoPacket env sock packet).ok = true ∧
      (readVideoPacket env sock packet).packet.data.length = be32 (read sock 12).2.1 ∧
      (be32 (read sock 12).2.1 < 2147483648 →
        (readVideoPacket env sock packet).packet.size = (be32 (read sock 12).2.1 : Int)) ∧
      parsePacketSize env (read sock 12).2.1 = be32 (read sock 12).2.1 := by
  have hlen : (read sock 12).2.1.length = 12 := by
    have h := (read_pos sock 12 (by omega)).1
    rw [h, hheader]
    rfl
  obtain ⟨hsize, _⟩ := parsePacketSize_eq_be32 env (read sock 12).2.1 (by omega)
  have hbody : (payloadLoop (be32 (read sock 12).2.1) (read sock 12).2.2 0 []).1 = true :=
    payloadLoop_ok_of_available _ _ 0 [] (Nat.zero_le _) (by simpa using havail)
  have hok : (readVideoPacket env sock packet).ok = true := by
    unfold readVideoPacket
    simp only [hheader, hsize, halloc, hbody, ne_eq, not_true_eq_false, if_false, if_true]
  have h := readVideoPacket_length_of_ok env sock packet hheader hok
  refine ⟨hok, h.1, ?_, hsize⟩
  intro hsmall
  rw [h.2]
  unfold intOfPattern
  rw [Nat.mod_eq_of_lt (by omega), if_pos hsmall]

/-- Witness of `C7_payload_length`: the header `00 00 00 05` with timestamp 1,
followed by 5 payload bytes, gives a packet with a payload of 5 bytes. -/
theorem C7_payload_length_witness :
    (readVideoPacket Env.typical [Arrival.bytes (header5 ++ payload5)] AVPacket.blank).ok = true ∧
      (readVideoPacket Env.typical [Arrival.bytes (header5 ++ payload5)]
        AVPacket.blank).packet.data.length = 5 ∧
      (readVideoPacket Env.typical [Arrival.bytes (header5 ++ payload5)]
        AVPacket.blank).packet.size = 5 := by
  have h := C7_payload_length Env.typical [Arrival.bytes (header5 ++ payload5)] AVPacket.blank
    (by decide) (by decide) (by decide)
  have hbe : be32 (read [Arrival.bytes (header5 ++ payload5)] 12).2.1 = 5 := by decide
  rw [hbe] at h
  exact ⟨h.1, h.2.1, h.2.2.1 (by decide)⟩

theorem readVideoPacket_of_short_header (env : Env) (sock : Socket) (packet : AVPacket)
    (hne : (read sock 12).1 ≠ 12) :
    readVideoPacket env sock packet =
      { ok := false, packet := packet, sock := (read sock 12).2.2
        trace := [PacketEvent.read 12 (read sock 12).1] } := by
  unfold readVideoPacket
  simp only [hne, ne_eq, not_false_eq_true, if_true]

/-- C8: for every header read that delivers fewer than 12 bytes (a short read, a
closed stream or a read error), `readVideoPacket` returns false, leaves the
packet as it was, and has made the header read only: no allocation and no
payload read. -/
theorem C8_short_header (env : Env) (sock : Socket) (packet : AVPacket)
    (hshort : (read sock 12).1 < 12) :
    readVideoPacket env sock packet =
      { ok := false, packet := packet, sock := (read sock 12).2.2
        trace := [PacketEvent.read 12 (read sock 12).1] } := by
  exact readVideoPacket_of_short_header env sock packet (by omega)

/-- Witness of `C8_short_header`: the socket delivers 8 header bytes and is
then closed. -/
theorem C8_short_header_witness :
    readVideoPacket Env.typical [Arrival.bytes (header5.take 8)] AVPacket.blank =
      { ok := false, packet := AVPacket.blank, sock := []
        trace := [PacketEvent.read 12 8] } :=
  C8_short_header Env.typical [Arrival.bytes (header5.take 8)] AVPacket.blank (by decide)

end mirrolink

namespace mirrolink

namespace ScreenMirror

/-! ## Capture loop: helper lemmas -/

theorem payloadLoop_reads_pos (packetSize : Nat) (sock : Socket) (totalRead : Nat)
    (data : List Byte) (hok : (payloadLoop packetSize sock totalRead data).1 = true)
    (count : Nat) (n : Int)
    (hmem : PacketEvent.read count n ∈ (payloadLoop packetSize sock totalRead data).2.2.2) :
    0 < n := by
  induction sock, totalRead, data using payloadLoop.induct packetSize with
  | case1 sock tr data hlt hn =>
    rw [payloadLoop_fail _ _ _ _ hlt hn] at hok
    simp at hok
  | case2 sock tr data hlt hn ih =>
    have hpos : 0 < (read sock (packetSize - tr)).1 := by omega
    rw [payloadLoop_step _ _ _ _ hlt hpos] at hok hmem
    simp only [List.mem_cons, PacketEvent.read.injEq] at hok hmem
    rcases hmem with ⟨_, rfl⟩ | hrest
    · exact hpos
    · exact ih hok hrest
  | case3 sock tr data hge =>
    rw [payloadLoop_done _ _ _ _ (by omega)] at hmem
    simp at hmem

theorem readVideoPacket_fails_on_bad_read (env : Env) (sock : Socket) (packet : AVPacket)
    (count : Nat) (n : Int)
    (hmem : PacketEvent.read count n ∈ (readVideoPacket env sock packet).trace) (hn : n ≤ 0) :
    (readVideoPacket env sock packet).ok = false := by
  unfold readVideoPacket at hmem ⊢
  by_cases hheader : (read sock 12).1 = 12
  · simp only [hheader, ne_eq, not_true_eq_false, if_false] at hmem ⊢
    by_cases halloc :
        env.av_new_packet (intOfPattern (parsePacketSize env (read sock 12).2.1)) = true
    · simp only [halloc, if_true] at hmem ⊢
      by_cases hbody :
          (payloadLoop (parsePacketSize env (read sock 12).2.1) (read sock 12).2.2 0 []).1 = true
      · simp only [hbody, if_true, List.mem_cons, PacketEvent.read.injEq] at hmem ⊢
        exfalso
        rcases hmem with ⟨_, rfl⟩ | hcase | hrest
        · omega
        · cases hcase
        · have := payloadLoop_reads_pos _ _ _ _ hbody count n hrest
          omega
      · simp [hbody]
    · simp [halloc]
  · simp [hheader]

theorem packetReads_append (a b : List CaptureEvent) :
    packetReads (a ++ b) = packetReads a + packetReads b := by
  simp [packetReads, List.countP_append]

theorem packetReads_captureIteration (st : Impl) (env : Env) (ls : LoopState) :
    packetReads (st.captureIteration env ls).2 = 1 := by
  unfold Impl.captureIteration
  simp only
  split
  · rfl
  · split
    · rfl
    · rfl
    · split
      · cases st.frameCallback <;> rfl
      · rfl

theorem captureIteration_closed (st : Impl) (env : Env) (packet : AVPacket) (submitted : Nat) :
    st.captureIteration env { sock := [], packet := packet, submitted := submitted } =
      ({ sock := [], packet := packet, submitted := submitted },
        [CaptureEvent.readVideoPacket false [PacketEvent.read 12 0]]) := by
  have hshort := readVideoPacket_of_short_header env [] packet (by decide)
  unfold Impl.captureIteration
  simp only [hshort, Bool.not_false, if_true]
  rfl

end ScreenMirror

end mirrolink

namespace mirrolink

namespace ScreenMirror

/-! ## Capture loop and session control: the claims -/

/-- C9, as stated, fails: with the `active` flag read as true three times
(`stop()` not called), a run of `captureLoop` on a socket whose peer has closed
makes three header reads that return 0 and is still inside its loop; and on a
socket that delivers a header announcing 5 bytes, 2 payload bytes and is then
closed, the payload read that returns 0 is followed by two more packet reads,
the run again still being inside its loop. -/
theorem C9_counterexample :
    mirroring720p.captureLoop Env.typical (some []) [true, true, true] =
        { status := LoopStatus.running
          events := [CaptureEvent.readVideoPacket false [PacketEvent.read 12 0],
            CaptureEvent.readVideoPacket false [PacketEvent.read 12 0],
            CaptureEvent.readVideoPacket false [PacketEvent.read 12 0]] } ∧
      mirroring720p.captureLoop Env.typical
          (some [Arrival.bytes (header5 ++ payload5.take 2)]) [true, true, true] =
        { status := LoopStatus.running
          events := [CaptureEvent.readVideoPacket false
              [PacketEvent.read 12 12, PacketEvent.av_new_packet 5 true, PacketEvent.read 5 2,
                PacketEvent.read 3 0, PacketEvent.av_packet_unref],
            CaptureEvent.readVideoPacket false [PacketEvent.read 12 0],
            CaptureEvent.readVideoPacket false [PacketEvent.read 12 0]] } := by
  constructor
  · decide
  · have hread : read [Arrival.bytes (header5 ++ payload5.take 2)] 12 =
        (12, header5, [Arrival.bytes (payload5.take 2)]) := by decide
    have hsize : parsePacketSize Env.typical header5 = 5 := by decide
    have hint : intOfPattern 5 = 5 := by decide
    have halloc : Env.typical.av_new_packet 5 = true := by decide
    have hstep := payloadLoop_step 5 [Arrival.bytes (payload5.take 2)] 0 [] (by decide) (by decide)
    have hread2 : read [Arrival.bytes (payload5.take 2)] (5 - 0) = (2, payload5.take 2, []) := by
      decide
    rw [hread2] at hstep
    have hfail := payloadLoop_fail 5 [] (0 + (2 : Int).toNat) ([] ++ payload5.take 2)
      (by decide) (by decide)
    have hread3 : read [] (5 - (0 + (2 : Int).toNat)) = (0, [], []) := by decide
    have hcount : 5 - (0 + (2 : Int).toNat) = 3 := by decide
    rw [hread3, hcount] at hfail
    simp only [hfail] at hstep
    have hpacket : readVideoPacket Env.typical [Arrival.bytes (header5 ++ payload5.take 2)]
        AVPacket.blank =
        { ok := false, packet := AVPacket.blank, sock := []
          trace := [PacketEvent.read 12 12, PacketEvent.av_new_packet 5 true, PacketEvent.read 5 2,
            PacketEvent.read 3 0, PacketEvent.av_packet_unref] } := by
      simp only [readVideoPacket, hread, hsize, hint, halloc, hstep, ne_eq, not_true_eq_false,
        if_false, if_true, Bool.false_eq_true, List.cons_append, List.nil_append]
    have hfirst : mirroring720p.captureIteration Env.typical
        { sock := [Arrival.bytes (header5 ++ payload5.take 2)], packet := AVPacket.blank,
          submitted := 0 } =
        ({ sock := [], packet := AVPacket.blank, submitted := 0 },
          [CaptureEvent.readVideoPacket false
            [PacketEvent.read 12 12, PacketEvent.av_new_packet 5 true, PacketEvent.read 5 2,
              PacketEvent.read 3 0, PacketEvent.av_packet_unref]]) := by
      unfold Impl.captureIteration
      simp only [hpacket, Bool.not_false, if_true]
    simp only [Impl.captureLoop, Impl.captureIterations, hfirst, captureIteration_closed,
      List.cons_append, List.nil_append, List.append_nil]

/-- C9 (amended): a socket read in `readVideoPacket` that returns zero or a
negative value makes `readVideoPacket` return false, and `captureLoop` then
continues with its next iteration: a run that connected leaves its while-loop
exactly when the `active` flag is read as false, and every iteration begun with
the flag read as true calls `readVideoPacket` again, whatever the earlier reads
returned; on a socket whose peer has closed, `n` readings of the flag as true
give `n` failed header reads with the run still inside the loop. -/
theorem C9_loop_continues_after_failed_read (st : Impl) (env : Env) (sock : Socket)
    (activeObs : List Bool) :
    (∀ (packet : AVPacket) (count : Nat) (n : Int),
        PacketEvent.read count n ∈ (readVideoPacket env sock packet).trace → n ≤ 0 →
        (readVideoPacket env sock packet).ok = false) ∧
      ((st.captureLoop env (some sock) activeObs).status = LoopStatus.returned ↔
        false ∈ activeObs) ∧
      packetReads (st.captureLoop env (some sock) activeObs).events =
        (activeObs.takeWhile (fun flag => flag)).length ∧
      (∀ n : Nat, st.captureLoop env (some []) (List.replicate n true) =
        { status := LoopStatus.running
          events := List.replicate n (CaptureEvent.readVideoPacket false [PacketEvent.read 12 0]) }) := by
  refine ⟨fun packet count n hmem hn =>
    readVideoPacket_fails_on_bad_read env sock packet count n hmem hn, ?_, ?_, ?_⟩
  · unfold Impl.captureLoop
    simp only
    generalize ({ sock := sock, packet := AVPacket.blank, submitted := 0 } : LoopState) = ls
    induction activeObs generalizing ls with
    | nil => simp [Impl.captureIterations]
    | cons flag rest ih =>
      cases flag
      · simp [Impl.captureIterations]
      · simp only [Impl.captureIterations, List.mem_cons, Bool.false_eq_true, false_or]
        exact ih _
  · unfold Impl.captureLoop
    simp only
    generalize ({ sock := sock, packet := AVPacket.blank, submitted := 0 } : LoopState) = ls
    induction activeObs generalizing ls with
    | nil => simp [Impl.captureIterations, packetReads]
    | cons flag rest ih =>
      cases flag
      · simp [Impl.captureIterations, packetReads]
      · simp only [Impl.captureIterations, packetReads_append, packetReads_captureIteration,
          List.takeWhile_cons, if_true, List.length_cons, ih]
        omega
  · intro n
    unfold Impl.captureLoop
    simp only
    generalize AVPacket.blank = packet
    generalize (0 : Nat) = submitted
    induction n with
    | zero => simp [Impl.captureIterations]
    | succ k ih =>
      simp only [List.replicate_succ, Impl.captureIterations, captureIteration_closed, ih,
        List.cons_append, List.nil_append]

/-- C10, as stated, fails: on a session that is mirroring, `start` with
`width = 0` returns false but first runs `stop()`, which joins the capture
thread and removes the port forward, a Transport Bridge invocation; the state
`mirroring720p` is the one a successful `start(config720p)` produces. -/
theorem C10_counterexample :
    (Impl.new 0 0 0).start setupOk config720p =
        some (true, mirroring720p,
          [Effect.popen BridgeCommand.push true,
            Effect.popen (BridgeCommand.launch 1280 60 8000000) true,
            Effect.popen BridgeCommand.forward true, Effect.spawn]) ∧
      mirroring720p.start setupOk { width := 0, height := 720, maxFps := 60 } =
        some (false,
          { mirroring720p with
            active := false, captureThread := false, codecContext := none, swsContext := none
            currentConfig := { width := 0, height := 720, maxFps := 60 } },
          [Effect.join, Effect.system BridgeCommand.forwardRemove]) := by
  decide

/-- C10 (amended): for every configuration with `width <= 0`, `height <= 0`,
`maxFps <= 0` or `maxFps > 120`, `start(config)` returns false and performs no
push, launch or forward. From a session that is not active it performs no
effect at all; from an active session it first runs `stop()`, whose only
Transport Bridge invocation is one removal of the port forward. -/
theorem C10_invalid_config (env : SetupEnv) (st : Impl) (config : ScreenConfig)
    (hbad : invalidConfig config) :
    (st.active = false →
        st.start env config = some (false, { st with currentConfig := config }, [])) ∧
      (st.active = true →
        st.start env config =
            some (false, { st.stop.1 with currentConfig := config }, st.stop.2) ∧
          st.stop.2.filter isBridgeInvocation = [Effect.system BridgeCommand.forwardRemove]) := by
  unfold invalidConfig at hbad
  constructor
  · intro hidle
    unfold Impl.start
    simp only [hidle, Bool.false_eq_true, if_false]
    by_cases hdim : config.width ≤ 0 ∨ config.height ≤ 0
    · rw [if_pos hdim]
    · have hfps : config.maxFps ≤ 0 ∨ config.maxFps > 120 := by
        rcases hbad with h | h | h | h
        · exact absurd (Or.inl h) hdim
        · exact absurd (Or.inr h) hdim
        · exact Or.inl h
        · exact Or.inr h
      rw [if_neg hdim, if_pos hfps]
  · intro hactive
    constructor
    · unfold Impl.start
      simp only [hactive, if_true]
      by_cases hdim : config.width ≤ 0 ∨ config.height ≤ 0
      · rw [if_pos hdim]
      · have hfps : config.maxFps ≤ 0 ∨ config.maxFps > 120 := by
          rcases hbad with h | h | h | h
          · exact absurd (Or.inl h) hdim
          · exact absurd (Or.inr h) hdim
          · exact Or.inl h
          · exact Or.inr h
        rw [if_neg hdim, if_pos hfps]
    · unfold Impl.stop
      simp only [hactive, Bool.not_true, Bool.false_eq_true, if_false, Impl.cleanup,
        cleanupAdbForward]
      cases st.captureThread <;> simp [isBridgeInvocation]

/-- Witness of `C10_invalid_config`: on a fresh object `start` with `width = 0`
and `start` with `maxFps = 200` return false without any effect. -/
theorem C10_invalid_config_witness :
    (Impl.new 0 0 0).start setupOk { width := 0, height := 720, maxFps := 60 } =
        some (false,
          { Impl.new 0 0 0 with currentConfig := { width := 0, height := 720, maxFps := 60 } }, []) ∧
      (Impl.new 0 0 0).start setupOk { width := 1280, height := 720, maxFps := 200 } =
        some (false,
          { Impl.new 0 0 0 with currentConfig := { width := 1280, height := 720, maxFps := 200 } },
          []) :=
  ⟨(C10_invalid_config setupOk (Impl.new 0 0 0) { width := 0, height := 720, maxFps := 60 }
      (by decide)).1 rfl,
    (C10_invalid_config setupOk (Impl.new 0 0 0) { width := 1280, height := 720, maxFps := 200 }
      (by decide)).1 rfl⟩

end ScreenMirror

end mirrolink

namespace mirrolink

namespace ScreenMirror

/-! ## Session control: helper lemmas -/

theorem stop_of_inactive (st : Impl) (h : st.active = false) : st.stop = (st, []) := by
  unfold Impl.stop
  simp [h]

theorem stop_of_active (st : Impl) (h : st.active = true) :
    st.stop =
      ({ st with active := false, captureThread := false, swsContext := none, codecContext := none },
        (if st.captureThread = true then [Effect.join] else []) ++
          [Effect.system BridgeCommand.forwardRemove]) := by
  unfold Impl.stop
  cases hthread : st.captureThread <;>
    simp [h, hthread, Impl.cleanup, Impl.cleanupEncoder, cleanupAdbForward]

theorem stopped_props (st : Impl) (hwf : st.wellFormed) :
    (if st.active = true then st.stop else (st, [])).1.active = false ∧
      (if st.active = true then st.stop else (st, [])).1.captureThread = false ∧
      (if st.active = true then st.stop else (st, [])).1.codecContext = none ∧
      (if st.active = true then st.stop else (st, [])).1.swsContext = none := by
  obtain ⟨hthread, _, hidle⟩ := hwf
  cases hactive : st.active
  · have hctx := hidle hactive
    rw [hactive] at hthread
    simp [hthread, hctx.1, hctx.2, hactive]
  · simp [stop_of_active st hactive]

theorem initializeEncoder_of_fail (st : Impl) (env : SetupEnv) (hc : st.codecContext = none)
    (hs : st.swsContext = none) (hfail : ¬ encoderUp env) :
    st.initializeEncoder env = (false, { st with codec := env.codecFound }) := by
  unfold encoderUp at hfail
  unfold Impl.initializeEncoder
  cases st
  simp only at hc hs
  subst hc hs
  cases h1 : env.codecFound <;> cases h2 : env.contextAllocated <;>
    cases h3 : env.codecOpened <;> cases h4 : env.scalerCreated <;>
    simp_all [Impl.cleanupEncoder]

theorem initializeEncoder_of_ok (st : Impl) (env : SetupEnv) (hok : encoderUp env) :
    st.initializeEncoder env =
      (true, { st with
        codec := true
        codecContext := some
          { width := st.currentConfig.width, height := st.currentConfig.height
            time_base := (1, st.currentConfig.maxFps), framerate := (st.currentConfig.maxFps, 1) }
        swsContext := some
          { srcW := st.currentConfig.width, srcH := st.currentConfig.height
            dstW := st.currentConfig.width, dstH := st.currentConfig.height } }) := by
  obtain ⟨h1, h2, h3, h4⟩ := hok
  unfold Impl.initializeEncoder
  simp [h1, h2, h3, h4]

theorem setupAdbForward_of_up (st : Impl) (env : SetupEnv) (hup : bridgeUp env) :
    st.setupAdbForward env =
      (true, [Effect.popen BridgeCommand.push true,
        Effect.popen (BridgeCommand.launch st.currentConfig.width st.currentConfig.maxFps
          st.currentConfig.videoBitrate) true,
        Effect.popen BridgeCommand.forward true]) := by
  obtain ⟨h1, h2, h3⟩ := hup
  obtain ⟨a, ha⟩ := Option.isSome_iff_exists.1 h1
  obtain ⟨b, hb⟩ := Option.isSome_iff_exists.1 h2
  obtain ⟨c, hc⟩ := Option.isSome_iff_exists.1 h3
  unfold Impl.setupAdbForward
  simp [ha, hb, hc]

theorem accepted_iff_not_invalid (config : ScreenConfig) :
    acceptedConfig config ↔ ¬ invalidConfig config := by
  unfold acceptedConfig invalidConfig
  constructor
  · rintro ⟨h1, h2, h3, h4⟩ h
    omega
  · intro h
    omega

theorem start_of_invalid (env : SetupEnv) (st : Impl) (config : ScreenConfig)
    (hbad : invalidConfig config) :
    st.start env config =
      some (false, { (if st.active = true then st.stop else (st, [])).1 with currentConfig := config },
        (if st.active = true then st.stop else (st, [])).2) := by
  unfold invalidConfig at hbad
  unfold Impl.start
  simp only
  by_cases hdim : config.width ≤ 0 ∨ config.height ≤ 0
  · rw [if_pos hdim]
  · have hfps : config.maxFps ≤ 0 ∨ config.maxFps > 120 := by omega
    rw [if_neg hdim, if_pos hfps]

theorem start_of_encoder_fail (env : SetupEnv) (st : Impl) (config : ScreenConfig)
    (hwf : st.wellFormed) (hgood : acceptedConfig config) (hup : bridgeUp env)
    (hfail : ¬ encoderUp env) :
    st.start env config =
      some (false,
        { (if st.active = true then st.stop else (st, [])).1 with
          currentConfig := config, codec := env.codecFound },
        (if st.active = true then st.stop else (st, [])).2 ++
          [Effect.popen BridgeCommand.push true,
            Effect.popen (BridgeCommand.launch config.width config.maxFps config.videoBitrate) true,
            Effect.popen BridgeCommand.forward true,
            Effect.system BridgeCommand.forwardRemove]) := by
  obtain ⟨_, _, hc, hs⟩ := stopped_props st hwf
  have hvalid := (accepted_iff_not_invalid config).1 hgood
  unfold invalidConfig at hvalid
  unfold Impl.start
  generalize (if st.active = true then st.stop else (st, [])) = stopped at hc hs
  have hdim : ¬ (config.width ≤ 0 ∨ config.height ≤ 0) := by omega
  have hfps : ¬ (config.maxFps ≤ 0 ∨ config.maxFps > 120) := by omega
  have hc1 : ({ stopped.1 with currentConfig := config } : Impl).codecContext = none := hc
  have hs1 : ({ stopped.1 with currentConfig := config } : Impl).swsContext = none := hs
  simp only [hdim, hfps, if_false]
  rw [setupAdbForward_of_up _ env hup, initializeEncoder_of_fail _ env hc1 hs1 hfail]
  simp [cleanupAdbForward]

theorem start_of_success (env : SetupEnv) (st : Impl) (config : ScreenConfig)
    (hthread : (if st.active = true then st.stop else (st, [])).1.captureThread = false)
    (hgood : acceptedConfig config) (hall : setupSucceeds env) :
    st.start env config =
      some (true,
        { (if st.active = true then st.stop else (st, [])).1 with
          currentConfig := config, codec := true
          codecContext := some
            { width := config.width, height := config.height
              time_base := (1, config.maxFps), framerate := (config.maxFps, 1) }
          swsContext := some
            { srcW := config.width, srcH := config.height
              dstW := config.width, dstH := config.height }
          active := true, captureThread := true },
        (if st.active = true then st.stop else (st, [])).2 ++
          [Effect.popen BridgeCommand.push true,
            Effect.popen (BridgeCommand.launch config.width config.maxFps config.videoBitrate) true,
            Effect.popen BridgeCommand.forward true, Effect.spawn]) := by
  obtain ⟨hup, henc, hspawn⟩ := hall
  have hvalid := (accepted_iff_not_invalid config).1 hgood
  unfold invalidConfig at hvalid
  unfold Impl.start
  generalize (if st.active = true then st.stop else (st, [])) = stopped at hthread
  have hdim : ¬ (config.width ≤ 0 ∨ config.height ≤ 0) := by omega
  have hfps : ¬ (config.maxFps ≤ 0 ∨ config.maxFps > 120) := by omega
  simp only [hdim, hfps, if_false]
  rw [setupAdbForward_of_up _ env hup, initializeEncoder_of_ok _ env henc]
  simp [hspawn, hthread]

theorem setupAdbForward_fst (st : Impl) (env : SetupEnv) :
    (st.setupAdbForward env).1 = true ↔ bridgeUp env := by
  unfold Impl.setupAdbForward bridgeUp
  cases env.push <;> cases env.launch <;> cases env.forward <;> simp

theorem start_of_bridge_down (env : SetupEnv) (st : Impl) (config : ScreenConfig)
    (hgood : acceptedConfig config) (hdown : ¬ bridgeUp env) :
    ∃ effects, st.start env config =
      some (false, { (if st.active = true then st.stop else (st, [])).1 with currentConfig := config },
        effects) := by
  have hvalid := (accepted_iff_not_invalid config).1 hgood
  unfold invalidConfig at hvalid
  unfold Impl.start
  generalize (if st.active = true then st.stop else (st, [])) = stopped
  have hdim : ¬ (config.width ≤ 0 ∨ config.height ≤ 0) := by omega
  have hfps : ¬ (config.maxFps ≤ 0 ∨ config.maxFps > 120) := by omega
  have hfst : (Impl.setupAdbForward { stopped.1 with currentConfig := config } env).1 = false := by
    cases h : (Impl.setupAdbForward { stopped.1 with currentConfig := config } env).1
    · rfl
    · exact absurd ((setupAdbForward_fst _ env).1 h) hdown
  simp only [hdim, hfps, if_false, hfst, Bool.not_false, if_true]
  exact ⟨_, rfl⟩

theorem start_of_thread_fail (env : SetupEnv) (st : Impl) (config : ScreenConfig)
    (hgood : acceptedConfig config) (hup : bridgeUp env) (henc : encoderUp env)
    (hspawn : env.threadStarts = false) :
    st.start env config =
      some (false,
        { (if st.active = true then st.stop else (st, [])).1 with
          currentConfig := config, codec := true, codecContext := none, swsContext := none
          active := false },
        (if st.active = true then st.stop else (st, [])).2 ++
          [Effect.popen BridgeCommand.push true,
            Effect.popen (BridgeCommand.launch config.width config.maxFps config.videoBitrate) true,
            Effect.popen BridgeCommand.forward true,
            Effect.system BridgeCommand.forwardRemove]) := by
  have hvalid := (accepted_iff_not_invalid config).1 hgood
  unfold invalidConfig at hvalid
  unfold Impl.start
  generalize (if st.active = true then st.stop else (st, [])) = stopped
  have hdim : ¬ (config.width ≤ 0 ∨ config.height ≤ 0) := by omega
  have hfps : ¬ (config.maxFps ≤ 0 ∨ config.maxFps > 120) := by omega
  simp only [hdim, hfps, if_false]
  rw [setupAdbForward_of_up _ env hup, initializeEncoder_of_ok _ env henc]
  simp [hspawn, Impl.cleanup, Impl.cleanupEncoder, cleanupAdbForward]

theorem initializeEncoder_fst (st : Impl) (env : SetupEnv) :
    (st.initializeEncoder env).1 = true ↔ encoderUp env := by
  unfold Impl.initializeEncoder encoderUp
  cases env.codecFound <;> cases env.contextAllocated <;> cases env.codecOpened <;>
    cases env.scalerCreated <;> simp

theorem start_true_props (env : SetupEnv) (st st1 : Impl) (config : ScreenConfig)
    (effects : List Effect) (h : st.start env config = some (true, st1, effects)) :
    st1.active = true ∧ st1.captureThread = true ∧ st1.currentConfig = config ∧
      acceptedConfig config := by
  by_cases hbad : invalidConfig config
  · rw [start_of_invalid env st config hbad] at h
    simp at h
  · have hgood := (accepted_iff_not_invalid config).2 hbad
    by_cases hup : bridgeUp env
    · unfold invalidConfig at hbad
      unfold Impl.start at h
      generalize (if st.active = true then st.stop else (st, [])) = stopped at h
      have hdim : ¬ (config.width ≤ 0 ∨ config.height ≤ 0) := by omega
      have hfps : ¬ (config.maxFps ≤ 0 ∨ config.maxFps > 120) := by omega
      simp only [hdim, hfps, if_false] at h
      rw [setupAdbForward_of_up _ env hup] at h
      simp only [Bool.not_true, Bool.false_eq_true, if_false] at h
      by_cases henc : encoderUp env
      · rw [initializeEncoder_of_ok _ env henc] at h
        simp only [Bool.not_true, Bool.false_eq_true, if_false] at h
        cases hspawn : env.threadStarts
        · simp [hspawn] at h
        · simp only [hspawn, Bool.not_true, Bool.false_eq_true, if_false] at h
          split at h
          · simp at h
          · simp only [Option.some.injEq, Prod.mk.injEq, true_and] at h
            obtain ⟨rfl, _⟩ := h
            exact ⟨rfl, rfl, rfl, hgood⟩
      · have hfst : (Impl.initializeEncoder { stopped.1 with currentConfig := config } env).1
            = false := by
          cases hh : (Impl.initializeEncoder { stopped.1 with currentConfig := config } env).1
          · rfl
          · exact absurd ((initializeEncoder_fst _ env).1 hh) henc
        simp [hfst] at h
    · obtain ⟨eff, heq⟩ := start_of_bridge_down env st config hgood hup
      rw [heq] at h
      simp at h

theorem wellFormed_new (width height maxFps : Int) : (Impl.new width height maxFps).wellFormed := by
  unfold Impl.wellFormed Impl.new
  simp

theorem wellFormed_setFrameCallback (st : Impl) (hwf : st.wellFormed) :
    st.setFrameCallback.wellFormed := hwf

theorem wellFormed_stop (st : Impl) (hwf : st.wellFormed) : st.stop.1.wellFormed := by
  cases hactive : st.active
  · rw [stop_of_inactive st hactive]
    exact hwf
  · rw [stop_of_active st hactive]
    unfold Impl.wellFormed
    simp

theorem wellFormed_start (env : SetupEnv) (st st1 : Impl) (config : ScreenConfig) (ok : Bool)
    (effects : List Effect) (hwf : st.wellFormed)
    (h : st.start env config = some (ok, st1, effects)) : st1.wellFormed := by
  obtain ⟨ha, ht, hc, hs⟩ := stopped_props st hwf
  by_cases hbad : invalidConfig config
  · rw [start_of_invalid env st config hbad] at h
    simp only [Option.some.injEq, Prod.mk.injEq] at h
    obtain ⟨_, rfl, _⟩ := h
    unfold Impl.wellFormed
    simp [ha, ht, hc, hs]
  · have hgood := (accepted_iff_not_invalid config).2 hbad
    by_cases hup : bridgeUp env
    · by_cases henc : encoderUp env
      · cases hspawn : env.threadStarts
        · rw [start_of_thread_fail env st config hgood hup henc hspawn] at h
          simp only [Option.some.injEq, Prod.mk.injEq] at h
          obtain ⟨_, rfl, _⟩ := h
          unfold Impl.wellFormed
          simp [ht]
        · rw [start_of_success env st config ht hgood ⟨hup, henc, hspawn⟩] at h
          simp only [Option.some.injEq, Prod.mk.injEq] at h
          obtain ⟨_, rfl, _⟩ := h
          unfold Impl.wellFormed
          simp [hgood]
      · rw [start_of_encoder_fail env st config hwf hgood hup henc] at h
        simp only [Option.some.injEq, Prod.mk.injEq] at h
        obtain ⟨_, rfl, _⟩ := h
        unfold Impl.wellFormed
        simp [ha, ht, hc, hs]
    · obtain ⟨eff, heq⟩ := start_of_bridge_down env st config hgood hup
      rw [heq] at h
      simp only [Option.some.injEq, Prod.mk.injEq] at h
      obtain ⟨_, rfl, _⟩ := h
      unfold Impl.wellFormed
      simp [ha, ht, hc, hs]

theorem startRecording_keeps (st : Impl) (env : RecordingEnv) :
    (st.startRecording env).2.active = st.active ∧
      (st.startRecording env).2.captureThread = st.captureThread ∧
      (st.startRecording env).2.currentConfig = st.currentConfig ∧
      (st.startRecording env).2.codecContext = st.codecContext ∧
      (st.startRecording env).2.swsContext = st.swsContext := by
  unfold Impl.startRecording Impl.initializeRecording
  cases h1 : st.recording <;> cases h2 : st.active <;> cases h3 : env.contextAllocated <;>
    cases h4 : env.streamCreated <;> cases h5 : env.fileOpened <;>
    cases h6 : env.headerWritten <;> simp [Impl.cleanupRecording, h2]

theorem stopRecording_keeps (st : Impl) :
    st.stopRecording.active = st.active ∧ st.stopRecording.captureThread = st.captureThread ∧
      st.stopRecording.currentConfig = st.currentConfig ∧
      st.stopRecording.codecContext = st.codecContext ∧
      st.stopRecording.swsContext = st.swsContext := by
  unfold Impl.stopRecording
  cases h1 : st.recording <;> simp [Impl.cleanupRecording]

theorem wellFormed_startRecording (st : Impl) (env : RecordingEnv) (hwf : st.wellFormed) :
    (st.startRecording env).2.wellFormed := by
  obtain ⟨h1, h2, h3, h4, h5⟩ := startRecording_keeps st env
  unfold Impl.wellFormed at hwf ⊢
  rw [h1, h2, h3, h4, h5]
  exact hwf

theorem wellFormed_stopRecording (st : Impl) (hwf : st.wellFormed) :
    st.stopRecording.wellFormed := by
  obtain ⟨h1, h2, h3, h4, h5⟩ := stopRecording_keeps st
  unfold Impl.wellFormed at hwf ⊢
  rw [h1, h2, h3, h4, h5]
  exact hwf

theorem wellFormed_apply (st st1 : Impl) (op : Op) (hwf : st.wellFormed)
    (h : st.apply op = some st1) : st1.wellFormed := by
  cases op with
  | startRecording env =>
    simp only [Impl.apply, Option.some.injEq] at h
    subst h
    exact wellFormed_startRecording st env hwf
  | stopRecording =>
    simp only [Impl.apply, Option.some.injEq] at h
    subst h
    exact wellFormed_stopRecording st hwf
  | setFrameCallback =>
    simp only [Impl.apply, Option.some.injEq] at h
    subst h
    exact wellFormed_setFrameCallback st hwf
  | start env config =>
    simp only [Impl.apply, Option.map_eq_some'] at h
    obtain ⟨⟨ok, st2, effects⟩, hstart, rfl⟩ := h
    exact wellFormed_start env st st2 config ok effects hwf hstart
  | stop =>
    simp only [Impl.apply, Option.some.injEq] at h
    subst h
    exact wellFormed_stop st hwf
  | updateConfig env config =>
    simp only [Impl.apply, updateConfig, Option.map_eq_some'] at h
    obtain ⟨⟨ok, st2, effects⟩, hupd, rfl⟩ := h
    cases hstart : st.stop.1.start env config with
    | none => simp [hstart] at hupd
    | some r =>
      obtain ⟨ok2, st3, eff3⟩ := r
      simp only [hstart, Option.some.injEq, Prod.mk.injEq] at hupd
      obtain ⟨_, rfl, _⟩ := hupd
      exact wellFormed_start env st.stop.1 st3 config ok2 eff3 (wellFormed_stop st hwf) hstart

theorem wellFormed_run (ops : List Op) (st st1 : Impl) (hwf : st.wellFormed)
    (h : st.run ops = some st1) : st1.wellFormed := by
  induction ops generalizing st with
  | nil =>
    simp only [Impl.run, Option.some.injEq] at h
    subst h
    exact hwf
  | cons op rest ih =>
    unfold Impl.run at h
    cases hop : st.apply op with
    | none => simp [hop] at h
    | some next =>
      simp only [hop] at h
      exact ih next (wellFormed_apply st next op hwf hop) h

theorem wellFormed_of_reachable (st : Impl) (hreach : Reachable st) : st.wellFormed := by
  obtain ⟨width, height, maxFps, ops, hrun⟩ := hreach
  exact wellFormed_run ops _ st (wellFormed_new width height maxFps) hrun

end ScreenMirror

end mirrolink

namespace mirrolink

namespace ScreenMirror

/-! ## Session control: the claims -/

/-- C11, as stated, fails: on an idle session whose configuration is
`config720p`, a `start` with `width = 0` returns false and `getConfig()` then
returns the rejected configuration; on a session that is mirroring, the same
call returns false and `isActive()` is false afterwards, having been true. -/
theorem C11_counterexample :
    invalidConfig { width := 0, height := 720, maxFps := 60 } ∧
      getConfig mirroring720p.stop.1 = config720p ∧
      (mirroring720p.stop.1.start setupOk { width := 0, height := 720, maxFps := 60 }).map
          (fun r => (r.1, getConfig r.2.1)) =
        some (false, { width := 0, height := 720, maxFps := 60 }) ∧
      isActive mirroring720p = true ∧
      (mirroring720p.start setupOk { width := 0, height := 720, maxFps := 60 }).map
          (fun r => (r.1, isActive r.2.1)) = some (false, false) := by
  decide

/-- C11 (amended): a `start(config)` call with an invalid configuration returns
false, stores the rejected configuration, so that `getConfig()` afterwards
returns `config`, and leaves the session inactive, an active session being
stopped first; when the session was not active, the stored configuration is the
only change of state and no effect is performed. -/
theorem C11_invalid_start_state (env : SetupEnv) (st : Impl) (config : ScreenConfig)
    (hbad : invalidConfig config) :
    ∃ st1 effects, st.start env config = some (false, st1, effects) ∧
      getConfig st1 = config ∧ isActive st1 = false ∧
      (st.active = false → st1 = { st with currentConfig := config } ∧ effects = []) := by
  refine ⟨_, _, start_of_invalid env st config hbad, rfl, ?_, ?_⟩
  · cases hactive : st.active
    · simp [isActive, hactive]
    · simp [isActive, hactive, stop_of_active st hactive]
  · intro hidle
    simp [hidle]

/-- Witness of `C11_invalid_start_state`: `start` with `maxFps = 200` on a
session that is mirroring. -/
theorem C11_invalid_start_state_witness :
    ∃ st1 effects,
      mirroring720p.start setupOk { width := 1280, height := 720, maxFps := 200 } =
        some (false, st1, effects) ∧
      getConfig st1 = { width := 1280, height := 720, maxFps := 200 } ∧ isActive st1 = false ∧
      (mirroring720p.active = false →
        st1 = { mirroring720p with currentConfig := { width := 1280, height := 720, maxFps := 200 } } ∧
          effects = []) :=
  C11_invalid_start_state setupOk mirroring720p { width := 1280, height := 720, maxFps := 200 }
    (by decide)

/-- C12, as stated, fails: `start(config720p)` succeeds on a fresh object, and
`start(config1080p)` is then called while the session is mirroring, with a valid
configuration, the bridge established and the decoder and scaler set up, but
the capture thread cannot be created. The call returns false; the first thread
has been joined and none was spawned, so no capture thread is running, and
`isActive()` is false. -/
theorem C12_counterexample :
    ((Impl.new 0 0 0).start setupOk config720p).map (fun r => (r.1, r.2.1)) =
        some (true, mirroring720p) ∧
      acceptedConfig config1080p ∧ bridgeUp setupThreadFails ∧ encoderUp setupThreadFails ∧
      (mirroring720p.start setupThreadFails config1080p).map
          (fun r => (r.1, r.2.1.captureThread, isActive r.2.1, threadBalance r.2.2)) =
        some (false, false, false, -1) := by
  decide

/-- C12 (amended): if `start(c1)` succeeds and `start(c2)` is then called on the
resulting state with `c2` valid, the bridge established and the decoder and
scaler set up, the second call joins the first capture thread and removes the
old forward before it sets up the bridge. If the new capture thread can be
created, it returns true and spawns one thread, so that one capture thread
exists afterwards, `isActive()` is true and `getConfig()` equals `c2`. If the
thread cannot be created, it returns false, removes the forward again, no
capture thread exists afterwards, `isActive()` is false and `getConfig()`
equals `c2`. -/
theorem C12_restart_while_mirroring (env1 env2 : SetupEnv) (st0 st1 : Impl)
    (c1 c2 : ScreenConfig) (effects1 : List Effect)
    (hfirst : st0.start env1 c1 = some (true, st1, effects1))
    (hgood : acceptedConfig c2) (hup : bridgeUp env2) (henc : encoderUp env2) :
    (env2.threadStarts = true →
      ∃ st2, st1.start env2 c2 =
        some (true, st2,
          [Effect.join, Effect.system BridgeCommand.forwardRemove,
            Effect.popen BridgeCommand.push true,
            Effect.popen (BridgeCommand.launch c2.width c2.maxFps c2.videoBitrate) true,
            Effect.popen BridgeCommand.forward true, Effect.spawn]) ∧
      threadBalance [Effect.join, Effect.system BridgeCommand.forwardRemove,
            Effect.popen BridgeCommand.push true,
            Effect.popen (BridgeCommand.launch c2.width c2.maxFps c2.videoBitrate) true,
            Effect.popen BridgeCommand.forward true, Effect.spawn] = 0 ∧
      st2.captureThread = true ∧ isActive st2 = true ∧ getConfig st2 = c2) ∧
    (env2.threadStarts = false →
      ∃ st2, st1.start env2 c2 =
        some (false, st2,
          [Effect.join, Effect.system BridgeCommand.forwardRemove,
            Effect.popen BridgeCommand.push true,
            Effect.popen (BridgeCommand.launch c2.width c2.maxFps c2.videoBitrate) true,
            Effect.popen BridgeCommand.forward true,
            Effect.system BridgeCommand.forwardRemove]) ∧
      threadBalance [Effect.join, Effect.system BridgeCommand.forwardRemove,
            Effect.popen BridgeCommand.push true,
            Effect.popen (BridgeCommand.launch c2.width c2.maxFps c2.videoBitrate) true,
            Effect.popen BridgeCommand.forward true,
            Effect.system BridgeCommand.forwardRemove] = -1 ∧
      st2.captureThread = false ∧ isActive st2 = false ∧ getConfig st2 = c2) := by
  obtain ⟨hactive, hthread, _, _⟩ := start_true_props env1 st0 st1 c1 effects1 hfirst
  have hstopped : (if st1.active = true then st1.stop else (st1, [])).1.captureThread = false := by
    simp [hactive, stop_of_active st1 hactive]
  constructor
  · intro hthr
    have hstart := start_of_success env2 st1 c2 hstopped hgood ⟨hup, henc, hthr⟩
    simp only [hactive, if_true, stop_of_active st1 hactive, hthread, List.nil_append,
      List.cons_append] at hstart
    exact ⟨_, hstart, by simp [threadBalance], rfl, rfl, rfl⟩
  · intro hthr
    have hstart := start_of_thread_fail env2 st1 c2 hgood hup henc hthr
    simp only [hactive, if_true, stop_of_active st1 hactive, hthread, List.nil_append,
      List.cons_append] at hstart
    exact ⟨_, hstart, by simp [threadBalance], rfl, rfl, rfl⟩

/-- Witness of `C12_restart_while_mirroring`: `start(config720p)` on a fresh
object, then `start` with 1920x1080 at 30 while mirroring. -/
theorem C12_restart_while_mirroring_witness :
    ∃ st2, mirroring720p.start setupOk { width := 1920, height := 1080, maxFps := 30 } =
        some (true, st2,
          [Effect.join, Effect.system BridgeCommand.forwardRemove,
            Effect.popen BridgeCommand.push true,
            Effect.popen (BridgeCommand.launch 1920 30 8000000) true,
            Effect.popen BridgeCommand.forward true, Effect.spawn]) ∧
      threadBalance [Effect.join, Effect.system BridgeCommand.forwardRemove,
            Effect.popen BridgeCommand.push true,
            Effect.popen (BridgeCommand.launch 1920 30 8000000) true,
            Effect.popen BridgeCommand.forward true, Effect.spawn] = 0 ∧
      st2.captureThread = true ∧ isActive st2 = true ∧
      getConfig st2 = { width := 1920, height := 1080, maxFps := 30 } :=
  (C12_restart_while_mirroring setupOk setupOk (Impl.new 0 0 0) mirroring720p config720p
    { width := 1920, height := 1080, maxFps := 30 }
    [Effect.popen BridgeCommand.push true,
      Effect.popen (BridgeCommand.launch 1280 60 8000000) true,
      Effect.popen BridgeCommand.forward true, Effect.spawn]
    (by decide) (by decide) (by decide) (by decide)).1 rfl

/-- C13: in every reachable state, when `start(config)` is called with a valid
configuration, the bridge is established and a step of `initializeEncoder`
fails (decoder lookup, decoder context allocation, decoder open or scaler
creation), `start` returns false, `isActive()` is false, the port forward is
removed right after the three bridge commands, and neither a decoder context
nor a scaler context remains allocated. -/
theorem C13_rollback_on_encoder_failure (env : SetupEnv) (st : Impl) (config : ScreenConfig)
    (hreach : Reachable st) (hgood : acceptedConfig config) (hup : bridgeUp env)
    (hfail : ¬ encoderUp env) :
    ∃ st1, st.start env config =
        some (false, st1,
          (if st.active = true then st.stop else (st, [])).2 ++
            [Effect.popen BridgeCommand.push true,
              Effect.popen (BridgeCommand.launch config.width config.maxFps config.videoBitrate)
                true,
              Effect.popen BridgeCommand.forward true,
              Effect.system BridgeCommand.forwardRemove]) ∧
      isActive st1 = false ∧ st1.codecContext = none ∧ st1.swsContext = none := by
  have hwf := wellFormed_of_reachable st hreach
  obtain ⟨ha, _, hc, hs⟩ := stopped_props st hwf
  exact ⟨_, start_of_encoder_fail env st config hwf hgood hup hfail, ha, hc, hs⟩

/-- Witness of `C13_rollback_on_encoder_failure`: on a session that is mirroring
(reached from a fresh object by `start(config720p)`), a restart during which the
decoder cannot be opened. -/
theorem C13_rollback_on_encoder_failure_witness :
    ∃ st1, mirroring720p.start { setupOk with codecOpened := false } config720p =
        some (false, st1,
          (if mirroring720p.active = true then mirroring720p.stop else (mirroring720p, [])).2 ++
            [Effect.popen BridgeCommand.push true,
              Effect.popen (BridgeCommand.launch config720p.width config720p.maxFps
                config720p.videoBitrate) true,
              Effect.popen BridgeCommand.forward true,
              Effect.system BridgeCommand.forwardRemove]) ∧
      isActive st1 = false ∧ st1.codecContext = none ∧ st1.swsContext = none :=
  C13_rollback_on_encoder_failure { setupOk with codecOpened := false } mirroring720p config720p
    ⟨0, 0, 0, [Op.start setupOk config720p], by decide⟩ (by decide) (by decide) (by decide)

/-- C16, evaluation at the failing input: when `adb push` is started and exits
with status 1, `setupAdbForward` still performs the launch and the forward and
returns true. In general it performs push, launch, forward in this order,
stops at the first `popen` that returns null, and returns true exactly when the
three `popen` calls returned a pipe, whatever the commands report. -/
theorem C16_exit_status_not_checked :
    setupPushReportsFailure.push = some 1 ∧
      (Impl.new 1280 720 60).setupAdbForward setupPushReportsFailure =
        (true, [Effect.popen BridgeCommand.push true,
          Effect.popen (BridgeCommand.launch 1280 60 8000000) true,
          Effect.popen BridgeCommand.forward true]) ∧
      (∀ (st : Impl) (env : SetupEnv),
        ((st.setupAdbForward env).1 = true ↔ bridgeUp env) ∧
        (env.push = none →
          st.setupAdbForward env = (false, [Effect.popen BridgeCommand.push false])) ∧
        (env.push.isSome = true → env.launch = none →
          st.setupAdbForward env =
            (false, [Effect.popen BridgeCommand.push true,
              Effect.popen (BridgeCommand.launch st.currentConfig.width st.currentConfig.maxFps
                st.currentConfig.videoBitrate) false])) ∧
        (env.push.isSome = true → env.launch.isSome = true → env.forward = none →
          st.setupAdbForward env =
            (false, [Effect.popen BridgeCommand.push true,
              Effect.popen (BridgeCommand.launch st.currentConfig.width st.currentConfig.maxFps
                st.currentConfig.videoBitrate) true,
              Effect.popen BridgeCommand.forward false]))) := by
  refine ⟨rfl, by decide, ?_⟩
  intro st env
  refine ⟨setupAdbForward_fst st env, ?_, ?_, ?_⟩
  · intro h
    simp [Impl.setupAdbForward, h]
  · intro h1 h2
    obtain ⟨a, ha⟩ := Option.isSome_iff_exists.1 h1
    simp [Impl.setupAdbForward, ha, h2]
  · intro h1 h2 h3
    obtain ⟨a, ha⟩ := Option.isSome_iff_exists.1 h1
    obtain ⟨b, hb⟩ := Option.isSome_iff_exists.1 h2
    simp [Impl.setupAdbForward, ha, hb, h3]

/-- C17, as stated, fails: on a fresh object, with the valid configuration
1280x720 at 60, the bridge established and the decoder and scaler set up, but
the capture thread impossible to create, `start` returns false and `isActive()`
is false afterwards. -/
theorem C17_counterexample :
    Reachable (Impl.new 1280 720 60) ∧ acceptedConfig config720p ∧
      bridgeUp setupThreadFails ∧ encoderUp setupThreadFails ∧
      ((Impl.new 1280 720 60).start setupThreadFails config720p).map
          (fun r => (r.1, isActive r.2.1)) = some (false, false) :=
  ⟨⟨1280, 720, 60, [], rfl⟩, by decide, by decide, by decide, by decide⟩

/-- C17 (amended): for every valid configuration and every reachable prior
state, if the bridge is established and the decoder and scaler are set up, then
`start(config)` returns true exactly when the capture thread can be created:
in that case `isActive()` is true afterwards and `getConfig()` equals `config`;
when the thread cannot be created, `start(config)` returns false, `isActive()`
is false, no capture thread exists and `getConfig()` equals `config`. -/
theorem C17_start_succeeds (env : SetupEnv) (st : Impl) (config : ScreenConfig)
    (hreach : Reachable st) (hgood : acceptedConfig config) (hup : bridgeUp env)
    (henc : encoderUp env) :
    (env.threadStarts = true →
      ∃ st1 effects, st.start env config = some (true, st1, effects) ∧
        isActive st1 = true ∧ getConfig st1 = config) ∧
    (env.threadStarts = false →
      ∃ st1 effects, st.start env config = some (false, st1, effects) ∧
        isActive st1 = false ∧ st1.captureThread = false ∧ getConfig st1 = config) := by
  have hwf := wellFormed_of_reachable st hreach
  obtain ⟨_, ht, _, _⟩ := stopped_props st hwf
  constructor
  · intro hthr
    exact ⟨_, _, start_of_success env st config ht hgood ⟨hup, henc, hthr⟩, rfl, rfl⟩
  · intro hthr
    exact ⟨_, _, start_of_thread_fail env st config hgood hup henc hthr, rfl, ht, rfl⟩

/-- Witness of `C17_start_succeeds`: 1280x720 at 60 on a fresh object after a
rejected `start`, and the boundary `maxFps = 120` on a session that is
mirroring. -/
theorem C17_start_succeeds_witness :
    (∃ st1 effects,
        ({ Impl.new 0 0 0 with currentConfig := { width := 0, height := 0, maxFps := 0 } } : Impl).start
          setupOk config720p = some (true, st1, effects) ∧
        isActive st1 = true ∧ getConfig st1 = config720p) ∧
      (∃ st1 effects,
        mirroring720p.start setupOk { width := 1280, height := 720, maxFps := 120 } =
          some (true, st1, effects) ∧
        isActive st1 = true ∧ getConfig st1 = { width := 1280, height := 720, maxFps := 120 }) :=
  ⟨(C17_start_succeeds setupOk _ config720p
      ⟨0, 0, 0, [Op.start setupOk { width := 0, height := 0, maxFps := 0 }], by decide⟩
      (by decide) (by decide) (by decide)).1 rfl,
    (C17_start_succeeds setupOk mirroring720p { width := 1280, height := 720, maxFps := 120 }
      ⟨0, 0, 0, [Op.start setupOk config720p], by decide⟩ (by decide) (by decide)
      (by decide)).1 rfl⟩

/-- C18: `stop()` on a session that is not active returns with the state
unchanged (`isActive()`, `getConfig()`, the recording flag and every resource
included) and performs no effect: no bridge command and no join; hence a second
`stop()` after any `stop()` changes nothing and performs nothing. -/
theorem C18_stop_when_inactive (st : Impl) :
    (st.active = false → st.stop = (st, [])) ∧
      st.stop.1.stop = (st.stop.1, []) ∧
      (Impl.new 0 0 0).stop = (Impl.new 0 0 0, []) := by
  refine ⟨stop_of_inactive st, ?_, rfl⟩
  apply stop_of_inactive
  cases hactive : st.active
  · rw [stop_of_inactive st hactive]
    exact hactive
  · rw [stop_of_active st hactive]

end ScreenMirror

end mirrolink

namespace mirrolink

namespace ScreenMirror

/-! ## Capture loop: frames -/

theorem deliveredFrames_append (a b : List CaptureEvent) :
    deliveredFrames (a ++ b) = deliveredFrames a ++ deliveredFrames b := by
  induction a with
  | nil => rfl
  | cons e rest ih => cases e <;> simp [deliveredFrames, ih]

theorem scaleStrides_append (a b : List CaptureEvent) :
    scaleStrides (a ++ b) = scaleStrides a ++ scaleStrides b := by
  induction a with
  | nil => rfl
  | cons e rest ih => cases e <;> simp [scaleStrides, ih]

theorem packetsRead_append (a b : List CaptureEvent) :
    packetsRead (a ++ b) = packetsRead a + packetsRead b := by
  simp [packetsRead, List.countP_append]

theorem wrapInt32_range (x : Int) : -2147483648 ≤ wrapInt32 x ∧ wrapInt32 x ≤ 2147483647 := by
  unfold wrapInt32
  omega

theorem mulInt_range (env : Env) (a b : Int) :
    -2147483648 ≤ mulInt env a b ∧ mulInt env a b ≤ 2147483647 := by
  unfold mulInt
  split
  · assumption
  · exact wrapInt32_range _

theorem mulInt_exact (env : Env) (a b : Int) (hlo : -2147483648 ≤ a * b)
    (hhi : a * b ≤ 2147483647) : mulInt env a b = a * b := by
  unfold mulInt
  rw [if_pos ⟨hlo, hhi⟩]

theorem toSizeT_small (x : Int) (hlo : -2147483648 ≤ x) (hhi : x ≤ 2147483647)
    (hfit : toSizeT x ≤ vectorMaxSize) : 0 ≤ x ∧ (toSizeT x : Int) = x := by
  unfold toSizeT vectorMaxSize at *
  omega

/-- What one iteration of the capture loop delivers: at most one frame, and only
after a successful packet read; the frame carries the stored width and height
and a buffer whose size is the `int` product converted to `size_t`; every
`sws_scale` call gets the `int` product `width * 4` as stride. -/
theorem captureIteration_frames (st : Impl) (env : Env) (ls : LoopState) :
    (deliveredFrames (st.captureIteration env ls).2).length ≤
        packetsRead (st.captureIteration env ls).2 ∧
      (∀ frame ∈ deliveredFrames (st.captureIteration env ls).2,
        frame.width = st.currentConfig.width ∧ frame.height = st.currentConfig.height ∧
          frame.dataSize =
            toSizeT (mulInt env (mulInt env st.currentConfig.width st.currentConfig.height) 4) ∧
          frame.dataSize ≤ vectorMaxSize) ∧
      (∀ stride ∈ scaleStrides (st.captureIteration env ls).2,
        stride = mulInt env st.currentConfig.width 4) := by
  unfold Impl.captureIteration
  simp only
  split
  · simp [deliveredFrames, scaleStrides, packetsRead]
  · split
    · simp [deliveredFrames, scaleStrides, packetsRead]
    · simp [deliveredFrames, scaleStrides, packetsRead]
    · split
      · rename_i hfit
        cases st.frameCallback <;> simp [deliveredFrames, scaleStrides, packetsRead, hfit.1]
      · simp [deliveredFrames, scaleStrides, packetsRead]

theorem captureIterations_frames (st : Impl) (env : Env) (obs : List Bool) (ls : LoopState) :
    (deliveredFrames (st.captureIterations env obs ls).events).length ≤
        packetsRead (st.captureIterations env obs ls).events ∧
      (∀ frame ∈ deliveredFrames (st.captureIterations env obs ls).events,
        frame.width = st.currentConfig.width ∧ frame.height = st.currentConfig.height ∧
          frame.dataSize =
            toSizeT (mulInt env (mulInt env st.currentConfig.width st.currentConfig.height) 4) ∧
          frame.dataSize ≤ vectorMaxSize) ∧
      (∀ stride ∈ scaleStrides (st.captureIterations env obs ls).events,
        stride = mulInt env st.currentConfig.width 4) := by
  induction obs generalizing ls with
  | nil => simp [Impl.captureIterations, deliveredFrames, scaleStrides, packetsRead]
  | cons flag rest ih =>
    cases flag
    · simp [Impl.captureIterations, deliveredFrames, scaleStrides, packetsRead]
    · obtain ⟨h1, h2, h3⟩ := captureIteration_frames st env ls
      obtain ⟨i1, i2, i3⟩ := ih (st.captureIteration env ls).1
      simp only [Impl.captureIterations, deliveredFrames_append, scaleStrides_append,
        packetsRead_append, List.length_append, List.mem_append]
      refine ⟨by omega, ?_, ?_⟩
      · rintro frame (hf | hf)
        · exact h2 frame hf
        · exact i2 frame hf
      · rintro stride (hs | hs)
        · exact h3 stride hs
        · exact i3 stride hs

theorem captureLoop_frames (st : Impl) (env : Env) (connection : Option Socket)
    (obs : List Bool) :
    (deliveredFrames (st.captureLoop env connection obs).events).length ≤
        packetsRead (st.captureLoop env connection obs).events ∧
      (∀ frame ∈ deliveredFrames (st.captureLoop env connection obs).events,
        frame.width = st.currentConfig.width ∧ frame.height = st.currentConfig.height ∧
          frame.dataSize =
            toSizeT (mulInt env (mulInt env st.currentConfig.width st.currentConfig.height) 4) ∧
          frame.dataSize ≤ vectorMaxSize) ∧
      (∀ stride ∈ scaleStrides (st.captureLoop env connection obs).events,
        stride = mulInt env st.currentConfig.width 4) := by
  cases connection with
  | none => simp [Impl.captureLoop, deliveredFrames, scaleStrides, packetsRead]
  | some sock => exact captureIterations_frames st env obs _

theorem readVideoPacket_packet5 (env : Env) (halloc : env.av_new_packet 5 = true)
    (rest : Socket) (packet : AVPacket) :
    readVideoPacket env (Arrival.bytes (header5 ++ payload5) :: rest) packet =
      { ok := true, packet := { data := payload5, size := 5, pts := parsePts env header5 }
        sock := rest
        trace := [PacketEvent.read 12 12, PacketEvent.av_new_packet 5 true,
          PacketEvent.read 5 5] } := by
  have hread : read (Arrival.bytes (header5 ++ payload5) :: rest) 12 =
      (12, header5, Arrival.bytes payload5 :: rest) := by
    simp [read, header5, payload5]
  have hsize : parsePacketSize env header5 = 5 := by
    rw [(parsePacketSize_eq_be32 env header5 (by decide)).1]
    decide
  have hint : intOfPattern 5 = 5 := by decide
  have hread5 : read (Arrival.bytes payload5 :: rest) (5 - 0) = (5, payload5, rest) := by
    simp [read, payload5]
  have hstep := payloadLoop_step 5 (Arrival.bytes payload5 :: rest) 0 []
    (by decide) (by rw [hread5]; show (0 : Int) < 5; omega)
  rw [hread5] at hstep
  have hdone := payloadLoop_done 5 rest (0 + (5 : Int).toNat) ([] ++ payload5) (by decide)
  simp only [hdone] at hstep
  simp only [readVideoPacket, hread, hsize, hint, halloc, hstep, ne_eq, not_true_eq_false,
    if_false, if_true, List.nil_append]

theorem packetsRead_packets5 (st : Impl) (env : Env) (halloc : env.av_new_packet 5 = true)
    (obs : List Bool) (count : Nat) (packet : AVPacket) (submitted : Nat) :
    packetsRead (st.captureIterations env obs
      { sock := packets5 count, packet := packet, submitted := submitted }).events ≤ count := by
  induction obs generalizing count packet submitted with
  | nil => simp [Impl.captureIterations, packetsRead]
  | cons flag rest ih =>
    cases flag
    · simp [Impl.captureIterations, packetsRead]
    · cases count with
      | zero =>
        have hclosed := captureIteration_closed st env packet submitted
        simp only [packets5, List.replicate_zero] at ih ⊢
        simp only [Impl.captureIterations, hclosed, packetsRead_append]
        have := ih 0 packet submitted
        simp only [List.replicate_zero] at this
        simp only [packetsRead, List.countP_cons, List.countP_nil] at this ⊢
        simpa using this
      | succ k =>
        have hpacket := readVideoPacket_packet5 env halloc (packets5 k) packet
        have hone := (captureIteration_frames st env
          { sock := packets5 (k + 1), packet := packet, submitted := submitted }).1
        have hsock : (st.captureIteration env
            { sock := packets5 (k + 1), packet := packet, submitted := submitted }).1 =
            { sock := packets5 k, packet := { data := payload5, size := 5, pts := parsePts env header5 }
              submitted := submitted + 1 } := by
          unfold Impl.captureIteration
          simp only [packets5, List.replicate_succ] at hpacket ⊢
          simp only [hpacket, Bool.not_true, Bool.false_eq_true, if_false]
          split
          · rfl
          · rfl
          · split <;> rfl
        have hcount : packetsRead (st.captureIteration env
            { sock := packets5 (k + 1), packet := packet, submitted := submitted }).2 ≤ 1 := by
          have := packetReads_captureIteration st env
            { sock := packets5 (k + 1), packet := packet, submitted := submitted }
          have hle : packetsRead (st.captureIteration env
              { sock := packets5 (k + 1), packet := packet, submitted := submitted }).2 ≤
              packetReads (st.captureIteration env
              { sock := packets5 (k + 1), packet := packet, submitted := submitted }).2 := by
            unfold packetsRead packetReads
            apply List.countP_mono_left
            intro e _ he
            cases e <;> simp_all
          omega
        simp only [Impl.captureIterations, packetsRead_append, hsock]
        have := ih k { data := payload5, size := 5, pts := parsePts env header5 } (submitted + 1)
        omega

end ScreenMirror

end mirrolink

namespace mirrolink

namespace ScreenMirror

/-! ## Capture loop: the claims about frames -/

/-- C14, evaluation at the failing input: `start` accepts the configuration
32768x32768 at 60, whose buffer size `width * height * 4` is 4294967296; the
frame handed to the callback for a decoded packet has a buffer of 0 bytes when
the overflowing `int` product wraps, and for no behaviour of the overflow does
a delivered frame have 2^31 bytes or more. For a configuration whose
`width * height * 4` fits in `int`, every delivered frame has exactly that many
bytes and every conversion uses the stride `width * 4`. -/
theorem C14_buffer_size_computed_in_int :
    acceptedConfig config32k ∧
      (Impl.new 0 0 0).setFrameCallback.start setupOk config32k =
        some (true, mirroring32k,
          [Effect.popen BridgeCommand.push true,
            Effect.popen (BridgeCommand.launch 32768 60 8000000) true,
            Effect.popen BridgeCommand.forward true, Effect.spawn]) ∧
      config32k.width * config32k.height * 4 = 4294967296 ∧
      deliveredFrames (mirroring32k.captureLoop Env.typical (some (packets5 1)) [true, false]).events =
        [{ dataSize := 0, width := 32768, height := 32768, timestamp := 0, format := 26 }] ∧
      (∀ (env : Env) (st : Impl) (connection : Option Socket) (obs : List Bool),
        ∀ frame ∈ deliveredFrames (st.captureLoop env connection obs).events,
          frame.dataSize < 2147483648) ∧
      (∀ (env : Env) (st : Impl) (connection : Option Socket) (obs : List Bool),
        acceptedConfig st.currentConfig →
        st.currentConfig.width * st.currentConfig.height * 4 ≤ 2147483647 →
        (∀ frame ∈ deliveredFrames (st.captureLoop env connection obs).events,
          (frame.dataSize : Int) = st.currentConfig.width * st.currentConfig.height * 4) ∧
        (∀ stride ∈ scaleStrides (st.captureLoop env connection obs).events,
          stride = st.currentConfig.width * 4)) := by
  refine ⟨by decide, by decide, by decide, ?_, ?_, ?_⟩
  · have hpacket := readVideoPacket_packet5 Env.typical (by decide) [] AVPacket.blank
    have hpts : parsePts Env.typical header5 = 1 := by decide
    have hiter : mirroring32k.captureIteration Env.typical
        { sock := packets5 1, packet := AVPacket.blank, submitted := 0 } =
        ({ sock := [], packet := { data := payload5, size := 5, pts := 1 }, submitted := 1 },
          [CaptureEvent.readVideoPacket true
              [PacketEvent.read 12 12, PacketEvent.av_new_packet 5 true, PacketEvent.read 5 5],
            CaptureEvent.avcodec_send_packet true, CaptureEvent.avcodec_receive_frame true,
            CaptureEvent.sws_scale 32768 131072,
            CaptureEvent.frameCallback
              { dataSize := 0, width := 32768, height := 32768, timestamp := 0, format := 26 }]) := by
      have hbytes : toSizeT (mulInt Env.typical
          (mulInt Env.typical mirroring32k.currentConfig.width mirroring32k.currentConfig.height)
          4) = 0 := by decide
      have hstride : mulInt Env.typical mirroring32k.currentConfig.width 4 = 131072 := by decide
      unfold Impl.captureIteration
      simp only [packets5, List.replicate_succ, List.replicate_zero, hpacket, hpts, hbytes,
        hstride, Bool.not_true, Bool.false_eq_true, if_false]
      rfl
    simp only [Impl.captureLoop, Impl.captureIterations, hiter, List.append_nil]
    rfl
  · intro env st connection obs frame hframe
    obtain ⟨_, _, hsize, hfit⟩ := (captureLoop_frames st env connection obs).2.1 frame hframe
    obtain ⟨hlo, hhi⟩ := mulInt_range env
      (mulInt env st.currentConfig.width st.currentConfig.height) 4
    rw [hsize] at hfit ⊢
    have := toSizeT_small _ hlo hhi hfit
    omega
  · intro env st connection obs hgood hsmall
    obtain ⟨hw, hh, _, _⟩ := hgood
    have hprod : st.currentConfig.width * st.currentConfig.height ≤
        st.currentConfig.width * st.currentConfig.height * 4 := by nlinarith [mul_pos hw hh]
    have hpos : 0 < st.currentConfig.width * st.currentConfig.height := mul_pos hw hh
    have hwle : st.currentConfig.width * 4 ≤
        st.currentConfig.width * st.currentConfig.height * 4 := by nlinarith
    have hmul1 : mulInt env st.currentConfig.width st.currentConfig.height =
        st.currentConfig.width * st.currentConfig.height :=
      mulInt_exact env _ _ (by omega) (by omega)
    have hmul2 : mulInt env (st.currentConfig.width * st.currentConfig.height) 4 =
        st.currentConfig.width * st.currentConfig.height * 4 :=
      mulInt_exact env _ _ (by omega) (by omega)
    have hmul3 : mulInt env st.currentConfig.width 4 = st.currentConfig.width * 4 :=
      mulInt_exact env _ _ (by omega) (by omega)
    constructor
    · intro frame hframe
      obtain ⟨_, _, hsize, hfit⟩ := (captureLoop_frames st env connection obs).2.1 frame hframe
      rw [hsize, hmul1, hmul2]
      unfold toSizeT
      omega
    · intro stride hstride
      rw [(captureLoop_frames st env connection obs).2.2 stride hstride, hmul3]

/-- C15: in every reachable state in which a capture thread exists (the thread
handle is joinable), the stored configuration is one that passed validation,
and every frame that a run or a single iteration of the capture loop hands to
the frame callback has `width > 0` and `height > 0`; whenever a `start` call on
a reachable state replaces the stored configuration, no capture thread exists
at that moment (an active session has been stopped and its thread joined). -/
theorem C15_frames_have_positive_size (st : Impl) (hreach : Reachable st)
    (hthread : st.captureThread = true) :
    acceptedConfig st.currentConfig ∧
      (∀ (env : Env) (connection : Option Socket) (obs : List Bool),
        ∀ frame ∈ deliveredFrames (st.captureLoop env connection obs).events,
          0 < frame.width ∧ 0 < frame.height) ∧
      (∀ (env : Env) (ls : LoopState),
        ∀ frame ∈ deliveredFrames (st.captureIteration env ls).2,
          0 < frame.width ∧ 0 < frame.height) ∧
      (∀ st0 : Impl, Reachable st0 →
        (if st0.active = true then st0.stop else (st0, [])).1.captureThread = false) := by
  have hwf := wellFormed_of_reachable st hreach
  have hactive : st.active = true := by rw [← hwf.1]; exact hthread
  have hgood := hwf.2.1 hactive
  refine ⟨hgood, ?_, ?_, ?_⟩
  · intro env connection obs frame hframe
    obtain ⟨hw, hh, _, _⟩ := (captureLoop_frames st env connection obs).2.1 frame hframe
    rw [hw, hh]
    exact ⟨hgood.1, hgood.2.1⟩
  · intro env ls frame hframe
    obtain ⟨hw, hh, _, _⟩ := (captureIteration_frames st env ls).2.1 frame hframe
    rw [hw, hh]
    exact ⟨hgood.1, hgood.2.1⟩
  · intro st0 hreach0
    exact (stopped_props st0 (wellFormed_of_reachable st0 hreach0)).2.1

/-- Witness of `C15_frames_have_positive_size`: the session that
`setFrameCallback` and `start(config32k)` produce on a fresh object. -/
theorem C15_frames_have_positive_size_witness :
    acceptedConfig mirroring32k.currentConfig ∧
      (∀ (env : Env) (connection : Option Socket) (obs : List Bool),
        ∀ frame ∈ deliveredFrames (mirroring32k.captureLoop env connection obs).events,
          0 < frame.width ∧ 0 < frame.height) ∧
      (∀ (env : Env) (ls : LoopState),
        ∀ frame ∈ deliveredFrames (mirroring32k.captureIteration env ls).2,
          0 < frame.width ∧ 0 < frame.height) ∧
      (∀ st0 : Impl, Reachable st0 →
        (if st0.active = true then st0.stop else (st0, [])).1.captureThread = false) :=
  C15_frames_have_positive_size mirroring32k
    ⟨0, 0, 0, [Op.setFrameCallback, Op.start setupOk config32k], by decide⟩ (by decide)

/-- C19: in every run of `captureLoop`, the number of frame-callback
invocations is at most the number of packets that `readVideoPacket` read
successfully; when `count` well-formed packets arrive, each in one piece, and
the socket is then closed, with the allocations succeeding, at most `count`
packets are read and at most `count` callbacks are made (at most 10 for 10
packets), however long the loop goes on. -/
theorem C19_callbacks_at_most_packets (st : Impl) (env : Env) (connection : Option Socket)
    (obs : List Bool) :
    (deliveredFrames (st.captureLoop env connection obs).events).length ≤
        packetsRead (st.captureLoop env connection obs).events ∧
      (∀ count : Nat, env.av_new_packet 5 = true →
        packetsRead (st.captureLoop env (some (packets5 count)) obs).events ≤ count ∧
          (deliveredFrames (st.captureLoop env (some (packets5 count)) obs).events).length
            ≤ count) ∧
      (env.av_new_packet 5 = true →
        (deliveredFrames (st.captureLoop env (some (packets5 10)) obs).events).length ≤ 10) := by
  have hgeneral : ∀ count : Nat, env.av_new_packet 5 = true →
      packetsRead (st.captureLoop env (some (packets5 count)) obs).events ≤ count ∧
        (deliveredFrames (st.captureLoop env (some (packets5 count)) obs).events).length
          ≤ count := by
    intro count halloc
    have hreads : packetsRead (st.captureLoop env (some (packets5 count)) obs).events ≤ count :=
      packetsRead_packets5 st env halloc obs count AVPacket.blank 0
    have hframes := (captureLoop_frames st env (some (packets5 count)) obs).1
    exact ⟨hreads, by omega⟩
  exact ⟨(captureLoop_frames st env connection obs).1, hgeneral,
    fun halloc => (hgeneral 10 halloc).2⟩

end ScreenMirror

end mirrolink

namespace mirrolink

namespace gui

namespace MainWindow

/-! ## Main window error policy: helper lemmas -/

theorem countError_chain (statics : ErrorStatics) (t previous : Nat) (rest : List Nat)
    (hcount : statics.errorCount = (chainFrom (previous :: rest) : Int))
    (hlast : statics.lastErrorTime = previous) :
    (countError statics t).errorCount = (chainFrom (t :: previous :: rest) : Int) ∧
      (countError statics t).lastErrorTime = t := by
  unfold countError
  simp only [hlast, hcount, chainFrom, and_true]
  split <;> simp

theorem staticsAfter_snoc (times : List Nat) (t : Nat) :
    staticsAfter (times ++ [t]) = countError (staticsAfter times) t := by
  simp [staticsAfter, List.foldl_append]

theorem staticsAfter_chain (times : List Nat) (t : Nat) :
    (staticsAfter (times ++ [t])).errorCount = (errorChain (times ++ [t]) : Int) ∧
      (staticsAfter (times ++ [t])).lastErrorTime = t := by
  induction times using List.reverseRecOn generalizing t with
  | nil =>
    simp only [List.nil_append, staticsAfter, List.foldl, countError, ErrorStatics.initial,
      errorChain, List.reverse_cons, List.reverse_nil, chainFrom, and_true]
    split <;> simp
  | append_singleton init previous ih =>
    obtain ⟨hcount, hlast⟩ := ih previous
    rw [staticsAfter_snoc]
    have hrev : errorChain (init ++ [previous] ++ [t]) =
        chainFrom (t :: previous :: init.reverse) := by
      simp [errorChain]
    have hrev2 : errorChain (init ++ [previous]) = chainFrom (previous :: init.reverse) := by
      simp [errorChain]
    rw [hrev]
    rw [hrev2] at hcount
    exact countError_chain _ t previous init.reverse hcount hlast

theorem recoverFromError_false_iff (env : SetupEnv) (statics : ErrorStatics) (currentTime : Nat)
    (screenMirror : ScreenMirror.Impl) :
    (recoverFromError env statics currentTime screenMirror).map (fun r => r.1) = some false ↔
      (countError statics currentTime).errorCount > 5 := by
  unfold recoverFromError
  simp only
  by_cases hcount : (countError statics currentTime).errorCount > 5
  · simp [hcount]
  · simp only [hcount, if_false, iff_false]
    split
    · split <;> simp
    · simp

theorem recoverFromError_of_count (env : SetupEnv) (statics : ErrorStatics) (currentTime : Nat)
    (screenMirror : ScreenMirror.Impl)
    (hcount : (countError statics currentTime).errorCount > 5) :
    recoverFromError env statics currentTime screenMirror =
      some (false, countError statics currentTime, screenMirror, []) := by
  unfold recoverFromError
  simp [hcount]

theorem subUint32_of_le (a b : Nat) (hba : b ≤ a) (ha : a < 4294967296) :
    subUint32 a b = a - b := by
  unfold subUint32
  omega

theorem countError_count_pos (statics : ErrorStatics) (t : Nat)
    (hnonneg : 0 ≤ statics.errorCount) : 1 ≤ (countError statics t).errorCount := by
  unfold countError
  simp only
  split <;> omega

theorem countError_count_succ (statics : ErrorStatics) (t : Nat)
    (hgap : subUint32 t statics.lastErrorTime ≤ 5000) :
    (countError statics t).errorCount = statics.errorCount + 1 := by
  unfold countError
  simp only
  rw [if_neg (by omega)]

end MainWindow

end gui

end mirrolink

namespace mirrolink

namespace ScreenMirror

theorem start_of_encoder_down (env : SetupEnv) (st : Impl) (config : ScreenConfig)
    (hgood : acceptedConfig config) (hup : bridgeUp env) (hfail : ¬ encoderUp env) :
    ∃ st1 effects, st.start env config = some (false, st1, effects) := by
  have hvalid := (accepted_iff_not_invalid config).1 hgood
  unfold invalidConfig at hvalid
  unfold Impl.start
  generalize (if st.active = true then st.stop else (st, [])) = stopped
  have hdim : ¬ (config.width ≤ 0 ∨ config.height ≤ 0) := by omega
  have hfps : ¬ (config.maxFps ≤ 0 ∨ config.maxFps > 120) := by omega
  have hfst : (Impl.initializeEncoder { stopped.1 with currentConfig := config } env).1 = false := by
    cases hh : (Impl.initializeEncoder { stopped.1 with currentConfig := config } env).1
    · rfl
    · exact absurd ((initializeEncoder_fst _ env).1 hh) hfail
  simp only [hdim, hfps, if_false]
  rw [setupAdbForward_of_up _ env hup]
  simp only [Bool.not_true, Bool.false_eq_true, if_false, hfst, Bool.not_false, if_true]
  exact ⟨_, _, rfl⟩

theorem start_returns (env : SetupEnv) (st : Impl) (config : ScreenConfig)
    (hthread : (if st.active = true then st.stop else (st, [])).1.captureThread = false) :
    (st.start env config).isSome = true := by
  by_cases hbad : invalidConfig config
  · rw [start_of_invalid env st config hbad]
    rfl
  · have hgood := (accepted_iff_not_invalid config).2 hbad
    by_cases hup : bridgeUp env
    · by_cases henc : encoderUp env
      · cases hspawn : env.threadStarts
        · rw [start_of_thread_fail env st config hgood hup henc hspawn]
          rfl
        · rw [start_of_success env st config hthread hgood ⟨hup, henc, hspawn⟩]
          rfl
      · obtain ⟨st1, effects, heq⟩ := start_of_encoder_down env st config hgood hup henc
        rw [heq]
        rfl
    · obtain ⟨effects, heq⟩ := start_of_bridge_down env st config hgood hup
      rw [heq]
      rfl

end ScreenMirror

namespace gui

namespace MainWindow

theorem recoverFromError_returns (env : SetupEnv) (statics : ErrorStatics) (currentTime : Nat)
    (screenMirror : ScreenMirror.Impl) :
    (recoverFromError env statics currentTime screenMirror).isSome = true := by
  unfold recoverFromError
  simp only
  split
  · rfl
  · split
    · rename_i hactive
      have hact : screenMirror.active = true := hactive
      have hstop := ScreenMirror.stop_of_active screenMirror hact
      have hthread : (if screenMirror.stop.1.active = true then screenMirror.stop.1.stop
          else (screenMirror.stop.1, [])).1.captureThread = false := by
        simp [hstop]
      have hsome := ScreenMirror.start_returns env screenMirror.stop.1
        (ScreenMirror.getConfig screenMirror.stop.1) hthread
      obtain ⟨r, hr⟩ := Option.isSome_iff_exists.1 hsome
      obtain ⟨ok, restarted, effects⟩ := r
      simp [hr]
    · rfl

/-! ## Main window error policy: the claim -/

/-- C20, as stated, fails: after errors at 1000, 5000, 9000, 13000 and 17000 ms
the call at 21000 ms returns false with the count at 6, although no 5-second
window holds more than two of these six errors. -/
theorem C20_counterexample :
    (∀ start : Nat, errorsInWindow (spacedErrors ++ [21000]) start ≤ 2) ∧
      staticsAfter spacedErrors = { errorCount := 5, lastErrorTime := 17000 } ∧
      recoverFromError ScreenMirror.setupOk (staticsAfter spacedErrors) 21000 (ScreenMirror.Impl.new 0 0 0) =
        some (false, ({ errorCount := 6, lastErrorTime := 21000 } : ErrorStatics),
          ScreenMirror.Impl.new 0 0 0, ([] : List Effect)) := by
  refine ⟨?_, ?_, ?_⟩
  · intro start
    simp only [errorsInWindow, spacedErrors, List.cons_append, List.nil_append, List.countP_cons,
      List.countP_nil, decide_eq_true_eq]
    split_ifs <;> omega
  · decide
  · decide

/-- C20 (amended): `recoverFromError` always returns, and it returns false on an
error exactly when that error is at least the sixth of a chain of errors in
which each came at most 5000 ms after the one before it: the count is reset
only when more than 5 seconds passed since the previous error, not when the
errors leave a 5-second window. Hence six errors within 5 seconds always make
the sixth call return false, and errors spaced up to 5 seconds apart add up
as well. -/
theorem C20_shutdown_by_error_chain (env : SetupEnv) (times : List Nat) (t : Nat)
    (screenMirror : ScreenMirror.Impl) :
    (recoverFromError env (staticsAfter times) t screenMirror).isSome = true ∧
      ((recoverFromError env (staticsAfter times) t screenMirror).map (fun r => r.1) = some false ↔
        6 ≤ errorChain (times ++ [t])) ∧
      (∀ (statics : ErrorStatics) (t1 t2 t3 t4 t5 t6 : Nat), 0 ≤ statics.errorCount →
        t1 ≤ t2 → t2 ≤ t3 → t3 ≤ t4 → t4 ≤ t5 → t5 ≤ t6 → t6 < 4294967296 → t6 ≤ t1 + 5000 →
        recoverFromError env ([t1, t2, t3, t4, t5].foldl countError statics) t6 screenMirror =
          some (false, countError ([t1, t2, t3, t4, t5].foldl countError statics) t6,
            screenMirror, [])) := by
  refine ⟨recoverFromError_returns env _ t screenMirror, ?_, ?_⟩
  · rw [recoverFromError_false_iff, ← staticsAfter_snoc, (staticsAfter_chain times t).1]
    omega
  · intro statics t1 t2 t3 t4 t5 t6 hnonneg h12 h23 h34 h45 h56 hbound hwindow
    apply recoverFromError_of_count
    simp only [List.foldl]
    have h1 := countError_count_pos statics t1 hnonneg
    have h2 := countError_count_succ (countError statics t1) t2
      (by rw [show (countError statics t1).lastErrorTime = t1 from rfl,
            subUint32_of_le t2 t1 h12 (by omega)]; omega)
    have h3 := countError_count_succ (countError (countError statics t1) t2) t3
      (by rw [show (countError (countError statics t1) t2).lastErrorTime = t2 from rfl,
            subUint32_of_le t3 t2 h23 (by omega)]; omega)
    have h4 := countError_count_succ (countError (countError (countError statics t1) t2) t3) t4
      (by rw [show (countError (countError (countError statics t1) t2) t3).lastErrorTime = t3
              from rfl,
            subUint32_of_le t4 t3 h34 (by omega)]; omega)
    have h5 := countError_count_succ
      (countError (countError (countError (countError statics t1) t2) t3) t4) t5
      (by rw [show (countError (countError (countError (countError statics t1) t2) t3)
              t4).lastErrorTime = t4 from rfl,
            subUint32_of_le t5 t4 h45 (by omega)]; omega)
    have h6 := countError_count_succ
      (countError (countError (countError (countError (countError statics t1) t2) t3) t4) t5) t6
      (by rw [show (countError (countError (countError (countError (countError statics t1) t2)
              t3) t4) t5).lastErrorTime = t5 from rfl,
            subUint32_of_le t6 t5 h56 (by omega)]; omega)
    omega

end MainWindow

end gui

end mirrolink

namespace mirrolink

namespace DeviceManager

/-! ## Device manager: polls, start-up and the session invariant -/

theorem disconnectLoop_events (cb : Bool) (cur prev : List DeviceInfo)
    (active : Option DeviceInfo) :
    (disconnectLoop cb cur prev active).2 =
      if cb = true then
        (prev.filter (fun e => !(cur.any (fun c => e.serial = c.serial)))).map
          DeviceEvent.disconnected
      else [] := by
  induction prev generalizing active with
  | nil => simp [disconnectLoop]
  | cons e rest ih =>
    unfold disconnectLoop
    by_cases hs : stillConnected e cur = true
    · rw [if_pos hs, ih]
      have hs2 : (cur.any (fun c => e.serial = c.serial)) = true := hs
      simp [List.filter_cons, hs2]
    · rw [if_neg hs]
      have hs2 : (cur.any (fun c => e.serial = c.serial)) = false := by
        simpa [stillConnected] using hs
      simp only [ih]
      cases cb <;> simp [List.filter_cons, hs2]

theorem connectLoop_events (cb : Bool) (prev cur : List DeviceInfo) :
    connectLoop cb prev cur =
      if cb = true then
        (cur.filter (fun c => !(prev.any (fun e => c.serial = e.serial)))).map
          DeviceEvent.connected
      else [] := by
  induction cur with
  | nil => simp [connectLoop]
  | cons c rest ih =>
    unfold connectLoop
    by_cases hn : isNew c prev = true
    · rw [if_pos hn, ih]
      have hn2 : (!(prev.any (fun e => c.serial = e.serial))) = true := hn
      cases cb <;> simp [List.filter_cons, hn2]
    · rw [if_neg hn, ih]
      have hn2 : (!(prev.any (fun e => c.serial = e.serial))) = false := by
        simpa [isNew] using hn
      cases cb <;> simp [List.filter_cons, hn2]

theorem filter_registered_disconnected (st : Impl) (l : List DeviceInfo) :
    (l.map DeviceEvent.disconnected).filter (registered st) =
      if st.disconnectedCallback = true then l.map DeviceEvent.disconnected else [] := by
  induction l with
  | nil => simp
  | cons d rest ih =>
    cases hcb : st.disconnectedCallback <;>
      simp [List.filter_cons, registered, hcb] at ih ⊢

theorem filter_registered_connected (st : Impl) (l : List DeviceInfo) :
    (l.map DeviceEvent.connected).filter (registered st) =
      if st.connectedCallback = true then l.map DeviceEvent.connected else [] := by
  induction l with
  | nil => simp
  | cons d rest ih =>
    cases hcb : st.connectedCallback <;>
      simp [List.filter_cons, registered, hcb] at ih ⊢

theorem updateConnectedDevices_events (st : Impl) (snapshot : List DeviceInfo) :
    (st.updateConnectedDevices snapshot).2 =
      (expectedCallbacks st.connectedDevices snapshot).filter (registered st) := by
  simp only [Impl.updateConnectedDevices, expectedCallbacks, List.filter_append,
    filter_registered_disconnected, filter_registered_connected, disconnectLoop_events,
    connectLoop_events]

theorem disconnectLoop_keeps (cb : Bool) (cur prev : List DeviceInfo)
    (active : Option DeviceInfo) (c : DeviceInfo)
    (h : (disconnectLoop cb cur prev active).1 = some c) :
    active = some c ∧ ∀ e ∈ prev, e.serial = c.serial → stillConnected e cur = true := by
  induction prev generalizing active with
  | nil =>
    simp only [disconnectLoop] at h
    exact ⟨h, by simp⟩
  | cons e rest ih =>
    unfold disconnectLoop at h
    by_cases hs : stillConnected e cur = true
    · rw [if_pos hs] at h
      obtain ⟨hact, hall⟩ := ih active h
      refine ⟨hact, ?_⟩
      intro e2 he2 hser
      rcases List.mem_cons.1 he2 with rfl | hmem
      · exact hs
      · exact hall e2 hmem hser
    · rw [if_neg hs] at h
      simp only at h
      cases active with
      | none =>
        rw [disconnectLoop_none] at h
        cases h
      | some a =>
        by_cases hae : a.serial = e.serial
        · simp only [hae, if_true] at h
          rw [disconnectLoop_none] at h
          cases h
        · simp only [hae, if_false] at h
          obtain ⟨hact, hall⟩ := ih (some a) h
          refine ⟨hact, ?_⟩
          intro e2 he2 hser
          rcases List.mem_cons.1 he2 with rfl | hmem
          · cases hact
            exact absurd hser.symm hae
          · exact hall e2 hmem hser

theorem sessionInSet_apply (st : Impl) (op : Op) (h : st.sessionInSet) :
    (st.apply op).sessionInSet := by
  cases op with
  | connectDevice serial =>
    intro cur hcur
    simp only [Impl.apply, Impl.connectDevice] at hcur ⊢
    cases hfind : findDevice serial st.connectedDevices with
    | none =>
      rw [hfind] at hcur
      simp only [hfind]
      exact h cur hcur
    | some found =>
      rw [hfind] at hcur
      simp only [hfind]
      have hfound := findDevice_eq_some serial st.connectedDevices found hfind
      simp only [Option.some.injEq] at hcur
      subst hcur
      exact ⟨found, hfound.1, rfl⟩
  | disconnectDevice =>
    intro cur hcur
    simp [Impl.apply, Impl.disconnectDevice] at hcur
  | onDeviceConnected => exact h
  | onDeviceDisconnected => exact h
  | poll snapshot =>
    intro cur hcur
    simp only [Impl.apply, Impl.updateConnectedDevices] at hcur ⊢
    obtain ⟨hact, hall⟩ := disconnectLoop_keeps _ _ _ _ cur hcur
    obtain ⟨d, hd, hds⟩ := h cur hact
    obtain ⟨d2, hd2, hdd⟩ := (stillConnected_iff d snapshot).1 (hall d hd hds)
    exact ⟨d2, hd2, hdd.symm.trans hds⟩

theorem sessionInSet_run (ops : List Op) (st : Impl) (h : st.sessionInSet) :
    ( Impl.run st ops).sessionInSet := by
  induction ops generalizing st with
  | nil => exact h
  | cons op rest ih =>
    simp only [Impl.run, List.foldl_cons]
    exact ih (st.apply op) (sessionInSet_apply st op h)

theorem execute_unchecked (command : String) (pipe : Option String) :
    AdbCommand.execute command pipe false =
      match pipe with
      | none => Except.error ("Failed to execute ADB command: " ++ command)
      | some result => Except.ok result := by
  cases pipe <;> simp [AdbCommand.execute]

theorem serialCount_pos (s : String) (devices : List DeviceInfo)
    (h : ∃ d ∈ devices, d.serial = s) : 1 ≤ serialCount s devices := by
  obtain ⟨d, hd, hds⟩ := h
  exact List.countP_pos_iff.2 ⟨d, hd, by simpa using hds⟩

theorem processDevice_of_accepted (device : UsbDevice) (haccepted : accepted device = true) :
    ∃ desc, device.descriptor = some desc ∧ isAndroidDevice desc = true ∧
      device.openOk = true ∧
      ∀ acc, processDevice device acc = acc ++
        [{ serial := readStringField device desc.iSerialNumber
           model := readStringField device desc.iProduct
           manufacturer := readStringField device desc.iManufacturer
           api_level := device.uninit_api_level
           authorized := device.uninit_authorized }] := by
  unfold accepted at haccepted
  cases hdesc : device.descriptor with
  | none => simp [hdesc] at haccepted
  | some desc =>
    simp only [hdesc, Bool.and_eq_true] at haccepted
    refine ⟨desc, rfl, haccepted.1, haccepted.2, ?_⟩
    intro acc
    simp [processDevice, getDeviceInfo, hdesc, haccepted.1, haccepted.2]

theorem processDevice_of_not_accepted (device : UsbDevice) (acc : List DeviceInfo)
    (h : accepted device = false) : processDevice device acc = acc := by
  unfold accepted at h
  cases hdesc : device.descriptor with
  | none => simp [processDevice, hdesc]
  | some desc =>
    simp only [hdesc, Bool.and_eq_false_iff] at h
    rcases h with h | h
    · simp [processDevice, hdesc, h]
    · simp [processDevice, getDeviceInfo, hdesc, h]

/-! ## Device manager: further claims -/

/-- C21, as stated, fails: a Google device (allow-listed vendor 0x18d1) that
can be opened and whose serial descriptor cannot be read is not skipped. One
poll of a manager with both callbacks registered lists it in
`getConnectedDevices()` with an empty serial and fires the connect callback
for it. -/
theorem C21_counterexample :
    (usbPixel none).descriptor.map isAndroidDevice = some true ∧
      (usbPixel none).asciiString 3 = none ∧
      (listening.checkDevices (some [usbPixel none])).1.getConnectedDevices = [pixelNoSerial] ∧
      (listening.checkDevices (some [usbPixel none])).2 = [DeviceEvent.connected pixelNoSerial] := by
  decide

/-- C21 (amended): an enumerated device whose device descriptor can be read,
whose vendor is allow-listed and which can be opened is never skipped, whatever
its string descriptors answer: `processDevice` appends one record for it, in
which a field whose string descriptor cannot be read is the empty string; the
record is listed by `getConnectedDevices()` after the poll, and the connect
callback, when registered, fires for its serial if the previous DeviceSet has
no record with that serial. A device is skipped exactly when its device
descriptor cannot be read, its vendor is not allow-listed or it cannot be
opened. -/
theorem C21_unreadable_string_keeps_device (st : Impl) (before after : List UsbDevice)
    (device : UsbDevice) (haccepted : accepted device = true) :
    (∃ desc, device.descriptor = some desc ∧
      ∀ acc, processDevice device acc = acc ++
        [{ serial := readStringField device desc.iSerialNumber
           model := readStringField device desc.iProduct
           manufacturer := readStringField device desc.iManufacturer
           api_level := device.uninit_api_level
           authorized := device.uninit_authorized }]) ∧
      (∀ index, device.asciiString index = none → readStringField device index = "") ∧
      (∃ d ∈ (st.checkDevices (some (before ++ device :: after))).1.getConnectedDevices,
        d.serial = reportedSerial device) ∧
      (st.connectedCallback = true →
        (∀ d ∈ st.connectedDevices, d.serial ≠ reportedSerial device) →
        1 ≤ connectCount (reportedSerial device)
          (st.checkDevices (some (before ++ device :: after))).2) ∧
      (∀ other acc, processDevice other acc = acc ↔ accepted other = false) := by
  obtain ⟨desc, hdesc, _, _, hproc⟩ := processDevice_of_accepted device haccepted
  have hmem : ∃ d ∈ collectDevices (before ++ device :: after),
      d.serial = reportedSerial device := by
    have hmap := foldl_processDevice (before ++ device :: after) []
    have hin : reportedSerial device ∈
        (collectDevices (before ++ device :: after)).map (fun d => d.serial) := by
      unfold collectDevices
      rw [hmap]
      simp only [List.map_nil, List.nil_append]
      exact List.mem_map.2 ⟨device, List.mem_filter.2 ⟨by simp, haccepted⟩, rfl⟩
    obtain ⟨d, hd, hds⟩ := List.mem_map.1 hin
    exact ⟨d, hd, hds⟩
  refine ⟨⟨desc, hdesc, hproc⟩, ?_, ?_, ?_, ?_⟩
  · intro index hnone
    simp [readStringField, hnone]
  · simpa [Impl.checkDevices, Impl.updateConnectedDevices, Impl.getConnectedDevices] using hmem
  · intro hcb habsent
    simp only [Impl.checkDevices, Impl.updateConnectedDevices, connectCount_append,
      connectCount_disconnectLoop, connectCount_connectLoop, Nat.zero_add]
    rw [if_pos ⟨hcb, habsent⟩]
    exact serialCount_pos _ _ hmem
  · intro other acc
    constructor
    · intro hsame
      by_contra hacc
      have hacc2 : accepted other = true := by simpa using hacc
      obtain ⟨d2, _, _, _, hp⟩ := processDevice_of_accepted other hacc2
      rw [hp acc] at hsame
      have hlen := congrArg List.length hsame
      simp at hlen
    · exact processDevice_of_not_accepted other acc

/-- Witness of `C21_unreadable_string_keeps_device`: the Google device whose
serial descriptor cannot be read, enumerated alone on a manager with both
callbacks registered. -/
theorem C21_unreadable_string_keeps_device_witness :
    accepted (usbPixel none) = true ∧
      (∃ d ∈ (listening.checkDevices (some ([] ++ usbPixel none :: []))).1.getConnectedDevices,
        d.serial = reportedSerial (usbPixel none)) ∧
      1 ≤ connectCount (reportedSerial (usbPixel none))
        (listening.checkDevices (some ([] ++ usbPixel none :: []))).2 :=
  ⟨by decide,
    (C21_unreadable_string_keeps_device listening [] [] (usbPixel none) (by decide)).2.2.1,
    (C21_unreadable_string_keeps_device listening [] [] (usbPixel none) (by decide)).2.2.2.1
      (by decide) (by decide)⟩

/-- C23: the code returns true from a second start-up call, where the unit
test `MultipleInitializationAttempts` expects false. On a fresh manager the
first call, with every step succeeding, returns true and starts the monitor
thread; the second call on the resulting state runs `libusb_init` and
`adb devices` again and returns true, leaving the state as it was. It starts
no second thread. The same holds after any successful first call whenever the
USB context and the bridge tool are still available. -/
theorem C23_second_initialize_returns_true :
    Impl.initialize Impl.new initOk =
        (true, setUp,
          [InitEffect.libusb_init, InitEffect.adb "devices", InitEffect.spawnMonitor]) ∧
      Impl.initialize setUp initOk =
        (true, setUp, [InitEffect.libusb_init, InitEffect.adb "devices"]) ∧
      (∀ (st : Impl) (env1 env2 : InitEnv),
        ( Impl.initialize st env1).1 = true → env2.libusb_init = 0 →
        env2.adbDevices.isSome = true →
        Impl.initialize ( Impl.initialize st env1).2.1 env2 =
          (true, ( Impl.initialize st env1).2.1,
            [InitEffect.libusb_init, InitEffect.adb "devices"])) := by
  refine ⟨by decide, by decide, ?_⟩
  intro st env1 env2 hfirst hinit hadb
  have hmon : ( Impl.initialize st env1).2.1.monitoring = true := by
    revert hfirst
    unfold Impl.initialize
    by_cases hinit1 : env1.libusb_init = 0
    · cases hadb1 : env1.adbDevices with
      | none => simp [hinit1, execute_unchecked]
      | some output =>
        cases hm : st.monitoring <;> cases hthr : env1.threadStarts <;>
          simp [hinit1, execute_unchecked, Impl.startMonitoring, hm, hthr]
    · simp [hinit1]
  have hini : ( Impl.initialize st env1).2.1.initialized = true := by
    revert hfirst
    unfold Impl.initialize
    by_cases hinit1 : env1.libusb_init = 0
    · cases hadb1 : env1.adbDevices with
      | none => simp [hinit1, execute_unchecked]
      | some output =>
        cases hm : st.monitoring <;> cases hthr : env1.threadStarts <;>
          simp [hinit1, execute_unchecked, Impl.startMonitoring, hm, hthr]
    · simp [hinit1]
  generalize ( Impl.initialize st env1).2.1 = st2 at hmon hini
  obtain ⟨output, hout⟩ := Option.isSome_iff_exists.1 hadb
  cases st2
  simp only at hmon hini
  subst hmon hini
  simp [ Impl.initialize, hinit, hout, execute_unchecked, Impl.startMonitoring]

/-- C28: in every state reached from a fresh manager by a sequence of
`connectDevice`, `disconnectDevice`, callback registrations and polls with any
snapshots, an ActiveSession that is set has a serial that occurs in the
current DeviceSet. The invariant is not vacuous: after a poll that sees "8A2X"
and "R58M" and a `connectDevice("R58M")`, ActiveSession is set, and a later
poll that no longer sees "R58M" clears it. -/
theorem C28_active_session_in_device_set (ops : List Op) :
    ( Impl.run Impl.new ops).sessionInSet ∧
      ( Impl.run Impl.new
        [Op.poll [pixel8A2X, galaxyR58M], Op.connectDevice "R58M"]).currentDevice =
          some galaxyR58M ∧
      ( Impl.run Impl.new
        [Op.poll [pixel8A2X, galaxyR58M], Op.connectDevice "R58M",
          Op.poll [pixel8A2X]]).currentDevice = none := by
  refine ⟨sessionInSet_run ops Impl.new ?_, by decide, by decide⟩
  intro cur hcur
  simp [Impl.new] at hcur

/-- C30: for every manager state and every snapshot, the callbacks fired by one
poll are, in this order, a disconnect callback for each old record whose serial
is absent from the snapshot, in old-DeviceSet order, then a connect callback
for each snapshot record whose serial is absent from the old DeviceSet, in
snapshot order (each kind only if its callback is registered, so with both
registered the sequence is exactly that list); afterwards
`getConnectedDevices()` returns the snapshot, and when every old serial occurs
in the snapshot and every snapshot serial in the old DeviceSet, no callback
fires. -/
theorem C30_poll_callback_sequence (st : Impl) (snapshot : List DeviceInfo) :
    (st.updateConnectedDevices snapshot).2 =
        (expectedCallbacks st.connectedDevices snapshot).filter (registered st) ∧
      (st.onDeviceConnected.onDeviceDisconnected.updateConnectedDevices snapshot).2 =
        expectedCallbacks st.connectedDevices snapshot ∧
      (st.updateConnectedDevices snapshot).1.getConnectedDevices = snapshot ∧
      ((∀ d ∈ st.connectedDevices, ∃ c ∈ snapshot, d.serial = c.serial) →
        (∀ c ∈ snapshot, ∃ d ∈ st.connectedDevices, c.serial = d.serial) →
        (st.updateConnectedDevices snapshot).2 = []) := by
  refine ⟨updateConnectedDevices_events st snapshot, ?_, rfl, ?_⟩
  · rw [updateConnectedDevices_events]
    apply List.filter_eq_self.2
    intro e _
    cases e <;> rfl
  · intro hold hnew
    rw [updateConnectedDevices_events]
    have h1 : (st.connectedDevices.filter
        (fun e => !(snapshot.any (fun c => e.serial = c.serial)))) = [] := by
      apply List.filter_eq_nil_iff.2
      intro d hd
      obtain ⟨c, hc, hdc⟩ := hold d hd
      simp only [Bool.not_eq_true, Bool.not_eq_false_eq_eq_true, Bool.not_not, List.any_eq_true]
      simpa using ⟨c, hc, hdc⟩
    have h2 : (snapshot.filter
        (fun c => !(st.connectedDevices.any (fun e => c.serial = e.serial)))) = [] := by
      apply List.filter_eq_nil_iff.2
      intro c hc
      obtain ⟨d, hd, hcd⟩ := hnew c hc
      simpa using ⟨d, hd, hcd⟩
    simp [expectedCallbacks, h1, h2]

end DeviceManager

end mirrolink

namespace mirrolink

/-! ## Packet reader: the payload loop and the byte stream -/

namespace ScreenMirror

/-! ## Recording and transient failures -/

theorem captureIteration_head (st : Impl) (env : Env) (ls : LoopState) :
    ∃ rest, (st.captureIteration env ls).2 =
      CaptureEvent.readVideoPacket (readVideoPacket env ls.sock ls.packet).ok
        (readVideoPacket env ls.sock ls.packet).trace :: rest := by
  unfold Impl.captureIteration
  simp only
  cases hok : (readVideoPacket env ls.sock ls.packet).ok
  · exact ⟨_, rfl⟩
  · simp only [Bool.not_true, Bool.false_eq_true, if_false]
    split
    · exact ⟨_, rfl⟩
    · exact ⟨_, rfl⟩
    · split
      · exact ⟨_, rfl⟩
      · exact ⟨_, rfl⟩

/-- C24: for every session state and every outcome of the container steps,
`startRecording` returns true exactly when the session is active, no recording
is in progress and the output context, the stream, the file and the header
were all set up, and then the recording flag is set with the container open.
Whenever it returns false, the recording flag and the active flag are as they
were, and either the call was rejected before anything was built and the state
is untouched, or the container context is released (null) and, once it had been
allocated, so is the stream. -/
theorem C24_startRecording_all_or_nothing (st : Impl) (env : RecordingEnv) :
    ((st.startRecording env).1 = true ↔
        st.active = true ∧ st.recording = false ∧ env.contextAllocated = true ∧
          env.streamCreated = true ∧ env.fileOpened = true ∧ env.headerWritten = true) ∧
      ((st.startRecording env).1 = true →
        (st.startRecording env).2.recording = true ∧
          (st.startRecording env).2.formatContext = some true ∧
          (st.startRecording env).2.stream = true) ∧
      ((st.startRecording env).1 = false →
        (st.startRecording env).2.recording = st.recording ∧
          (st.startRecording env).2.active = st.active ∧
          ((st.startRecording env).2 = st ∨
            ((st.startRecording env).2.formatContext = none ∧
              (env.contextAllocated = true → (st.startRecording env).2.stream = false)))) ∧
      mirroring720p.startRecording recordingOk =
        (true, { mirroring720p with recording := true, formatContext := some true,
                                    stream := true }) ∧
      mirroring720p.startRecording recordingHeaderFails = (false, mirroring720p) := by
  refine ⟨?_, ?_, ?_, by decide, by decide⟩
  · cases hr : st.recording <;> cases ha : st.active <;> cases h1 : env.contextAllocated <;>
      cases h2 : env.streamCreated <;> cases h3 : env.fileOpened <;>
      cases h4 : env.headerWritten <;>
      simp [Impl.startRecording, Impl.initializeRecording, Impl.cleanupRecording, hr, ha, h1, h2,
        h3, h4]
  · cases hr : st.recording <;> cases ha : st.active <;> cases h1 : env.contextAllocated <;>
      cases h2 : env.streamCreated <;> cases h3 : env.fileOpened <;>
      cases h4 : env.headerWritten <;>
      simp [Impl.startRecording, Impl.initializeRecording, Impl.cleanupRecording, hr, ha, h1, h2,
        h3, h4]
  · cases hr : st.recording <;> cases ha : st.active <;> cases h1 : env.contextAllocated <;>
      cases h2 : env.streamCreated <;> cases h3 : env.fileOpened <;>
      cases h4 : env.headerWritten <;>
      simp [Impl.startRecording, Impl.initializeRecording, Impl.cleanupRecording, hr, ha, h1, h2,
        h3, h4]

/-- C26: in every iteration of the loop of `captureLoop` in which
`readVideoPacket` fails (a failed header read included), the submission to the
decoder fails or the decoder yields no frame, no frame callback is invoked and
the iteration does not leave the loop: whether the run goes on depends only on
the later readings of the `active` flag, which the iteration does not write,
and when the flag is next read as true the loop calls `readVideoPacket` again,
on the socket as the failed iteration left it. -/
theorem C26_transient_failure_is_not_fatal (st : Impl) (env : Env) (ls : LoopState)
    (obs : List Bool)
    (hfail : (readVideoPacket env ls.sock ls.packet).ok = false ∨
      env.decode ls.submitted = DecodeOutcome.sendFailed ∨
      env.decode ls.submitted = DecodeOutcome.noFrame) :
    deliveredFrames (st.captureIteration env ls).2 = [] ∧
      CaptureEvent.close ∉ (st.captureIteration env ls).2 ∧
      (st.captureIteration env ls).1.sock = (readVideoPacket env ls.sock ls.packet).sock ∧
      (st.captureIterations env (true :: obs) ls).status =
        (st.captureIterations env obs (st.captureIteration env ls).1).status ∧
      (∃ rest, (st.captureIterations env (true :: true :: obs) ls).events =
        (st.captureIteration env ls).2 ++
          CaptureEvent.readVideoPacket
            (readVideoPacket env (st.captureIteration env ls).1.sock
              (st.captureIteration env ls).1.packet).ok
            (readVideoPacket env (st.captureIteration env ls).1.sock
              (st.captureIteration env ls).1.packet).trace :: rest) := by
  have hiter : deliveredFrames (st.captureIteration env ls).2 = [] ∧
      CaptureEvent.close ∉ (st.captureIteration env ls).2 ∧
      (st.captureIteration env ls).1.sock = (readVideoPacket env ls.sock ls.packet).sock := by
    unfold Impl.captureIteration
    simp only
    cases hok : (readVideoPacket env ls.sock ls.packet).ok
    · simp [deliveredFrames]
    · simp only [Bool.not_true, Bool.false_eq_true, if_false]
      rcases hfail with h | h | h
      · rw [hok] at h
        cases h
      · simp [h, deliveredFrames]
      · simp [h, deliveredFrames]
  refine ⟨hiter.1, hiter.2.1, hiter.2.2, rfl, ?_⟩
  obtain ⟨rest, hrest⟩ := captureIteration_head st env (st.captureIteration env ls).1
  refine ⟨rest ++ (st.captureIterations env obs
    (st.captureIteration env (st.captureIteration env ls).1).1).events, ?_⟩
  simp only [Impl.captureIterations, hrest, List.cons_append]

/-- Witness of `C26_transient_failure_is_not_fatal`: a mirroring session whose
socket has been closed by the peer; the header read fails, and with the flag
read as true again the loop makes the next header read. -/
theorem C26_transient_failure_is_not_fatal_witness :
    (readVideoPacket Env.typical closedLoopState.sock closedLoopState.packet).ok = false ∧
      deliveredFrames (mirroring720p.captureIteration Env.typical closedLoopState).2 = [] ∧
      (mirroring720p.captureIterations Env.typical [true] closedLoopState).status =
        (mirroring720p.captureIterations Env.typical []
          (mirroring720p.captureIteration Env.typical closedLoopState).1).status :=
  ⟨by decide,
    (C26_transient_failure_is_not_fatal mirroring720p Env.typical closedLoopState []
      (Or.inl (by decide))).1,
    (C26_transient_failure_is_not_fatal mirroring720p Env.typical closedLoopState []
      (Or.inl (by decide))).2.2.2.1⟩

end ScreenMirror

namespace utils

/-! ## Configuration manager -/

theorem setAll_pimplSettings (entries : List (String × ConfigValue)) (cm : ConfigManager) :
    (cm.setAll entries).pimplSettings = cm.pimplSettings := by
  induction entries generalizing cm with
  | nil => rfl
  | cons entry rest ih =>
    simp only [ConfigManager.setAll, List.foldl_cons] at ih ⊢
    rw [ih]
    rfl

/-- C25: `clear()` does not remove what `set` stored. `set` writes the map
`settings` of `ConfigManager`, which `get` reads, whereas `clear()` and
`hasKey` work on the map of the same name in `ConfigManager::Impl`. After
`set("window.width", 1920)` and `clear()` on a new manager,
`get<int>("window.width", 0)` returns 1920 and not the default 0, the optional
`get<int>("window.width")` holds 1920, and `hasKey("window.width")` is false;
in general `clear()` never changes what either `get` returns, and no `set`
makes `hasKey` true. -/
theorem C25_clear_keeps_settings :
    ((ConfigManager.new.set "window.width" (ConfigValue.int 1920)).clear.get "window.width"
        (ConfigValue.int 0) = ConfigValue.int 1920) ∧
      ((ConfigManager.new.set "window.width" (ConfigValue.int 1920)).clear.getOptional
        ConfigType.int "window.width" = some (ConfigValue.int 1920)) ∧
      ((ConfigManager.new.set "window.width" (ConfigValue.int 1920)).clear.hasKey
        "window.width" = false) ∧
      ((ConfigManager.new.set "window.width" (ConfigValue.int 1920)).hasKey
        "window.width" = false) ∧
      (∀ (cm : ConfigManager) (key : String) (d : ConfigValue),
        cm.clear.get key d = cm.get key d) ∧
      (∀ (cm : ConfigManager) (T : ConfigType) (key : String),
        cm.clear.getOptional T key = cm.getOptional T key) ∧
      (∀ (entries : List (String × ConfigValue)) (key : String),
        (ConfigManager.new.setAll entries).hasKey key = false ∧
          (ConfigManager.new.setAll entries).clear.hasKey key = false) := by
  refine ⟨by decide, by decide, by decide, by decide, fun _ _ _ => rfl, fun _ _ _ => rfl, ?_⟩
  intro entries key
  constructor
  · simp only [ConfigManager.hasKey, setAll_pimplSettings]
    rfl
  · rfl

end utils

namespace InputHandler

/-! ## Gamepad input -/

theorem buttonKeycode_none (button : Nat) (h : 14 ≤ button) : buttonKeycode button = none := by
  unfold buttonKeycode
  split <;> first | rfl | omega

/-- C27: the analog handling of `sendGamepadEvent` is never reached. For the
left trigger (button 18) pulled to 0.9, the second `switch` ("Handle analog
inputs (sticks and triggers)") would issue the key event KEYCODE_VOLUME_DOWN,
but the function issues no command, because the `default:` label of the first
`switch` returns for every button that is not one of the digital buttons 0 to
13; likewise a left-stick event (button 14) issues no mouse move. For every
event with a button of 14 or above no command is issued at all, and for a
button below 14 the analog `switch` has no `case`. -/
theorem C27_analog_inputs_unreachable :
    analogCommands AnalogMath.exact leftTriggerPulled =
        some ["shell input keyevent KEYCODE_VOLUME_DOWN"] ∧
      sendGamepadEvent AnalogMath.exact leftTriggerPulled = [] ∧
      (analogCommands AnalogMath.exact leftStickCentred).isSome = true ∧
      sendGamepadEvent AnalogMath.exact leftStickCentred = [] ∧
      (∀ (math : AnalogMath) (event : GamepadEvent), 14 ≤ event.button →
        sendGamepadEvent math event = []) ∧
      (∀ (math : AnalogMath) (event : GamepadEvent), event.button = 18 →
        math.triggerPulled event.value = true →
        analogCommands math event = some ["shell input keyevent KEYCODE_VOLUME_DOWN"]) ∧
      (∀ (math : AnalogMath) (event : GamepadEvent), event.button = 19 →
        math.triggerPulled event.value = true →
        analogCommands math event = some ["shell input keyevent KEYCODE_VOLUME_UP"]) ∧
      (∀ (math : AnalogMath) (event : GamepadEvent), event.button < 14 →
        analogCommands math event = none) := by
  have hall : ∀ (math : AnalogMath) (event : GamepadEvent), 14 ≤ event.button →
      sendGamepadEvent math event = [] := by
    intro math event h
    simp [sendGamepadEvent, buttonKeycode_none event.button h]
  have h18 : ∀ (math : AnalogMath) (event : GamepadEvent), event.button = 18 →
      math.triggerPulled event.value = true →
      analogCommands math event = some ["shell input keyevent KEYCODE_VOLUME_DOWN"] := by
    intro math event hb hv
    simp only [analogCommands, hb, hv, if_true]
    decide
  have h19 : ∀ (math : AnalogMath) (event : GamepadEvent), event.button = 19 →
      math.triggerPulled event.value = true →
      analogCommands math event = some ["shell input keyevent KEYCODE_VOLUME_UP"] := by
    intro math event hb hv
    simp only [analogCommands, hb, hv, if_true]
    decide
  refine ⟨?_, hall _ _ (by decide), ?_, hall _ _ (by decide), hall, h18, h19, ?_⟩
  · apply h18 _ _ rfl
    simp only [AnalogMath.exact, leftTriggerPulled]
    norm_num
  · simp [analogCommands, leftStickCentred]
  · intro math event h
    unfold analogCommands
    split <;> first | rfl | omega

end InputHandler

end mirrolink
